import Mathlib

/-!
# miRanda scan engine: `do_alignment` and `find_targets` (src/miRanda/src/scan.c)

A shallow embedding of the hit-extraction loop of `scan.c` and of the
pair-level driver, together with theorems about acceptance, the summary
totals, the strict seed check and the report lines.

Modelling conventions

* C `double` values (scores as compared with the thresholds, energies, the
  scan score) are exact rationals; `int` values are integers (every integer
  of the loop is bounded by a sequence length or by the number of candidates,
  so no wrap-around is modelled).
* A C string held in a character buffer is the list of its characters before
  the terminating NUL.  Buffers are only written through `putc`, which is
  exact for buffers whose bytes behind the terminator are NUL (the state
  `clear_hit` leaves).
* The strict seed check is computed from the two strings `sprintf` builds.
  scan.c scans two buffers of 200 characters that are never cleared; the
  scan of the buffers (`seed_counts_buf`) is the scan of the strings when
  both strings are shorter than 200 characters and the marker string is at
  least as long as the query string (`strict_constructs_fit`,
  `seed_counts_buf_eq`), as they are for the rows and fragments of one
  traced-back alignment.
* Heap arrays (`scores`, `good_ones_starts_j`, `good_ones_ends_j`) are total
  memory maps from index to cell; the allocation sizes of `find_targets`
  are not part of the map.
* Collaborators whose code is outside `scan.c` (`build_matrix`, `clear_hit`,
  `traceback`, `testfor_overlap`, `get_energy`) and the global configuration
  are the fields of `Env`.  `printhit` and `fprintf` are recorded as output
  lines.
-/

namespace MiRanda

/-! ## Data model -/

/-- The NUL character that terminates a C string. -/
def NUL : Char := Char.ofNat 0

/-- The space character. -/
def SPACE : Char := Char.ofNat 32

/-- One candidate endpoint, as `build_matrix` records it in `scores`. -/
structure score_struct where
  score : Int
  path : Int
  query_trace_end : Int
  reference_trace_end : Int
deriving DecidableEq, Repr

/-- The reusable hit construct.  `alignment0..2` are `alignment[0..2]`,
`rest0..5` are `rest[0..5]`. -/
structure hit_struct where
  score : ℚ
  query_start : Int
  query_end : Int
  ref_start : Int
  ref_end : Int
  alignment0 : List Char
  alignment1 : List Char
  alignment2 : List Char
  rest0 : List Char
  rest1 : List Char
  rest2 : List Char
  rest3 : List Char
  rest4 : List Char
  rest5 : List Char
deriving DecidableEq

/-- One append made to an `ExpString`: `append_char_ExpString` or
`append_int_ExpString`. -/
inductive ExpItem where
  | chr (c : Char)
  | int (n : Int)
deriving DecidableEq, Repr

/-- The `HitSummary` struct of scan.c. -/
structure HitSummary where
  scan_score : ℚ
  no_hits : Int
  max_hit : ℚ
  max_score : ℚ
  total_score : ℚ
  position_list : List ExpItem
deriving DecidableEq

/-- A line written to `fpout`, by `printhit` or by `fprintf` in
`find_targets`, with the values passed for its format arguments. -/
inductive OutLine where
  | rule
  | performing_scan
  | hit_report (query_length : Int) (hit : hit_struct) (energy : ℚ)
  | score_for_scan
  | summary_header
  | totals_energy (total_score end_score max_score max_hit : ℚ)
      (utr_processed mirna_len gene_len : Int) (positions : List ExpItem)
  | totals_no_energy (total_score max_score : ℚ)
      (utr_processed mirna_len gene_len : Int) (positions : List ExpItem)
  | no_hits_found
  | complete
deriving DecidableEq

/-- The global configuration read by scan.c and the collaborators it calls.
`testfor_overlap` returns its accept (`true`, C value 1) or reject (`false`,
C value 0) decision together with the value it leaves in `*good_ones_count`.
`build_matrix` returns the `scores` array it filled and `scores_length`. -/
structure Env where
  score_threshold : ℚ
  energy_threshold : ℚ
  strict : Bool
  no_energy : Bool
  verbosity : Bool
  debug : Bool
  build_matrix : List Char → List Char → Int → Int → (Nat → score_struct) →
    (Nat → score_struct) × Int
  clear_hit : hit_struct → Int → Int → hit_struct
  traceback : List Char → List Char → Int → Int → hit_struct → ℚ → hit_struct
  testfor_overlap : (Int → Int) → (Int → Int) → Int → Int → Int → Bool × Int
  get_energy : hit_struct → ℚ

/-! ## Character buffers -/

/-- The store `buf[j] = c` on a buffer holding the C string `buf`. -/
def putc (buf : List Char) (j : Nat) (c : Char) : List Char :=
  if j < buf.length then (if c = NUL then buf.take j else buf.set j c)
  else if j = buf.length ∧ c ≠ NUL then buf ++ [c]
  else buf

/-- The read `s[i]` of a C string: at and behind the end of the string the
terminator is read. -/
def charAt (s : List Char) (i : Int) : Char :=
  if i < 0 then NUL else s.getD i.toNat NUL

/-- Modelled from the spec: `string_toupper` (utils, not in src/), which
raises the aligned rows to upper case in place. -/
def string_toupper (s : List Char) : List Char := s.map Char.toUpper

/-! ## Flank construction (scan.c lines 141-180) -/

/-- The hit together with the two offset counters of the loop body. -/
structure FlankState where
  hit : hit_struct
  utr_offset3p : Int
  utr_offset5p : Int
deriving DecidableEq

/-- Body of the loop of lines 142-154 at index `j`. -/
def flank5_step (query_sequence reference_sequence : List Char)
    (s : FlankState) (j : Nat) : FlankState :=
  let diff : Int := s.hit.query_start - (j : Int)
  let h0 : hit_struct :=
    { s.hit with rest0 := putc s.hit.rest0 j (charAt query_sequence (j : Int)).toLower }
  let tmp_integer : Int := h0.ref_start - diff
  let s1 : FlankState :=
    if tmp_integer ≥ 0 then
      { s with
        hit := { h0 with
          rest1 := putc h0.rest1 j (charAt reference_sequence tmp_integer).toLower }
        utr_offset3p := s.utr_offset3p + 1 }
    else
      { s with hit := { h0 with rest1 := putc h0.rest1 j '-' } }
  { s1 with hit := { s1.hit with rest2 := putc s1.hit.rest2 j SPACE } }

/-- Lines 141-155: the 5 prime unaligned region of the query. -/
def flank5 (query_sequence reference_sequence : List Char) (s : FlankState) :
    FlankState :=
  if s.hit.query_start ≥ 1 then
    (List.range s.hit.query_start.toNat).foldl
      (flank5_step query_sequence reference_sequence) s
  else s

/-- Body of the loop of lines 158-172 at `j = query_end + k`. -/
def flank3_step (query_sequence reference_sequence : List Char)
    (reference_length : Int) (s : FlankState) (k : Nat) : FlankState :=
  let j : Int := s.hit.query_end + (k : Int)
  let diff : Int := j - s.hit.query_end
  let h0 : hit_struct :=
    { s.hit with rest3 := putc s.hit.rest3 k (charAt query_sequence j).toLower }
  let tmp_integer : Int := h0.ref_end + diff
  let s1 : FlankState :=
    if tmp_integer < reference_length then
      { s with
        hit := { h0 with
          rest4 := putc h0.rest4 k (charAt reference_sequence tmp_integer).toLower }
        utr_offset5p := s.utr_offset5p + 1 }
    else
      { s with hit := { h0 with rest4 := putc h0.rest4 k '-' } }
  { s1 with hit := { s1.hit with rest5 := putc s1.hit.rest5 k SPACE } }

/-- Lines 157-173: the 3 prime unaligned region of the query. -/
def flank3 (query_sequence reference_sequence : List Char)
    (query_length reference_length : Int) (s : FlankState) : FlankState :=
  if s.hit.query_end < query_length then
    (List.range (query_length - s.hit.query_end).toNat).foldl
      (flank3_step query_sequence reference_sequence reference_length) s
  else s

/-- Lines 141-180: both flanks, the case raising of the aligned rows and the
adjustment of `ref_end` and `ref_start`, applied to the traced-back hit. -/
def flank_adjust (query_sequence reference_sequence : List Char)
    (query_length reference_length : Int) (hit : hit_struct) : hit_struct :=
  let s0 : FlankState := { hit := hit, utr_offset3p := 0, utr_offset5p := 0 }
  let s1 := flank5 query_sequence reference_sequence s0
  let s2 := flank3 query_sequence reference_sequence query_length reference_length s1
  let h1 : hit_struct :=
    { s2.hit with
      alignment0 := string_toupper s2.hit.alignment0
      alignment2 := string_toupper s2.hit.alignment2 }
  let h2 : hit_struct := { h1 with ref_end := h1.ref_end + (s2.utr_offset5p - 1) }
  { h2 with ref_start := h2.ref_start - s2.utr_offset3p }

/-! ## Strict seed check (scan.c lines 181-219) -/

/-- The four counters of the seed scan. -/
structure SeedCounts where
  mypos : Nat
  non_gap_count : Nat
  perfect_match_count : Nat
  gap_count : Nat
deriving DecidableEq, Repr

/-- The counters after the body of the loop of lines 192-214 ran at index
`j`, where `qc` is `strict_query_construct[j]`, up to the test for the
break.  The marker `strict_alignment_construct[j]` is read from the marker
string; this is what scan.c reads as long as `j` lies inside the marker
string or on its terminator.  Behind the terminator scan.c reads what the
buffer held before, see `seed_body_buf`; the two agree when the marker
string is at least as long as the query string (`seed_loop_buf_eq`). -/
def seed_body (strict_alignment_construct : List Char) (qc : Char) (j : Nat)
    (c : SeedCounts) : SeedCounts :=
  let mypos := if qc ≠ '-' then c.mypos + 1 else c.mypos
  if 2 ≤ mypos ∧ mypos ≤ 8 then
    { mypos := mypos
      non_gap_count :=
        if charAt strict_alignment_construct (j : Int) ≠ SPACE then c.non_gap_count + 1
        else c.non_gap_count
      perfect_match_count :=
        if charAt strict_alignment_construct (j : Int) = '|' then c.perfect_match_count + 1
        else c.perfect_match_count
      gap_count := if qc = '-' then c.gap_count + 1 else c.gap_count }
  else { c with mypos := mypos }

/-- The loop of lines 192-214 from index `j` on; the first argument after
the marker string is the part of `strict_query_construct` from `j` on. -/
def seed_loop (strict_alignment_construct : List Char) :
    List Char → Nat → SeedCounts → SeedCounts
  | [], _, c => c
  | qc :: rest, j, c =>
    let c1 := seed_body strict_alignment_construct qc j c
    if c1.mypos = 8 then c1
    else seed_loop strict_alignment_construct rest (j + 1) c1

/-- The string `sprintf` builds in `strict_query_construct` (line 186).  The
buffer of line 83 has 200 characters: the string is what the buffer holds
only when it is shorter than 200 characters (`strict_constructs_fit`); a
longer string overruns the buffer in scan.c. -/
def strict_query_construct (hit : hit_struct) : List Char :=
  hit.rest3 ++ hit.alignment0 ++ hit.rest0

/-- The string `sprintf` builds in `strict_alignment_construct` (line 188).
The buffer of line 84 has 200 characters: the string is what the buffer
holds only when it is shorter than 200 characters (`strict_constructs_fit`);
a longer string overruns the buffer in scan.c. -/
def strict_alignment_construct (hit : hit_struct) : List Char :=
  hit.rest5 ++ hit.alignment1 ++ hit.rest2

/-- The counters of lines 181-214 for a hit whose flanks are built. -/
def seed_counts (hit : hit_struct) : SeedCounts :=
  seed_loop (strict_alignment_construct hit) (strict_query_construct hit) 0
    { mypos := 0, non_gap_count := 0, perfect_match_count := 0, gap_count := 0 }

/-- The test of line 216 fails the candidate. -/
def seed_fails (c : SeedCounts) : Bool :=
  decide (c.non_gap_count < 7 ∨ c.perfect_match_count < 7 ∨ c.gap_count > 0)

/-- The two strings of lines 186-189 fit their buffers of 200 characters,
terminator included, and the marker string is at least as long as the query
string, so that the loop of lines 192-214 reads the marker buffer inside the
string `sprintf` stored. -/
def strict_constructs_fit (q m : List Char) : Prop :=
  q.length < 200 ∧ m.length < 200 ∧ q.length ≤ m.length

/-- The content of a buffer of lines 83-84 after `sprintf` stored the string
`s` in it: the string, its terminator, and behind the terminator the bytes
`stale` the buffer held before; the buffers are locals of `do_alignment`,
never cleared and reused by every candidate. -/
def sprintf_buffer (stale : Nat → Char) (s : List Char) : Nat → Char :=
  fun j => if j < s.length then s.getD j NUL else if j = s.length then NUL else stale j

/-- The body of the loop of lines 192-214 at index `j`, with the marker read
from the buffer `marker`. -/
def seed_body_buf (marker : Nat → Char) (qc : Char) (j : Nat) (c : SeedCounts) :
    SeedCounts :=
  let mypos := if qc ≠ '-' then c.mypos + 1 else c.mypos
  if 2 ≤ mypos ∧ mypos ≤ 8 then
    { mypos := mypos
      non_gap_count :=
        if marker j ≠ SPACE then c.non_gap_count + 1 else c.non_gap_count
      perfect_match_count :=
        if marker j = '|' then c.perfect_match_count + 1 else c.perfect_match_count
      gap_count := if qc = '-' then c.gap_count + 1 else c.gap_count }
  else { c with mypos := mypos }

/-- The loop of lines 192-214 from index `j` on, with the marker read from
the buffer `marker`. -/
def seed_loop_buf (marker : Nat → Char) : List Char → Nat → SeedCounts → SeedCounts
  | [], _, c => c
  | qc :: rest, j, c =>
    let c1 := seed_body_buf marker qc j c
    if c1.mypos = 8 then c1
    else seed_loop_buf marker rest (j + 1) c1

/-- The counters of lines 181-214 as scan.c computes them from the query
string `q` and the marker buffer holding the string `m` over the bytes
`stale`. -/
def seed_counts_buf (stale : Nat → Char) (q m : List Char) : SeedCounts :=
  seed_loop_buf (sprintf_buffer stale m) q 0
    { mypos := 0, non_gap_count := 0, perfect_match_count := 0, gap_count := 0 }

/-! ## The candidate loop of `do_alignment` (scan.c lines 115-252) -/

/-- The variables of `do_alignment` that live across iterations, and the
lines `printhit` wrote to `fpout`. -/
structure ScanState where
  scores : Nat → score_struct
  hit : hit_struct
  good_ones_starts_j : Int → Int
  good_ones_ends_j : Int → Int
  good_ones_count : Int
  scan_score : ℚ
  hit_summary : HitSummary
  fpout : List OutLine

/-- The value of `hit_score` at iteration `i` (line 120). -/
def hit_score (st : ScanState) (i : Nat) : ℚ := ((st.scores i).score : ℚ)

/-- The hit after `clear_hit` and `traceback` (lines 119-125). -/
def traced_hit (env : Env) (query_sequence reference_sequence : List Char)
    (query_length reference_length : Int) (st : ScanState) (i : Nat) : hit_struct :=
  env.traceback query_sequence reference_sequence (st.scores i).query_trace_end
    (st.scores i).reference_trace_end
    (env.clear_hit st.hit query_length reference_length) (hit_score st i)

/-- The result of the call of `testfor_overlap` (lines 127-128). -/
def overlap_call (env : Env) (st : ScanState) (hit : hit_struct) : Bool × Int :=
  env.testfor_overlap st.good_ones_starts_j st.good_ones_ends_j st.good_ones_count
    hit.ref_start hit.ref_end

/-- The value of `good_call` after lines 127-219. -/
def good_call_of (env : Env) (overlap_ok : Bool) (hit : hit_struct) : Bool :=
  if env.strict then
    (if seed_fails (seed_counts hit) then false else overlap_ok)
  else overlap_ok

/-- The value of `energy` after lines 221-225. -/
def energy_of (env : Env) (hit : hit_struct) : ℚ :=
  if !env.no_energy then env.get_energy hit else -1000000

/-- Lines 231-241: the updates of the summary for an accepted hit. -/
def summary_accept (hs : HitSummary) (hit : hit_struct) (energy : ℚ) : HitSummary :=
  let s1 : HitSummary := { hs with no_hits := hs.no_hits + 1 }
  let s2 : HitSummary :=
    { s1 with position_list := s1.position_list ++ [ExpItem.chr SPACE] }
  let s3 : HitSummary :=
    { s2 with position_list := s2.position_list ++ [ExpItem.int (hit.ref_start + 1)] }
  let s4 : HitSummary := if energy < s3.max_hit then { s3 with max_hit := energy } else s3
  let s5 : HitSummary := { s4 with total_score := s4.total_score + hit.score }
  if hit.score > s5.max_score then { s5 with max_score := hit.score } else s5

/-- Lines 230-244: the updates made for an accepted hit. -/
def accept_hit (query_length : Int) (st : ScanState) (hit : hit_struct)
    (energy : ℚ) : ScanState :=
  { st with
    scan_score := st.scan_score + energy * -1
    hit_summary := summary_accept st.hit_summary hit energy
    fpout := st.fpout ++ [OutLine.hit_report query_length hit energy] }

/-- Lines 248-251: the reset of `scores[i]`. -/
def reset_score (st : ScanState) (i : Nat) : ScanState :=
  { st with
    scores := Function.update st.scores i
      { score := 0, path := 0, query_trace_end := 0, reference_trace_end := 0 } }

/-- The body of the loop of lines 115-252 at index `i`. -/
def loop_body (env : Env) (query_sequence reference_sequence : List Char)
    (query_length reference_length : Int) (st : ScanState) (i : Nat) : ScanState :=
  if hit_score st i ≥ env.score_threshold then
    let hit0 := traced_hit env query_sequence reference_sequence query_length
      reference_length st i
    let ov := overlap_call env st hit0
    let st1 : ScanState := { st with good_ones_count := ov.2 }
    let st2 : ScanState :=
      if ov.1 = true then
        { st1 with
          good_ones_starts_j :=
            Function.update st1.good_ones_starts_j st1.good_ones_count hit0.ref_start
          good_ones_ends_j :=
            Function.update st1.good_ones_ends_j st1.good_ones_count hit0.ref_end }
      else st1
    let hit1 := flank_adjust query_sequence reference_sequence query_length
      reference_length hit0
    let good_call := good_call_of env ov.1 hit1
    let energy := energy_of env hit1
    let st3 : ScanState := { st2 with hit := hit1 }
    let st4 : ScanState :=
      if energy < env.energy_threshold then
        (if good_call = true then accept_hit query_length st3 hit1 energy else st3)
      else st3
    reset_score st4 i
  else
    reset_score { st with hit := env.clear_hit st.hit query_length reference_length } i

/-- The indices the loop of line 115 visits: `0, 1, ..., scores_length`. -/
def loop_indices (scores_length : Int) : List Nat :=
  List.range (scores_length + 1).toNat

/-- The state before the loop (lines 97-113), given what `build_matrix`
left in `scores`. -/
def init_state (scores : Nat → score_struct) (hit : hit_struct)
    (hit_summary : HitSummary) : ScanState :=
  { scores := scores
    hit := hit
    good_ones_starts_j := fun _ => 0
    good_ones_ends_j := fun _ => 0
    good_ones_count := -1
    scan_score := 0
    hit_summary :=
      { hit_summary with
        no_hits := 0, max_hit := 0, max_score := 0, scan_score := 0, total_score := 0
        position_list := [] }
    fpout := [] }

/-- The state after the iterations at the indices `idxs`, in order. -/
def run_loop (env : Env) (query_sequence reference_sequence : List Char)
    (query_length reference_length : Int) (st : ScanState) (idxs : List Nat) :
    ScanState :=
  idxs.foldl (loop_body env query_sequence reference_sequence query_length
    reference_length) st

/-- The state `do_alignment` starts its loop in. -/
def start_state (env : Env) (query_sequence reference_sequence : List Char)
    (query_length reference_length : Int) (scores : Nat → score_struct)
    (hit : hit_struct) (hit_summary : HitSummary) : ScanState :=
  init_state (env.build_matrix query_sequence reference_sequence query_length
    reference_length scores).1 hit hit_summary

/-- The value `build_matrix` stores in `scores_length`. -/
def scores_length_of (env : Env) (query_sequence reference_sequence : List Char)
    (query_length reference_length : Int) (scores : Nat → score_struct) : Int :=
  (env.build_matrix query_sequence reference_sequence query_length
    reference_length scores).2

/-- The state of `do_alignment` when the loop reaches index `i`. -/
def state_before (env : Env) (query_sequence reference_sequence : List Char)
    (query_length reference_length : Int) (scores : Nat → score_struct)
    (hit : hit_struct) (hit_summary : HitSummary) (i : Nat) : ScanState :=
  run_loop env query_sequence reference_sequence query_length reference_length
    (start_state env query_sequence reference_sequence query_length reference_length
      scores hit hit_summary) (List.range i)

/-- The function `do_alignment`: the final state, whose `scan_score` is the
value returned. -/
def do_alignment (env : Env) (query_sequence reference_sequence : List Char)
    (query_length reference_length : Int) (scores : Nat → score_struct)
    (hit : hit_struct) (hit_summary : HitSummary) : ScanState :=
  run_loop env query_sequence reference_sequence query_length reference_length
    (start_state env query_sequence reference_sequence query_length reference_length
      scores hit hit_summary)
    (loop_indices (scores_length_of env query_sequence reference_sequence
      query_length reference_length scores))

/-! ## The driver `find_targets` (scan.c lines 259-368) -/

/-- A zeroed `score_struct`, as `calloc` leaves it. -/
def zero_score : score_struct :=
  { score := 0, path := 0, query_trace_end := 0, reference_trace_end := 0 }

/-- The local `hit` of `find_targets` after lines 285-293: every text buffer
is zeroed by `calloc`; the numeric fields, which `clear_hit` sets before
they are read, are taken as 0. -/
def calloc_hit : hit_struct :=
  { score := 0, query_start := 0, query_end := 0, ref_start := 0, ref_end := 0
    alignment0 := [], alignment1 := [], alignment2 := []
    rest0 := [], rest1 := [], rest2 := [], rest3 := [], rest4 := [], rest5 := [] }

/-- The local `hit_summary` of `find_targets` after `create_ExpString`; its
numeric fields are all assigned by `do_alignment` before they are read. -/
def fresh_summary : HitSummary :=
  { scan_score := 0, no_hits := 0, max_hit := 0, max_score := 0, total_score := 0
    position_list := [] }

/-- The call of `do_alignment` made by `find_targets` (lines 335-337). -/
def find_targets_scan (env : Env) (gene_seq mirna_seq : List Char)
    (gene_len mirna_len : Int) : ScanState :=
  do_alignment env mirna_seq gene_seq mirna_len gene_len (fun _ => zero_score)
    calloc_hit fresh_summary

/-- The function `find_targets`: the value returned and the lines written to
`fpout`. -/
def find_targets (env : Env) (gene_seq mirna_seq : List Char)
    (gene_len mirna_len : Int) : Int × List OutLine :=
  let utr_processed : Int := 0 + 1
  let out0 : List OutLine :=
    if env.verbosity || env.debug then
      [OutLine.rule, OutLine.performing_scan, OutLine.rule]
    else []
  let st := find_targets_scan env gene_seq mirna_seq gene_len mirna_len
  let end_score : ℚ := st.scan_score
  let out1 := out0 ++ st.fpout
  let out2 := if env.verbosity || env.debug then out1 ++ [OutLine.score_for_scan] else out1
  let out3 :=
    if end_score > 0 then
      let o := out2 ++ [OutLine.summary_header]
      if !env.no_energy then
        o ++ [OutLine.totals_energy st.hit_summary.total_score end_score
          st.hit_summary.max_score st.hit_summary.max_hit utr_processed mirna_len
          gene_len st.hit_summary.position_list]
      else
        o ++ [OutLine.totals_no_energy st.hit_summary.total_score
          st.hit_summary.max_score utr_processed mirna_len gene_len
          st.hit_summary.position_list]
    else
      if env.verbosity || env.debug then out2 ++ [OutLine.no_hits_found] else out2
  let out4 :=
    if env.verbosity || env.debug || decide (end_score > 0) then out3 ++ [OutLine.complete]
    else out3
  (1, out4)

/-- The line is the totals line that starts with `>>`. -/
def is_totals : OutLine → Bool
  | OutLine.totals_energy _ _ _ _ _ _ _ _ => true
  | OutLine.totals_no_energy _ _ _ _ _ _ => true
  | _ => false

/-! ## The overlap policy -/

/-- Two reference spans `[s1, e1]` and `[s2, e2]` share a coordinate. -/
def shares_coordinate (s1 e1 s2 e2 : Int) : Prop :=
  ∃ x : Int, s1 ≤ x ∧ x ≤ e1 ∧ s2 ≤ x ∧ x ≤ e2

/-- The executable test for `shares_coordinate`. -/
def spans_overlap (s1 e1 s2 e2 : Int) : Bool :=
  decide (s1 ≤ e1 ∧ s2 ≤ e2 ∧ s1 ≤ e2 ∧ s2 ≤ e1)

/-- Modelled from the spec: `testfor_overlap` (not in src/).  It rejects the
span `[test_start, test_end]` when it shares a reference coordinate with one
of the spans recorded at the indices `0..*good_ones_count`; otherwise it
accepts and advances `*good_ones_count` to the cell in which `do_alignment`
records the span. -/
def testfor_overlap (good_ones_starts_j good_ones_ends_j : Int → Int)
    (good_ones_count test_start test_end : Int) : Bool × Int :=
  if (List.range (good_ones_count + 1).toNat).any (fun k =>
      spans_overlap (good_ones_starts_j (k : Int)) (good_ones_ends_j (k : Int))
        test_start test_end) then
    (false, good_ones_count)
  else (true, good_ones_count + 1)

/-! ## Acceptance of a candidate -/

/-- The hit as it is when the acceptance decision is taken at index `i`:
traced back, flanked and adjusted. -/
def reported_hit (env : Env) (query_sequence reference_sequence : List Char)
    (query_length reference_length : Int) (st : ScanState) (i : Nat) : hit_struct :=
  flank_adjust query_sequence reference_sequence query_length reference_length
    (traced_hit env query_sequence reference_sequence query_length reference_length st i)

/-- The four criteria on the candidate at index `i` in loop state `st`: the
score threshold, the overlap test, the seed check in strict mode, and the
energy threshold. -/
def accept_cond (env : Env) (query_sequence reference_sequence : List Char)
    (query_length reference_length : Int) (st : ScanState) (i : Nat) : Prop :=
  hit_score st i ≥ env.score_threshold ∧
  (overlap_call env st (traced_hit env query_sequence reference_sequence query_length
    reference_length st i)).1 = true ∧
  (env.strict = true →
    seed_fails (seed_counts (reported_hit env query_sequence reference_sequence
      query_length reference_length st i)) = false) ∧
  energy_of env (reported_hit env query_sequence reference_sequence query_length
    reference_length st i) < env.energy_threshold

instance accept_cond_decidable (env : Env) (query_sequence reference_sequence : List Char)
    (query_length reference_length : Int) (st : ScanState) (i : Nat) :
    Decidable (accept_cond env query_sequence reference_sequence query_length
      reference_length st i) := by
  unfold accept_cond
  exact inferInstance

/-- The candidate at index `i` is counted in the summary and forwarded to
`printhit` by the iteration that starts in state `st`. -/
def accepted_in (env : Env) (query_sequence reference_sequence : List Char)
    (query_length reference_length : Int) (st : ScanState) (i : Nat) : Prop :=
  let st1 := loop_body env query_sequence reference_sequence query_length
    reference_length st i
  let hit := reported_hit env query_sequence reference_sequence query_length
    reference_length st i
  st1.hit_summary.no_hits = st.hit_summary.no_hits + 1 ∧
  st1.fpout = st.fpout ++ [OutLine.hit_report query_length hit (energy_of env hit)]

/-- The hits `do_alignment` accepts among the first `n` indices, each with
its energy, in processing order. -/
def accepted_upto (env : Env) (query_sequence reference_sequence : List Char)
    (query_length reference_length : Int) (scores : Nat → score_struct)
    (hit : hit_struct) (hit_summary : HitSummary) (n : Nat) : List (hit_struct × ℚ) :=
  (List.range n).filterMap (fun i =>
    let st := state_before env query_sequence reference_sequence query_length
      reference_length scores hit hit_summary i
    if accept_cond env query_sequence reference_sequence query_length
        reference_length st i then
      some (reported_hit env query_sequence reference_sequence query_length
          reference_length st i,
        energy_of env (reported_hit env query_sequence reference_sequence query_length
          reference_length st i))
    else none)

/-- The hits `do_alignment` accepts, each with its energy, in processing
order. -/
def accepted_hits (env : Env) (query_sequence reference_sequence : List Char)
    (query_length reference_length : Int) (scores : Nat → score_struct)
    (hit : hit_struct) (hit_summary : HitSummary) : List (hit_struct × ℚ) :=
  accepted_upto env query_sequence reference_sequence query_length reference_length
    scores hit hit_summary
    (scores_length_of env query_sequence reference_sequence query_length
      reference_length scores + 1).toNat

/-! ## The seed window -/

/-- The positions the loop of lines 192-214 scans while the running count
`mypos` of non-gap query characters is between 2 and 8, from index `j` on
with `mypos` characters counted so far: each with its index and its
query-side character. -/
def seed_window_from : List Char → Nat → Nat → List (Nat × Char)
  | [], _, _ => []
  | qc :: rest, j, mypos =>
    let mypos1 := if qc ≠ '-' then mypos + 1 else mypos
    let here : List (Nat × Char) := if 2 ≤ mypos1 ∧ mypos1 ≤ 8 then [(j, qc)] else []
    if mypos1 = 8 then here else here ++ seed_window_from rest (j + 1) mypos1

/-- The seed window of a combined query-side string. -/
def seed_window (q : List Char) : List (Nat × Char) := seed_window_from q 0 0

/-! ## Concrete scenarios -/

/-- Modelled from the spec: `clear_hit` (not in src/), the reset of the
reusable hit construct to empty before each candidate. -/
def clear_hit (_hit : hit_struct) (_query_length _reference_length : Int) : hit_struct :=
  calloc_hit

/-- A `traceback` given by a table: the aligned core found from the endpoint
with reference coordinate `reference_trace_end`; an endpoint outside the
table yields the empty alignment ending at the endpoint. -/
def table_traceback (table : List (Int × hit_struct))
    (_query_sequence _reference_sequence : List Char)
    (query_trace_end reference_trace_end : Int) (hit : hit_struct) (hit_score : ℚ) :
    hit_struct :=
  match table.lookup reference_trace_end with
  | some h => { h with score := hit_score }
  | none =>
    { hit with
      query_start := query_trace_end, query_end := query_trace_end
      ref_start := reference_trace_end, ref_end := reference_trace_end
      score := hit_score }

/-- A `build_matrix` that records the candidates `cands`, in order. -/
def list_build_matrix (cands : List score_struct)
    (_query_sequence _reference_sequence : List Char)
    (_query_length _reference_length : Int) (scores : Nat → score_struct) :
    (Nat → score_struct) × Int :=
  (fun i => cands.getD i (scores i), (cands.length : Int))

/-- The configuration and collaborators of a scenario: thresholds, mode
flags, the candidate list, the traceback table and the energy estimator. -/
def scenario_env (score_threshold energy_threshold : ℚ) (strict no_energy : Bool)
    (cands : List score_struct) (table : List (Int × hit_struct))
    (get_energy : hit_struct → ℚ) : Env :=
  { score_threshold := score_threshold
    energy_threshold := energy_threshold
    strict := strict
    no_energy := no_energy
    verbosity := false
    debug := false
    build_matrix := list_build_matrix cands
    clear_hit := clear_hit
    traceback := table_traceback table
    testfor_overlap := testfor_overlap
    get_energy := get_energy }

/-- A query of length 8. -/
def query8 : List Char := "UGAGGUAG".toList

/-- A reference of length 20. -/
def reference20 : List Char := "AACUACCUCAAACUACCUCA".toList

/-- An aligned core of 8 columns covering the whole query, every marker an
exact match, on the reference span `[6, 14]`. -/
def core_full : hit_struct :=
  { calloc_hit with
    query_start := 0, query_end := 8, ref_start := 6, ref_end := 14
    alignment0 := "gauggagu".toList
    alignment1 := "||||||||".toList
    alignment2 := "cuaccuca".toList }

/-- An aligned core of 3 columns behind 5 unaligned query positions, on the
reference span `[16, 19]`. -/
def core_short : hit_struct :=
  { calloc_hit with
    query_start := 5, query_end := 8, ref_start := 16, ref_end := 19
    alignment0 := "gau".toList
    alignment1 := "|||".toList
    alignment2 := "cua".toList }

/-- An aligned core of 8 columns on the reference span `[12, 15]`. -/
def core_mid : hit_struct :=
  { calloc_hit with
    query_start := 0, query_end := 8, ref_start := 12, ref_end := 15
    alignment0 := "gauggagu".toList
    alignment1 := "||||||||".toList
    alignment2 := "cuaccuca".toList }

/-- An energy estimator for the scenarios: -25 for a core of 8 columns and
-5 for a shorter one. -/
def length_energy (hit : hit_struct) : ℚ :=
  if hit.alignment1.length ≥ 8 then -25 else -5

/-- Scenario S: strict mode with energy evaluation, thresholds 140 and -20,
and three candidates, the second overlapping the first and the third below
the score threshold. -/
def env_S : Env :=
  scenario_env 140 (-20) true false
    [{ score := 160, path := 0, query_trace_end := 8, reference_trace_end := 14 },
     { score := 150, path := 1, query_trace_end := 8, reference_trace_end := 15 },
     { score := 100, path := 2, query_trace_end := 8, reference_trace_end := 19 }]
    [(14, core_full), (15, core_mid), (19, core_short)] length_energy

/-- Scenario F: no strict mode, no energy evaluation, and two candidates
whose traced-back cores lie on the disjoint reference spans `[16, 19]` and
`[12, 15]`, the first one behind 5 unaligned query positions. -/
def env_F : Env :=
  scenario_env 140 (-20) false true
    [{ score := 160, path := 0, query_trace_end := 8, reference_trace_end := 19 },
     { score := 150, path := 1, query_trace_end := 8, reference_trace_end := 15 }]
    [(19, core_short), (15, core_mid)] length_energy

/-- The span `[s, e]` is recorded in the overlap arrays of `st`. -/
def recorded (st : ScanState) (s e : Int) : Prop :=
  ∃ k : Nat, (k : Int) ≤ st.good_ones_count ∧
    st.good_ones_starts_j (k : Int) = s ∧ st.good_ones_ends_j (k : Int) = e

/-- Scenario M: no strict mode, no energy evaluation, score threshold `t`,
and two candidates in ascending score order whose traced-back cores lie on
the overlapping reference spans `[12, 15]` and `[6, 14]`. -/
def env_M (t : ℚ) : Env :=
  scenario_env t (-20) false true
    [{ score := 100, path := 0, query_trace_end := 8, reference_trace_end := 15 },
     { score := 150, path := 1, query_trace_end := 8, reference_trace_end := 14 }]
    [(15, core_mid), (14, core_full)] length_energy

/-- The configuration `env` with the score threshold set to `t`. -/
def with_score_threshold (env : Env) (t : ℚ) : Env :=
  { env with score_threshold := t }

/-- Scenario Z: both sequences empty, `build_matrix` records no candidate,
the `scores` cells read as zero, score threshold 0, no strict mode and no
energy evaluation. -/
def env_Z : Env :=
  scenario_env 0 (-20) false true [] [] length_energy

/-- Scenario B: energy evaluation disabled, score threshold 140, and one
candidate of score 160 whose traced-back core has 8 columns covering the
whole query of length 8, every marker an exact match; the seed mode and the
energy threshold are the parameters. -/
def env_B (strict : Bool) (energy_threshold : ℚ) : Env :=
  scenario_env 140 energy_threshold strict true
    [{ score := 160, path := 0, query_trace_end := 8, reference_trace_end := 14 }]
    [(14, core_full)] length_energy

/-- An aligned core of 8 columns on the reference span `[0, 8]`. -/
def core_lead : hit_struct :=
  { calloc_hit with
    query_start := 0, query_end := 8, ref_start := 0, ref_end := 8
    alignment0 := "gauggagu".toList
    alignment1 := "||||||||".toList
    alignment2 := "cuaccuca".toList }

/-- Scenario P: score threshold -10, energy threshold 10, energy evaluation
on with every hit at energy 5, and one candidate of score -5 whose core
lies on the reference span `[0, 8]`. -/
def env_P : Env :=
  scenario_env (-10) 10 false false
    [{ score := -5, path := 0, query_trace_end := 8, reference_trace_end := 8 }]
    [(8, core_lead)] (fun _ => 5)

/-- The hit and the two offset counters when lines 141-173 are done, before
the case raising and the adjustment of `ref_end` and `ref_start`. -/
def flank_state (query_sequence reference_sequence : List Char)
    (query_length reference_length : Int) (hit : hit_struct) : FlankState :=
  flank3 query_sequence reference_sequence query_length reference_length
    (flank5 query_sequence reference_sequence
      { hit := hit, utr_offset3p := 0, utr_offset5p := 0 })

/-! ## The grid set-up of `find_targets` (scan.c lines 298-328) -/

/-- The grids `find_targets` allocates: `best`, the four layers of `track`,
the three state grids and the score table, each an array of rows. -/
structure Grids where
  best : List (List Int)
  track0 : List (List Int)
  track1 : List (List Int)
  track2 : List (List Int)
  track3 : List (List Int)
  a_nt_nt : List (List Int)
  b_gap_nt : List (List Int)
  c_nt_gap : List (List Int)
  nt_nt_score : List (List Int)

/-- The store `g[i][j] = v`. -/
def set_cell (g : List (List Int)) (i j : Nat) (v : Int) : List (List Int) :=
  g.set i ((g.getD i []).set j v)

/-- The cell `g[i][j]`, when row `i` exists and has a column `j`. -/
def cell (g : List (List Int)) (i j : Nat) : Option Int :=
  (g.getD i [])[j]?

/-- An array of `n` row pointers as `calloc` leaves it: no row allocated. -/
def alloc_rows (n : Int) : List (List Int) := List.replicate n.toNat []

/-- A row of `n` cells as `calloc` leaves it. -/
def calloc_row (n : Int) : List Int := List.replicate n.toNat 0

/-- Lines 298-307: the arrays of row pointers. -/
def grids_alloc (mirna_len : Int) : Grids :=
  { best := alloc_rows (mirna_len + 1)
    track0 := alloc_rows (mirna_len + 1)
    track1 := alloc_rows (mirna_len + 1)
    track2 := alloc_rows (mirna_len + 1)
    track3 := alloc_rows (mirna_len + 1)
    a_nt_nt := alloc_rows (mirna_len + 1)
    b_gap_nt := alloc_rows (mirna_len + 1)
    c_nt_gap := alloc_rows (mirna_len + 1)
    nt_nt_score := alloc_rows (mirna_len + 1) }

/-- Body of the loop of lines 308-322 at index `i`: the rows are allocated
and their column 0 is set to 0. -/
def grid_row_step (gene_len : Int) (g : Grids) (i : Nat) : Grids :=
  let g1 : Grids :=
    { best := g.best.set i (calloc_row (gene_len + 1))
      track0 := g.track0.set i (calloc_row (gene_len + 1))
      track1 := g.track1.set i (calloc_row (gene_len + 1))
      track2 := g.track2.set i (calloc_row (gene_len + 1))
      track3 := g.track3.set i (calloc_row (gene_len + 1))
      a_nt_nt := g.a_nt_nt.set i (calloc_row (gene_len + 1))
      b_gap_nt := g.b_gap_nt.set i (calloc_row (gene_len + 1))
      c_nt_gap := g.c_nt_gap.set i (calloc_row (gene_len + 1))
      nt_nt_score := g.nt_nt_score.set i (calloc_row (gene_len + 1)) }
  let g2 : Grids :=
    { g1 with
      nt_nt_score := set_cell g1.nt_nt_score i 0 0
      a_nt_nt := set_cell g1.a_nt_nt i 0 0
      best := set_cell g1.best i 0 0 }
  let g3 : Grids :=
    { g2 with
      track3 := set_cell g2.track3 i 0 0
      track2 := set_cell g2.track2 i 0 0
      track1 := set_cell g2.track1 i 0 0
      track0 := set_cell g2.track0 i 0 0 }
  let g4 : Grids := { g3 with b_gap_nt := set_cell g3.b_gap_nt i 0 0 }
  { g4 with c_nt_gap := set_cell g4.c_nt_gap i 0 0 }

/-- Body of the loop of lines 323-328 at index `i`: row 0 is set to 0. -/
def grid_col_step (g : Grids) (i : Nat) : Grids :=
  let g1 : Grids :=
    { g with
      nt_nt_score := set_cell g.nt_nt_score 0 i 0
      a_nt_nt := set_cell g.a_nt_nt 0 i 0
      best := set_cell g.best 0 i 0 }
  let g2 : Grids := { g1 with b_gap_nt := set_cell g1.b_gap_nt 0 i 0 }
  let g3 : Grids := { g2 with c_nt_gap := set_cell g2.c_nt_gap 0 i 0 }
  { g3 with
    track3 := set_cell g3.track3 0 i 0
    track2 := set_cell g3.track2 0 i 0
    track1 := set_cell g3.track1 0 i 0
    track0 := set_cell g3.track0 0 i 0 }

/-- Lines 298-328: the grids when the set-up of `find_targets` is done. -/
def grid_setup (mirna_len gene_len : Int) : Grids :=
  let g0 := grids_alloc mirna_len
  let g1 := (List.range (mirna_len + 1).toNat).foldl (grid_row_step gene_len) g0
  (List.range (gene_len + 1).toNat).foldl grid_col_step g1

/-- Every cell of row 0 and of column 0 of the grid `g` of
`mirna_len + 1` rows and `gene_len + 1` columns exists and is 0. -/
def boundary_zero (mirna_len gene_len : Int) (g : List (List Int)) : Prop :=
  (∀ i : Nat, (i : Int) ≤ mirna_len → cell g i 0 = some 0) ∧
  (∀ j : Nat, (j : Int) ≤ gene_len → cell g 0 j = some 0)

/-- The steps of the two loops on a single grid. -/
def row_step1 (gene_len : Int) (g : List (List Int)) (i : Nat) : List (List Int) :=
  set_cell (g.set i (calloc_row (gene_len + 1))) i 0 0

/-- The step of the loop of lines 323-328 on a single grid. -/
def col_step1 (g : List (List Int)) (i : Nat) : List (List Int) :=
  set_cell g 0 i 0

/-- The candidate at index `i` is traced back by the iteration that starts
in state `st`: it passes the test of line 122. -/
def traced_back (env : Env) (st : ScanState) (i : Nat) : Prop :=
  hit_score st i ≥ env.score_threshold

/-- An aligned core of 1 column on the reference span `[0, 1]`. -/
def core_one : hit_struct :=
  { calloc_hit with
    query_start := 0, query_end := 1, ref_start := 0, ref_end := 1
    alignment0 := "a".toList
    alignment1 := "|".toList
    alignment2 := "u".toList }

/-- Scenario I: sequences of length 1, score threshold 0, and one candidate,
so that `scores_length` equals `query_length * reference_length`. -/
def env_I : Env :=
  scenario_env 0 (-20) false true
    [{ score := 5, path := 0, query_trace_end := 1, reference_trace_end := 1 }]
    [(1, core_one)] length_energy

/-- An aligned core of 3 columns behind 5 unaligned query positions, on the
reference span `[12, 15]`. -/
def core_weak : hit_struct :=
  { calloc_hit with
    query_start := 5, query_end := 8, ref_start := 12, ref_end := 15
    alignment0 := "gau".toList
    alignment1 := "|||".toList
    alignment2 := "cua".toList }

/-- Scenario R: strict mode with energy evaluation, thresholds 140 and -20,
and two candidates on overlapping reference spans: first the 3-column core
on `[12, 15]`, of energy -5, then the 8-column core on `[6, 14]`, of energy
-25. -/
def env_R : Env :=
  scenario_env 140 (-20) true false
    [{ score := 160, path := 0, query_trace_end := 8, reference_trace_end := 15 },
     { score := 150, path := 1, query_trace_end := 8, reference_trace_end := 14 }]
    [(15, core_weak), (14, core_full)] length_energy

/-- Scenario D: no strict mode, no energy evaluation, score threshold `t`,
and exactly two candidates whose traced-back cores lie on the overlapping
reference spans `[12, 15]` and `[6, 14]`. -/
def env_D (t : ℚ) : Env :=
  scenario_env t (-20) false true
    [{ score := 160, path := 0, query_trace_end := 8, reference_trace_end := 15 },
     { score := 150, path := 1, query_trace_end := 8, reference_trace_end := 14 }]
    [(15, core_mid), (14, core_full)] length_energy

/-- The `n` indices from the start of `qs`, which is the part of the query
string from index `j` on, hold non-gap query characters, and the marker
string `m` holds an exact-match marker at each of them. -/
def window_ok (m qs : List Char) (j n : Nat) : Prop :=
  ∀ k : Nat, k < n →
    (∃ c, qs[k]? = some c ∧ c ≠ '-') ∧ charAt m (((j + k : Nat)) : Int) = '|'

/-! ## One iteration of the candidate loop -/

section Iteration

variable (env : Env) (query_sequence reference_sequence : List Char)
  (query_length reference_length : Int)

theorem loop_body_of_accept (st : ScanState) (i : Nat)
    (h : accept_cond env query_sequence reference_sequence query_length
      reference_length st i) :
    let hit := reported_hit env query_sequence reference_sequence query_length
      reference_length st i
    let st1 := loop_body env query_sequence reference_sequence query_length
      reference_length st i
    st1.hit_summary = summary_accept st.hit_summary hit (energy_of env hit) ∧
    st1.scan_score = st.scan_score + energy_of env hit * -1 ∧
    st1.fpout = st.fpout ++ [OutLine.hit_report query_length hit (energy_of env hit)] := by
  obtain ⟨h1, h2, h3, h4⟩ := h
  simp only [reported_hit] at h3 h4 ⊢
  simp only [loop_body, h1, if_true, h2, h4, good_call_of, reset_score, accept_hit]
  cases hs : env.strict
  · simp
  · simp [h3 hs]

theorem loop_body_of_reject (st : ScanState) (i : Nat)
    (h : ¬ accept_cond env query_sequence reference_sequence query_length
      reference_length st i) :
    let st1 := loop_body env query_sequence reference_sequence query_length
      reference_length st i
    st1.hit_summary = st.hit_summary ∧ st1.scan_score = st.scan_score ∧
    st1.fpout = st.fpout := by
  simp only [accept_cond, reported_hit] at h
  simp only [loop_body, good_call_of, reset_score, accept_hit]
  by_cases h1 : hit_score st i ≥ env.score_threshold
  · simp only [h1, if_true]
    by_cases h4 : energy_of env (flank_adjust query_sequence reference_sequence
        query_length reference_length (traced_hit env query_sequence reference_sequence
          query_length reference_length st i)) < env.energy_threshold
    · simp only [h4, if_true]
      by_cases h2 : (overlap_call env st (traced_hit env query_sequence reference_sequence
          query_length reference_length st i)).1 = true
      · cases hs : env.strict
        · exact absurd ⟨h1, h2, by simp [hs], h4⟩ h
        · by_cases h3 : seed_fails (seed_counts (flank_adjust query_sequence
              reference_sequence query_length reference_length (traced_hit env
                query_sequence reference_sequence query_length reference_length st i)))
              = false
          · exact absurd ⟨h1, h2, fun _ => h3, h4⟩ h
          · simp only [Bool.not_eq_false] at h3
            simp [h2, h3]
      · simp only [Bool.not_eq_true] at h2
        simp [h2]
    · simp only [h4, if_false]
      split <;> simp
  · simp [h1]

theorem summary_accept_no_hits (hs : HitSummary) (hit : hit_struct) (energy : ℚ) :
    (summary_accept hs hit energy).no_hits = hs.no_hits + 1 := by
  simp only [summary_accept]
  split <;> split <;> rfl

theorem summary_accept_total_score (hs : HitSummary) (hit : hit_struct) (energy : ℚ) :
    (summary_accept hs hit energy).total_score = hs.total_score + hit.score := by
  simp only [summary_accept]
  split <;> split <;> rfl

theorem summary_accept_position_list (hs : HitSummary) (hit : hit_struct) (energy : ℚ) :
    (summary_accept hs hit energy).position_list =
      hs.position_list ++ [ExpItem.chr SPACE, ExpItem.int (hit.ref_start + 1)] := by
  simp only [summary_accept]
  split <;> split <;> simp

theorem summary_accept_max_score (hs : HitSummary) (hit : hit_struct) (energy : ℚ) :
    (summary_accept hs hit energy).max_score = max hs.max_score hit.score := by
  simp only [summary_accept]
  split <;> split <;> rename_i h1 h2 <;> simp only [gt_iff_lt, not_lt] at h1 h2 ⊢
  · exact (max_eq_right h2.le).symm
  · exact (max_eq_left h2).symm
  · exact (max_eq_right h2.le).symm
  · exact (max_eq_left h2).symm

theorem summary_accept_max_hit (hs : HitSummary) (hit : hit_struct) (energy : ℚ) :
    (summary_accept hs hit energy).max_hit = min hs.max_hit energy := by
  simp only [summary_accept]
  split <;> split <;> rename_i h1 h2 <;> simp only [gt_iff_lt, not_lt] at h1 h2 ⊢
  · exact (min_eq_right h1.le).symm
  · exact (min_eq_right h1.le).symm
  · exact (min_eq_left h1).symm
  · exact (min_eq_left h1).symm

theorem accepted_in_iff (st : ScanState) (i : Nat) :
    accepted_in env query_sequence reference_sequence query_length reference_length st i ↔
    accept_cond env query_sequence reference_sequence query_length reference_length st i := by
  constructor
  · intro h
    by_contra hc
    obtain ⟨a1, _, _⟩ := loop_body_of_reject env query_sequence reference_sequence
      query_length reference_length _ i hc
    have h1 := h.1
    rw [a1] at h1
    omega
  · intro hc
    obtain ⟨a1, _, a3⟩ := loop_body_of_accept env query_sequence reference_sequence
      query_length reference_length _ i hc
    exact ⟨by rw [a1, summary_accept_no_hits], a3⟩

theorem spans_overlap_iff (s1 e1 s2 e2 : Int) :
    spans_overlap s1 e1 s2 e2 = true ↔ shares_coordinate s1 e1 s2 e2 := by
  simp only [spans_overlap, decide_eq_true_eq, shares_coordinate]
  constructor
  · rintro ⟨h1, h2, h3, h4⟩
    exact ⟨max s1 s2, le_max_left _ _, max_le h1 h4, le_max_right _ _, max_le h3 h2⟩
  · rintro ⟨x, h1, h2, h3, h4⟩
    exact ⟨by omega, by omega, by omega, by omega⟩

theorem loop_body_overlap_fields (st : ScanState) (i : Nat) :
    let hit0 := traced_hit env query_sequence reference_sequence query_length
      reference_length st i
    let st1 := loop_body env query_sequence reference_sequence query_length
      reference_length st i
    (hit_score st i ≥ env.score_threshold →
      st1.good_ones_count = (overlap_call env st hit0).2 ∧
      ((overlap_call env st hit0).1 = true →
        st1.good_ones_starts_j =
          Function.update st.good_ones_starts_j (overlap_call env st hit0).2 hit0.ref_start ∧
        st1.good_ones_ends_j =
          Function.update st.good_ones_ends_j (overlap_call env st hit0).2 hit0.ref_end) ∧
      ((overlap_call env st hit0).1 = false →
        st1.good_ones_starts_j = st.good_ones_starts_j ∧
        st1.good_ones_ends_j = st.good_ones_ends_j)) ∧
    (¬ hit_score st i ≥ env.score_threshold →
      st1.good_ones_count = st.good_ones_count ∧
      st1.good_ones_starts_j = st.good_ones_starts_j ∧
      st1.good_ones_ends_j = st.good_ones_ends_j) := by
  simp only [loop_body, reset_score, accept_hit]
  refine ⟨fun h1 => ?_, fun h1 => ?_⟩
  · simp only [h1, if_true]
    refine ⟨?_, fun h2 => ?_, fun h2 => ?_⟩
    · split_ifs <;> rfl
    · simp only [h2, if_true]
      split_ifs <;> exact ⟨rfl, rfl⟩
    · simp only [h2, Bool.false_eq_true, if_false]
      split_ifs <;> exact ⟨rfl, rfl⟩
  · simp [h1]

theorem testfor_overlap_accept (starts ends : Int → Int) (count s e : Int)
    (h : (testfor_overlap starts ends count s e).1 = true) :
    (testfor_overlap starts ends count s e).2 = count + 1 ∧
    ∀ k : Nat, k < (count + 1).toNat →
      spans_overlap (starts (k : Int)) (ends (k : Int)) s e = false := by
  unfold testfor_overlap at h ⊢
  split at h
  · simp at h
  · rename_i hany
    rw [if_neg hany]
    refine ⟨rfl, fun k hk => ?_⟩
    simp only [List.any_eq_true, List.mem_range, not_exists, not_and,
      Bool.not_eq_true] at hany
    exact hany k hk

theorem testfor_overlap_reject (starts ends : Int → Int) (count s e : Int)
    (h : (testfor_overlap starts ends count s e).1 = false) :
    (testfor_overlap starts ends count s e).2 = count := by
  unfold testfor_overlap at h ⊢
  split at h
  · rename_i hany
    rw [if_pos hany]
  · simp at h

theorem loop_body_count_ge (hov : env.testfor_overlap = testfor_overlap)
    (st : ScanState) (i : Nat) (hc : -1 ≤ st.good_ones_count) :
    -1 ≤ (loop_body env query_sequence reference_sequence query_length
      reference_length st i).good_ones_count := by
  obtain ⟨f1, f2⟩ := loop_body_overlap_fields env query_sequence reference_sequence
    query_length reference_length st i
  by_cases h1 : hit_score st i ≥ env.score_threshold
  · rw [(f1 h1).1]
    simp only [overlap_call, hov]
    cases hb : (testfor_overlap st.good_ones_starts_j st.good_ones_ends_j
      st.good_ones_count (traced_hit env query_sequence reference_sequence query_length
        reference_length st i).ref_start (traced_hit env query_sequence
        reference_sequence query_length reference_length st i).ref_end).1
    · rw [testfor_overlap_reject _ _ _ _ _ hb]; exact hc
    · rw [(testfor_overlap_accept _ _ _ _ _ hb).1]; omega
  · rw [(f2 h1).1]; exact hc

theorem recorded_step (hov : env.testfor_overlap = testfor_overlap)
    (st : ScanState) (i : Nat) (s e : Int) (h : recorded st s e) :
    recorded (loop_body env query_sequence reference_sequence query_length
      reference_length st i) s e := by
  obtain ⟨k, hk, hs, he⟩ := h
  obtain ⟨f1, f2⟩ := loop_body_overlap_fields env query_sequence reference_sequence
    query_length reference_length st i
  by_cases h1 : hit_score st i ≥ env.score_threshold
  · obtain ⟨g1, g2, g3⟩ := f1 h1
    cases hb : (overlap_call env st (traced_hit env query_sequence reference_sequence
      query_length reference_length st i)).1
    · have hb2 := hb
      simp only [overlap_call, hov] at hb2
      have hcnt := testfor_overlap_reject _ _ _ _ _ hb2
      refine ⟨k, ?_, ?_, ?_⟩
      · rw [g1]; simp only [overlap_call, hov]; rw [hcnt]; exact hk
      · rw [(g3 hb).1]; exact hs
      · rw [(g3 hb).2]; exact he
    · have hb2 := hb
      simp only [overlap_call, hov] at hb2
      have hcnt := (testfor_overlap_accept _ _ _ _ _ hb2).1
      have hcnt2 : (overlap_call env st (traced_hit env query_sequence reference_sequence
          query_length reference_length st i)).2 = st.good_ones_count + 1 := by
        simp only [overlap_call, hov]; exact hcnt
      have hne : (k : Int) ≠ st.good_ones_count + 1 := by omega
      refine ⟨k, ?_, ?_, ?_⟩
      · rw [g1, hcnt2]; omega
      · rw [(g2 hb).1, hcnt2, Function.update_noteq hne]; exact hs
      · rw [(g2 hb).2, hcnt2, Function.update_noteq hne]; exact he
  · obtain ⟨g1, g2, g3⟩ := f2 h1
    exact ⟨k, by rw [g1]; exact hk, by rw [g2]; exact hs, by rw [g3]; exact he⟩

theorem recorded_new (hov : env.testfor_overlap = testfor_overlap)
    (st : ScanState) (i : Nat) (hc : -1 ≤ st.good_ones_count)
    (h1 : hit_score st i ≥ env.score_threshold)
    (hb : (overlap_call env st (traced_hit env query_sequence reference_sequence
      query_length reference_length st i)).1 = true) :
    recorded (loop_body env query_sequence reference_sequence query_length
      reference_length st i)
      (traced_hit env query_sequence reference_sequence query_length reference_length
        st i).ref_start
      (traced_hit env query_sequence reference_sequence query_length reference_length
        st i).ref_end := by
  obtain ⟨f1, _⟩ := loop_body_overlap_fields env query_sequence reference_sequence
    query_length reference_length st i
  obtain ⟨g1, g2, _⟩ := f1 h1
  have hb2 := hb
  simp only [overlap_call, hov] at hb2
  have hcnt := (testfor_overlap_accept _ _ _ _ _ hb2).1
  have hcnt2 : (overlap_call env st (traced_hit env query_sequence reference_sequence
      query_length reference_length st i)).2 = st.good_ones_count + 1 := by
    simp only [overlap_call, hov]; exact hcnt
  refine ⟨(st.good_ones_count + 1).toNat, ?_, ?_, ?_⟩
  · rw [g1, hcnt2]; omega
  · rw [(g2 hb).1, hcnt2, Int.toNat_of_nonneg (by omega), Function.update_same]
  · rw [(g2 hb).2, hcnt2, Int.toNat_of_nonneg (by omega), Function.update_same]

/-- The counters of the seed scan count over the seed window. -/
theorem seed_loop_counts (m : List Char) (qs : List Char) (j : Nat) (c : SeedCounts) :
    (seed_loop m qs j c).gap_count =
      c.gap_count + (seed_window_from qs j c.mypos).countP (fun p => p.2 = '-') ∧
    (seed_loop m qs j c).perfect_match_count =
      c.perfect_match_count +
        (seed_window_from qs j c.mypos).countP (fun p => charAt m (p.1 : Int) = '|') ∧
    (seed_loop m qs j c).non_gap_count =
      c.non_gap_count +
        (seed_window_from qs j c.mypos).countP (fun p => charAt m (p.1 : Int) ≠ SPACE) := by
  induction qs generalizing j c with
  | nil => simp [seed_loop, seed_window_from]
  | cons qc rest ih =>
    obtain ⟨i1, i2, i3⟩ := ih (j + 1) (seed_body m qc j c)
    have hpos : (seed_body m qc j c).mypos = if qc ≠ '-' then c.mypos + 1 else c.mypos := by
      simp only [seed_body]; split_ifs <;> rfl
    simp only [seed_loop, seed_window_from]
    rw [← hpos]
    by_cases h8 : (seed_body m qc j c).mypos = 8
    · simp only [h8, if_true]
      have hw : 2 ≤ (if qc ≠ '-' then c.mypos + 1 else c.mypos) ∧
          (if qc ≠ '-' then c.mypos + 1 else c.mypos) ≤ 8 := by rw [← hpos, h8]; omega
      simp only [seed_body, hw, and_self, if_true, List.countP_singleton]
      refine ⟨?_, ?_, ?_⟩ <;> split_ifs <;> simp_all
    · simp only [h8, if_false, List.countP_append]
      rw [i1, i2, i3]
      by_cases hw : 2 ≤ (if qc ≠ '-' then c.mypos + 1 else c.mypos) ∧
          (if qc ≠ '-' then c.mypos + 1 else c.mypos) ≤ 8
      · simp only [seed_body, hw, and_self, if_true, List.countP_singleton]
        refine ⟨?_, ?_, ?_⟩ <;> split_ifs <;> simp_all <;> omega
      · simp only [seed_body, hw, if_false, List.countP_nil]
        refine ⟨?_, ?_, ?_⟩ <;> omega

/-- Every position of the seed window from `j` on holds the character of
the scanned string at its index. -/
theorem seed_window_from_char (pre qs : List Char) (mypos : Nat) (p : Nat × Char)
    (h : p ∈ seed_window_from qs pre.length mypos) :
    (pre ++ qs)[p.1]? = some p.2 := by
  induction qs generalizing pre mypos with
  | nil => simp [seed_window_from] at h
  | cons qc rest ih =>
    simp only [seed_window_from] at h
    generalize (if qc ≠ '-' then mypos + 1 else mypos) = mp at h
    have hhere : ∀ x : Nat × Char,
        x ∈ (if 2 ≤ mp ∧ mp ≤ 8 then [(pre.length, qc)] else []) →
        (pre ++ qc :: rest)[x.1]? = some x.2 := by
      intro x hx
      by_cases hw : 2 ≤ mp ∧ mp ≤ 8
      · rw [if_pos hw] at hx
        simp only [List.mem_singleton] at hx
        subst hx
        show (pre ++ qc :: rest)[pre.length]? = some qc
        rw [List.getElem?_append_right (le_refl _)]
        simp
      · rw [if_neg hw] at hx
        simp at hx
    by_cases h8 : mp = 8
    · rw [if_pos h8] at h
      exact hhere p h
    · rw [if_neg h8] at h
      rcases List.mem_append.mp h with h1 | h2
      · exact hhere p h1
      · have := ih (pre ++ [qc]) _ (by simpa using h2)
        simpa using this

theorem loop_body_scores (st : ScanState) (i : Nat) :
    (loop_body env query_sequence reference_sequence query_length reference_length
      st i).scores = Function.update st.scores i zero_score := by
  simp only [loop_body, reset_score, accept_hit, zero_score]
  split_ifs <;> rfl

/-- The body of the loop does not depend on the score threshold once the
candidate passes it. -/
theorem loop_body_threshold_irrelevant (t1 t2 : ℚ) (st : ScanState) (i : Nat)
    (h1 : hit_score st i ≥ t1) (h2 : hit_score st i ≥ t2) :
    loop_body (with_score_threshold env t1) query_sequence reference_sequence
      query_length reference_length st i =
    loop_body (with_score_threshold env t2) query_sequence reference_sequence
      query_length reference_length st i := by
  simp only [loop_body, with_score_threshold, h1, h2, if_true, traced_hit, overlap_call,
    good_call_of, energy_of]

/-- A running maximum started at `a` is the greatest of `a` and the
values met. -/
theorem foldl_max_spec {α : Type} (f : α → ℚ) (l : List α) (a : ℚ) :
    (l.foldl (fun m p => max m (f p)) a = a ∨
      ∃ p ∈ l, l.foldl (fun m p => max m (f p)) a = f p) ∧
    a ≤ l.foldl (fun m p => max m (f p)) a ∧
    ∀ p ∈ l, f p ≤ l.foldl (fun m p => max m (f p)) a := by
  induction l generalizing a with
  | nil => simp
  | cons x xs ih =>
    obtain ⟨h1, h2, h3⟩ := ih (max a (f x))
    simp only [List.foldl_cons, List.mem_cons, exists_eq_or_imp, forall_eq_or_imp]
    refine ⟨?_, le_trans (le_max_left _ _) h2, le_trans (le_max_right _ _) h2, h3⟩
    rcases h1 with h | ⟨p, hp, h⟩
    · rcases max_choice a (f x) with hm | hm
      · left; rw [h, hm]
      · right; left; rw [h, hm]
    · right; right; exact ⟨p, hp, h⟩

/-- A running minimum started at `a` is the least of `a` and the values
met. -/
theorem foldl_min_spec {α : Type} (f : α → ℚ) (l : List α) (a : ℚ) :
    (l.foldl (fun m p => min m (f p)) a = a ∨
      ∃ p ∈ l, l.foldl (fun m p => min m (f p)) a = f p) ∧
    l.foldl (fun m p => min m (f p)) a ≤ a ∧
    ∀ p ∈ l, l.foldl (fun m p => min m (f p)) a ≤ f p := by
  induction l generalizing a with
  | nil => simp
  | cons x xs ih =>
    obtain ⟨h1, h2, h3⟩ := ih (min a (f x))
    simp only [List.foldl_cons, List.mem_cons, exists_eq_or_imp, forall_eq_or_imp]
    refine ⟨?_, le_trans h2 (min_le_left _ _), le_trans h2 (min_le_right _ _), h3⟩
    rcases h1 with h | ⟨p, hp, h⟩
    · rcases min_choice a (f x) with hm | hm
      · left; rw [h, hm]
      · right; left; rw [h, hm]
    · right; right; exact ⟨p, hp, h⟩

theorem toUpper_ne_dash (c : Char) (h : c ≠ '-') : c.toUpper ≠ '-' := by
  unfold Char.toUpper
  simp only
  split
  · rename_i hn
    obtain ⟨h1, h2⟩ := hn
    generalize c.toNat = n at h1 h2
    interval_cases n <;> decide
  · exact h

/-- Without unaligned query positions on either side, lines 141-180 only
raise the aligned rows and adjust the reference coordinates. -/
theorem flank_adjust_no_flank (h : hit_struct) (hqs : h.query_start = 0)
    (hqe : h.query_end = query_length) :
    flank_adjust query_sequence reference_sequence query_length reference_length h =
    { h with
      alignment0 := string_toupper h.alignment0
      alignment2 := string_toupper h.alignment2
      ref_end := h.ref_end + (0 - 1)
      ref_start := h.ref_start - 0 } := by
  simp [flank_adjust, flank5, flank3, hqs, hqe]

/-- The seed scan of 8 gap-free query characters against 8 exact-match
markers. -/
theorem seed_loop_full_core (q : List Char) (hlen : q.length = 8)
    (hno : ∀ c ∈ q, c ≠ '-') :
    seed_loop (List.replicate 8 '|') q 0
      { mypos := 0, non_gap_count := 0, perfect_match_count := 0, gap_count := 0 } =
    { mypos := 8, non_gap_count := 7, perfect_match_count := 7, gap_count := 0 } := by
  match q, hlen, hno with
  | [a, b, c, d, e, f, g, h], _, hno =>
    simp only [List.mem_cons, List.mem_singleton, forall_eq_or_imp, forall_eq,
      List.not_mem_nil, false_implies, implies_true, and_true] at hno
    obtain ⟨ha, hb, hc, hd, he, hf, hg, hh⟩ := hno
    simp [seed_loop, seed_body, ha, hb, hc, hd, he, hf, hg, hh, charAt, SPACE]

theorem flank_adjust_eq (h : hit_struct) :
    flank_adjust query_sequence reference_sequence query_length reference_length h =
    { (flank_state query_sequence reference_sequence query_length reference_length h).hit
      with
      alignment0 := string_toupper (flank_state query_sequence reference_sequence
        query_length reference_length h).hit.alignment0
      alignment2 := string_toupper (flank_state query_sequence reference_sequence
        query_length reference_length h).hit.alignment2
      ref_end := (flank_state query_sequence reference_sequence query_length
          reference_length h).hit.ref_end +
        ((flank_state query_sequence reference_sequence query_length
          reference_length h).utr_offset5p - 1)
      ref_start := (flank_state query_sequence reference_sequence query_length
          reference_length h).hit.ref_start -
        (flank_state query_sequence reference_sequence query_length
          reference_length h).utr_offset3p } := rfl

/-- What the loop of lines 142-154 leaves untouched, and its counter. -/
theorem flank5_fold_frame (n : Nat) (s : FlankState) :
    let r := (List.range n).foldl (flank5_step query_sequence reference_sequence) s
    r.hit.query_start = s.hit.query_start ∧ r.hit.query_end = s.hit.query_end ∧
    r.hit.ref_start = s.hit.ref_start ∧ r.hit.ref_end = s.hit.ref_end ∧
    r.hit.rest3 = s.hit.rest3 ∧ r.hit.rest4 = s.hit.rest4 ∧ r.hit.rest5 = s.hit.rest5 ∧
    r.utr_offset5p = s.utr_offset5p ∧
    r.utr_offset3p = s.utr_offset3p +
      max 0 ((n : Int) - max 0 (s.hit.query_start - s.hit.ref_start)) := by
  induction n with
  | zero => simp
  | succ n ih =>
    obtain ⟨i1, i2, i3, i4, i5, i6, i7, i8, i9⟩ := ih
    simp only [List.range_succ, List.foldl_append, List.foldl_cons, List.foldl_nil]
    generalize (List.range n).foldl (flank5_step query_sequence reference_sequence) s = r
      at i1 i2 i3 i4 i5 i6 i7 i8 i9 ⊢
    simp only [flank5_step]
    split_ifs with hc
    · refine ⟨i1, i2, i3, i4, i5, i6, i7, i8, ?_⟩
      simp only [i9]
      rw [i3, i1] at hc
      push_cast
      omega
    · refine ⟨i1, i2, i3, i4, i5, i6, i7, i8, ?_⟩
      simp only [i9]
      rw [i3, i1] at hc
      push_cast
      omega

/-- What the loop of lines 158-172 leaves untouched, and its counter. -/
theorem flank3_fold_frame (n : Nat) (s : FlankState) :
    let r := (List.range n).foldl
      (flank3_step query_sequence reference_sequence reference_length) s
    r.hit.query_start = s.hit.query_start ∧ r.hit.query_end = s.hit.query_end ∧
    r.hit.ref_start = s.hit.ref_start ∧ r.hit.ref_end = s.hit.ref_end ∧
    r.hit.rest0 = s.hit.rest0 ∧ r.hit.rest1 = s.hit.rest1 ∧ r.hit.rest2 = s.hit.rest2 ∧
    r.utr_offset3p = s.utr_offset3p ∧
    r.utr_offset5p = s.utr_offset5p +
      min (n : Int) (max 0 (reference_length - s.hit.ref_end)) := by
  induction n with
  | zero => simp
  | succ n ih =>
    obtain ⟨i1, i2, i3, i4, i5, i6, i7, i8, i9⟩ := ih
    simp only [List.range_succ, List.foldl_append, List.foldl_cons, List.foldl_nil]
    generalize (List.range n).foldl
      (flank3_step query_sequence reference_sequence reference_length) s = r
      at i1 i2 i3 i4 i5 i6 i7 i8 i9 ⊢
    simp only [flank3_step]
    split_ifs with hc
    · refine ⟨i1, i2, i3, i4, i5, i6, i7, i8, ?_⟩
      simp only [i9]
      rw [i4] at hc
      push_cast
      omega
    · refine ⟨i1, i2, i3, i4, i5, i6, i7, i8, ?_⟩
      simp only [i9]
      rw [i4] at hc
      push_cast
      omega

/-- The coordinates and counters after both flank loops, for any hit. -/
theorem flank_state_frame (h : hit_struct) :
    let r := flank_state query_sequence reference_sequence query_length
      reference_length h
    r.hit.query_start = h.query_start ∧ r.hit.query_end = h.query_end ∧
    r.hit.ref_start = h.ref_start ∧ r.hit.ref_end = h.ref_end ∧
    r.utr_offset3p =
      (if h.query_start ≥ 1 then
        max 0 (h.query_start - max 0 (h.query_start - h.ref_start)) else 0) ∧
    r.utr_offset5p =
      (if h.query_end < query_length then
        min (query_length - h.query_end) (max 0 (reference_length - h.ref_end))
      else 0) := by
  simp only [flank_state]
  have e5 : (flank5 query_sequence reference_sequence
      { hit := h, utr_offset3p := 0, utr_offset5p := 0 }).hit.query_start = h.query_start ∧
      (flank5 query_sequence reference_sequence
        { hit := h, utr_offset3p := 0, utr_offset5p := 0 }).hit.query_end = h.query_end ∧
      (flank5 query_sequence reference_sequence
        { hit := h, utr_offset3p := 0, utr_offset5p := 0 }).hit.ref_start = h.ref_start ∧
      (flank5 query_sequence reference_sequence
        { hit := h, utr_offset3p := 0, utr_offset5p := 0 }).hit.ref_end = h.ref_end ∧
      (flank5 query_sequence reference_sequence
        { hit := h, utr_offset3p := 0, utr_offset5p := 0 }).utr_offset5p = 0 ∧
      (flank5 query_sequence reference_sequence
        { hit := h, utr_offset3p := 0, utr_offset5p := 0 }).utr_offset3p =
        (if h.query_start ≥ 1 then
          max 0 (h.query_start - max 0 (h.query_start - h.ref_start)) else 0) := by
    simp only [flank5]
    split_ifs with hq
    · obtain ⟨i1, i2, i3, i4, _, _, _, i8, i9⟩ := flank5_fold_frame query_sequence
        reference_sequence h.query_start.toNat
        { hit := h, utr_offset3p := 0, utr_offset5p := 0 }
      refine ⟨i1, i2, i3, i4, i8, ?_⟩
      rw [i9]
      simp only [Int.toNat_of_nonneg (show (0 : Int) ≤ h.query_start by omega)]
      omega
    · exact ⟨rfl, rfl, rfl, rfl, rfl, rfl⟩
  obtain ⟨a1, a2, a3, a4, a5, a6⟩ := e5
  generalize flank5 query_sequence reference_sequence
    { hit := h, utr_offset3p := 0, utr_offset5p := 0 } = s5 at a1 a2 a3 a4 a5 a6 ⊢
  by_cases hq : h.query_end < query_length
  · have hf : flank3 query_sequence reference_sequence query_length reference_length s5 =
        (List.range (query_length - s5.hit.query_end).toNat).foldl
          (flank3_step query_sequence reference_sequence reference_length) s5 := by
      simp only [flank3, a2, hq, if_true]
    obtain ⟨i1, i2, i3, i4, _, _, _, i8, i9⟩ := flank3_fold_frame query_sequence
      reference_sequence reference_length (query_length - s5.hit.query_end).toNat s5
    rw [hf, if_pos hq]
    refine ⟨i1.trans a1, i2.trans a2, i3.trans a3, i4.trans a4, i8.trans a6, ?_⟩
    rw [i9, a5, a4, a2]
    simp only [Int.toNat_of_nonneg (show (0 : Int) ≤ query_length - h.query_end by omega)]
    omega
  · have hf : flank3 query_sequence reference_sequence query_length reference_length s5 =
        s5 := by
      simp only [flank3, a2, hq, if_false]
    rw [hf, if_neg hq]
    exact ⟨a1, a2, a3, a4, a6, a5⟩

theorem toLower_ne_NUL (c : Char) (h : c ≠ NUL) : c.toLower ≠ NUL := by
  unfold Char.toLower
  simp only
  split
  · rename_i hn
    obtain ⟨h1, h2⟩ := hn
    generalize c.toNat = n at h1 h2
    interval_cases n <;> decide
  · exact h

theorem putc_append (buf : List Char) (n : Nat) (c : Char) (hn : buf.length = n)
    (h : c ≠ NUL) : putc buf n c = buf ++ [c] := by
  subst hn
  simp [putc, h]

theorem charAt_mem (l : List Char) (i : Int) (h0 : 0 ≤ i) (h1 : i < (l.length : Int)) :
    charAt l i ∈ l := by
  have hlt : i.toNat < l.length := by omega
  simp only [charAt, not_lt.mpr h0, if_false, List.getD_eq_getElem?_getD,
    List.getElem?_eq_getElem hlt, Option.getD_some]
  exact List.getElem_mem hlt

theorem range_map_charAt (l : List Char) (off n : Nat) (h : off + n ≤ l.length) :
    (List.range n).map (fun k => (charAt l (((off + k : Nat) : Int))).toLower) =
      ((l.drop off).take n).map Char.toLower := by
  induction n with
  | zero => simp
  | succ n ih =>
    have hlt : off + n < l.length := by omega
    rw [List.range_succ, List.map_append, ih (by omega), List.take_succ, List.map_append]
    congr 1
    simp only [List.map_cons, List.map_nil, List.getElem?_drop,
      List.getElem?_eq_getElem hlt, Option.toList_some]
    have e1 : ((off : Int) + (n : Int)).toNat = off + n := by omega
    have e2 : ¬ ((off : Int) + (n : Int) < 0) := by omega
    simp [charAt, List.getD_eq_getElem?_getD, e1, e2, List.getElem?_eq_getElem hlt]

/-- The fragments the loop of lines 142-154 builds from cleared buffers. -/
theorem flank5_fold_rest (n : Nat) (s : FlankState)
    (h0 : s.hit.rest0 = []) (h1 : s.hit.rest1 = []) (h2 : s.hit.rest2 = [])
    (hq : ∀ j : Nat, j < n → (charAt query_sequence (j : Int)).toLower ≠ NUL)
    (hr : ∀ j : Nat, j < n → s.hit.ref_start - (s.hit.query_start - (j : Int)) ≥ 0 →
      (charAt reference_sequence
        (s.hit.ref_start - (s.hit.query_start - (j : Int)))).toLower ≠ NUL) :
    let r := (List.range n).foldl (flank5_step query_sequence reference_sequence) s
    r.hit.rest0 =
      (List.range n).map (fun (j : Nat) => (charAt query_sequence (j : Int)).toLower) ∧
    r.hit.rest1 = (List.range n).map (fun (j : Nat) =>
      if s.hit.ref_start - (s.hit.query_start - (j : Int)) ≥ 0 then
        (charAt reference_sequence
          (s.hit.ref_start - (s.hit.query_start - (j : Int)))).toLower
      else '-') ∧
    r.hit.rest2 = (List.range n).map (fun _ => SPACE) := by
  induction n with
  | zero => simp [h0, h1, h2]
  | succ n ih =>
    obtain ⟨i0, i1, i2⟩ := ih (fun j hj => hq j (by omega)) (fun j hj => hr j (by omega))
    obtain ⟨f1, _, f3, _⟩ := flank5_fold_frame query_sequence reference_sequence n s
    simp only [List.range_succ, List.foldl_append, List.foldl_cons, List.foldl_nil,
      List.map_append, List.map_cons, List.map_nil]
    generalize (List.range n).foldl (flank5_step query_sequence reference_sequence) s = r
      at i0 i1 i2 f1 f3 ⊢
    have l0 : r.hit.rest0.length = n := by rw [i0]; simp
    have l1 : r.hit.rest1.length = n := by rw [i1]; simp
    have l2 : r.hit.rest2.length = n := by rw [i2]; simp
    have hsp : SPACE ≠ NUL := by decide
    have hdash : '-' ≠ NUL := by decide
    simp only [flank5_step, f1, f3]
    split_ifs with hc
    · refine ⟨?_, ?_, ?_⟩
      · show putc r.hit.rest0 n _ = _
        rw [putc_append _ _ _ l0 (hq n (by omega)), i0]
      · show putc r.hit.rest1 n _ = _
        rw [putc_append _ _ _ l1 (hr n (by omega) hc), i1]
      · show putc r.hit.rest2 n _ = _
        rw [putc_append _ _ _ l2 hsp, i2]
    · refine ⟨?_, ?_, ?_⟩
      · show putc r.hit.rest0 n _ = _
        rw [putc_append _ _ _ l0 (hq n (by omega)), i0]
      · show putc r.hit.rest1 n _ = _
        rw [putc_append _ _ _ l1 hdash, i1]
      · show putc r.hit.rest2 n _ = _
        rw [putc_append _ _ _ l2 hsp, i2]

/-- The fragments the loop of lines 158-172 builds from cleared buffers. -/
theorem flank3_fold_rest (n : Nat) (s : FlankState)
    (h3 : s.hit.rest3 = []) (h4 : s.hit.rest4 = []) (h5 : s.hit.rest5 = [])
    (hq : ∀ k : Nat, k < n →
      (charAt query_sequence (s.hit.query_end + (k : Int))).toLower ≠ NUL)
    (hr : ∀ k : Nat, k < n → s.hit.ref_end + (k : Int) < reference_length →
      (charAt reference_sequence (s.hit.ref_end + (k : Int))).toLower ≠ NUL) :
    let r := (List.range n).foldl
      (flank3_step query_sequence reference_sequence reference_length) s
    r.hit.rest3 = (List.range n).map (fun (k : Nat) =>
      (charAt query_sequence (s.hit.query_end + (k : Int))).toLower) ∧
    r.hit.rest4 = (List.range n).map (fun (k : Nat) =>
      if s.hit.ref_end + (k : Int) < reference_length then
        (charAt reference_sequence (s.hit.ref_end + (k : Int))).toLower
      else '-') ∧
    r.hit.rest5 = (List.range n).map (fun _ => SPACE) := by
  induction n with
  | zero => simp [h3, h4, h5]
  | succ n ih =>
    obtain ⟨i0, i1, i2⟩ := ih (fun j hj => hq j (by omega)) (fun j hj => hr j (by omega))
    obtain ⟨_, f2, _, f4, _⟩ := flank3_fold_frame query_sequence reference_sequence
      reference_length n s
    simp only [List.range_succ, List.foldl_append, List.foldl_cons, List.foldl_nil,
      List.map_append, List.map_cons, List.map_nil]
    generalize (List.range n).foldl
      (flank3_step query_sequence reference_sequence reference_length) s = r
      at i0 i1 i2 f2 f4 ⊢
    have l0 : r.hit.rest3.length = n := by rw [i0]; simp
    have l1 : r.hit.rest4.length = n := by rw [i1]; simp
    have l2 : r.hit.rest5.length = n := by rw [i2]; simp
    have hsp : SPACE ≠ NUL := by decide
    have hdash : '-' ≠ NUL := by decide
    simp only [flank3_step, f2, f4, add_sub_cancel_left]
    split_ifs with hc
    · refine ⟨?_, ?_, ?_⟩
      · show putc r.hit.rest3 n _ = _
        rw [putc_append _ _ _ l0 (hq n (by omega)), i0]
      · show putc r.hit.rest4 n _ = _
        rw [putc_append _ _ _ l1 (hr n (by omega) hc), i1]
      · show putc r.hit.rest5 n _ = _
        rw [putc_append _ _ _ l2 hsp, i2]
    · refine ⟨?_, ?_, ?_⟩
      · show putc r.hit.rest3 n _ = _
        rw [putc_append _ _ _ l0 (hq n (by omega)), i0]
      · show putc r.hit.rest4 n _ = _
        rw [putc_append _ _ _ l1 hdash, i1]
      · show putc r.hit.rest5 n _ = _
        rw [putc_append _ _ _ l2 hsp, i2]

theorem flank5_eq_fold (s : FlankState) (h : 0 ≤ s.hit.query_start) :
    flank5 query_sequence reference_sequence s =
    (List.range s.hit.query_start.toNat).foldl
      (flank5_step query_sequence reference_sequence) s := by
  simp only [flank5]
  split_ifs with hc
  · rfl
  · have : s.hit.query_start.toNat = 0 := by omega
    rw [this]; rfl

theorem flank3_eq_fold (s : FlankState) (h : s.hit.query_end ≤ query_length) :
    flank3 query_sequence reference_sequence query_length reference_length s =
    (List.range (query_length - s.hit.query_end).toNat).foldl
      (flank3_step query_sequence reference_sequence reference_length) s := by
  simp only [flank3]
  split_ifs with hc
  · rfl
  · have : (query_length - s.hit.query_end).toNat = 0 := by omega
    rw [this]; rfl

/-- The six flank fragments after lines 141-173, as maps over the loop
indices, for a hit with cleared fragments and sequences free of NUL. -/
theorem flank_state_rest (h : hit_struct)
    (hq : 0 ≤ h.query_start ∧ h.query_start ≤ h.query_end ∧ h.query_end ≤ query_length)
    (hr : h.ref_start ≤ reference_length ∧ 0 ≤ h.ref_end)
    (hclear : h.rest0 = [] ∧ h.rest1 = [] ∧ h.rest2 = [] ∧
      h.rest3 = [] ∧ h.rest4 = [] ∧ h.rest5 = [])
    (hqseq : (query_sequence.length : Int) = query_length ∧
      ∀ c ∈ query_sequence, c ≠ NUL)
    (hrseq : (reference_sequence.length : Int) = reference_length ∧
      ∀ c ∈ reference_sequence, c ≠ NUL) :
    let f := (flank_state query_sequence reference_sequence query_length
      reference_length h).hit
    f.rest0 = (List.range h.query_start.toNat).map (fun (j : Nat) =>
      (charAt query_sequence (j : Int)).toLower) ∧
    f.rest1 = (List.range h.query_start.toNat).map (fun (j : Nat) =>
      if h.ref_start - (h.query_start - (j : Int)) ≥ 0 then
        (charAt reference_sequence (h.ref_start - (h.query_start - (j : Int)))).toLower
      else '-') ∧
    f.rest2 = (List.range h.query_start.toNat).map (fun _ => SPACE) ∧
    f.rest3 = (List.range (query_length - h.query_end).toNat).map (fun (k : Nat) =>
      (charAt query_sequence (h.query_end + (k : Int))).toLower) ∧
    f.rest4 = (List.range (query_length - h.query_end).toNat).map (fun (k : Nat) =>
      if h.ref_end + (k : Int) < reference_length then
        (charAt reference_sequence (h.ref_end + (k : Int))).toLower
      else '-') ∧
    f.rest5 = (List.range (query_length - h.query_end).toNat).map (fun _ => SPACE) := by
  obtain ⟨q1, q2, q3⟩ := hq
  obtain ⟨r1, r2⟩ := hr
  obtain ⟨c0, c1, c2, c3, c4, c5⟩ := hclear
  obtain ⟨ql1, ql2⟩ := hqseq
  obtain ⟨rl1, rl2⟩ := hrseq
  have a5 := flank5_fold_rest query_sequence reference_sequence h.query_start.toNat
    { hit := h, utr_offset3p := 0, utr_offset5p := 0 } c0 c1 c2
    (fun j hj => toLower_ne_NUL _ (ql2 _ (charAt_mem _ _ (by omega) (by omega))))
    (fun j hj hp => toLower_ne_NUL _ (rl2 _ (charAt_mem _ _ (by omega)
      (by simp only at hp ⊢; omega))))
  have b5 := flank5_fold_frame query_sequence reference_sequence h.query_start.toNat
    { hit := h, utr_offset3p := 0, utr_offset5p := 0 }
  have e5 := flank5_eq_fold query_sequence reference_sequence
    { hit := h, utr_offset3p := 0, utr_offset5p := 0 } q1
  simp only [flank_state]
  rw [e5]
  simp only at a5 b5 ⊢
  generalize (List.range h.query_start.toNat).foldl
    (flank5_step query_sequence reference_sequence)
    { hit := h, utr_offset3p := 0, utr_offset5p := 0 } = s5 at a5 b5 ⊢
  obtain ⟨a50, a51, a52⟩ := a5
  obtain ⟨_, b2, _, b4, b53, b54, b55, _⟩ := b5
  have a3 := flank3_fold_rest query_sequence reference_sequence reference_length
    (query_length - s5.hit.query_end).toNat s5 (b53.trans c3) (b54.trans c4)
    (b55.trans c5)
    (fun k hk => toLower_ne_NUL _ (ql2 _ (charAt_mem _ _ (by omega) (by omega))))
    (fun k hk hp => toLower_ne_NUL _ (rl2 _ (charAt_mem _ _ (by omega) (by omega))))
  have b3 := flank3_fold_frame query_sequence reference_sequence reference_length
    (query_length - s5.hit.query_end).toNat s5
  have e3 := flank3_eq_fold query_sequence reference_sequence query_length
    reference_length s5 (by omega)
  rw [e3]
  simp only at a3 b3 ⊢
  generalize (List.range (query_length - s5.hit.query_end).toNat).foldl
    (flank3_step query_sequence reference_sequence reference_length) s5 = s3 at a3 b3 ⊢
  obtain ⟨a30, a31, a32⟩ := a3
  obtain ⟨_, _, _, _, b30, b31, b32, _⟩ := b3
  rw [b2] at a30 a31 a32
  rw [b4] at a31
  exact ⟨b30.trans a50, b31.trans a51, b32.trans a52, a30, a31, a32⟩

theorem grid_row_fold_proj (gene_len : Int) (l : List Nat) (g : Grids) :
    (l.foldl (grid_row_step gene_len) g).best = l.foldl (row_step1 gene_len) g.best ∧
    (l.foldl (grid_row_step gene_len) g).track0 = l.foldl (row_step1 gene_len) g.track0 ∧
    (l.foldl (grid_row_step gene_len) g).track1 = l.foldl (row_step1 gene_len) g.track1 ∧
    (l.foldl (grid_row_step gene_len) g).track2 = l.foldl (row_step1 gene_len) g.track2 ∧
    (l.foldl (grid_row_step gene_len) g).track3 = l.foldl (row_step1 gene_len) g.track3 ∧
    (l.foldl (grid_row_step gene_len) g).a_nt_nt =
      l.foldl (row_step1 gene_len) g.a_nt_nt ∧
    (l.foldl (grid_row_step gene_len) g).b_gap_nt =
      l.foldl (row_step1 gene_len) g.b_gap_nt ∧
    (l.foldl (grid_row_step gene_len) g).c_nt_gap =
      l.foldl (row_step1 gene_len) g.c_nt_gap ∧
    (l.foldl (grid_row_step gene_len) g).nt_nt_score =
      l.foldl (row_step1 gene_len) g.nt_nt_score := by
  induction l generalizing g with
  | nil => simp
  | cons x xs ih =>
    simp only [List.foldl_cons]
    exact ih (grid_row_step gene_len g x)

theorem grid_col_fold_proj (l : List Nat) (g : Grids) :
    (l.foldl grid_col_step g).best = l.foldl col_step1 g.best ∧
    (l.foldl grid_col_step g).track0 = l.foldl col_step1 g.track0 ∧
    (l.foldl grid_col_step g).track1 = l.foldl col_step1 g.track1 ∧
    (l.foldl grid_col_step g).track2 = l.foldl col_step1 g.track2 ∧
    (l.foldl grid_col_step g).track3 = l.foldl col_step1 g.track3 ∧
    (l.foldl grid_col_step g).a_nt_nt = l.foldl col_step1 g.a_nt_nt ∧
    (l.foldl grid_col_step g).b_gap_nt = l.foldl col_step1 g.b_gap_nt ∧
    (l.foldl grid_col_step g).c_nt_gap = l.foldl col_step1 g.c_nt_gap ∧
    (l.foldl grid_col_step g).nt_nt_score = l.foldl col_step1 g.nt_nt_score := by
  induction l generalizing g with
  | nil => simp
  | cons x xs ih =>
    simp only [List.foldl_cons]
    exact ih (grid_col_step g x)

/-- The first loop on one grid: after `k` rows, the first `k` rows are
zeroed rows and the others are not allocated. -/
theorem row_fold_eq (gene_len : Int) (n k : Nat) (hk : k ≤ n) :
    (List.range k).foldl (row_step1 gene_len) (List.replicate n []) =
    List.replicate k (calloc_row (gene_len + 1)) ++ List.replicate (n - k) [] := by
  induction k with
  | zero => simp
  | succ k ih =>
    rw [List.range_succ, List.foldl_append, ih (by omega)]
    obtain ⟨m, hm⟩ : ∃ m, n - k = m + 1 := ⟨n - k - 1, by omega⟩
    have hm2 : n - (k + 1) = m := by omega
    rw [hm, hm2]
    simp only [List.foldl_cons, List.foldl_nil, row_step1, set_cell]
    have hset : (List.replicate k (calloc_row (gene_len + 1)) ++
        List.replicate (m + 1) []).set k (calloc_row (gene_len + 1)) =
        List.replicate k (calloc_row (gene_len + 1)) ++
          calloc_row (gene_len + 1) :: List.replicate m [] := by
      rw [List.set_append]
      simp [List.replicate_succ]
    rw [hset]
    have hget : (List.replicate k (calloc_row (gene_len + 1)) ++
        calloc_row (gene_len + 1) :: List.replicate m []).getD k [] =
        calloc_row (gene_len + 1) := by
      rw [List.getD_eq_getElem?_getD, List.getElem?_append_right (by simp)]
      simp
    rw [hget]
    have hrow : (calloc_row (gene_len + 1)).set 0 0 = calloc_row (gene_len + 1) := by
      simp only [calloc_row]
      exact List.set_replicate_self
    rw [hrow, List.set_append]
    simp [List.replicate_succ']

/-- The second loop leaves a zeroed grid as it is. -/
theorem col_fold_eq (gene_len : Int) (n : Nat) (l : List Nat) :
    l.foldl col_step1 (List.replicate n (calloc_row (gene_len + 1))) =
    List.replicate n (calloc_row (gene_len + 1)) := by
  induction l with
  | nil => rfl
  | cons x xs ih =>
    simp only [List.foldl_cons]
    have : col_step1 (List.replicate n (calloc_row (gene_len + 1))) x =
        List.replicate n (calloc_row (gene_len + 1)) := by
      simp only [col_step1, set_cell]
      cases n with
      | zero => simp
      | succ n =>
        have hrow : (calloc_row (gene_len + 1)).set x 0 = calloc_row (gene_len + 1) := by
          simp only [calloc_row]
          exact List.set_replicate_self
        simp [List.replicate_succ, hrow]
    rw [this, ih]

theorem boundary_zero_of_zeroed (mirna_len gene_len : Int) (hm : 0 ≤ mirna_len)
    (hg : 0 ≤ gene_len) :
    boundary_zero mirna_len gene_len
      (List.replicate (mirna_len + 1).toNat (calloc_row (gene_len + 1))) := by
  constructor
  · intro i hi
    have h1 : i < (mirna_len + 1).toNat := by omega
    have h2 : 0 < (gene_len + 1).toNat := by omega
    simp [cell, List.getD_eq_getElem?_getD, List.getElem?_replicate, h1, calloc_row, h2]
  · intro j hj
    have h1 : 0 < (mirna_len + 1).toNat := by omega
    have h2 : j < (gene_len + 1).toNat := by omega
    simp [cell, List.getD_eq_getElem?_getD, List.getElem?_replicate, h1, calloc_row, h2]

/-- Every grid is fully zeroed when the set-up is done. -/
theorem grid_setup_eq (mirna_len gene_len : Int) :
    let z := List.replicate (mirna_len + 1).toNat (calloc_row (gene_len + 1))
    (grid_setup mirna_len gene_len).best = z ∧
    (grid_setup mirna_len gene_len).track0 = z ∧
    (grid_setup mirna_len gene_len).track1 = z ∧
    (grid_setup mirna_len gene_len).track2 = z ∧
    (grid_setup mirna_len gene_len).track3 = z ∧
    (grid_setup mirna_len gene_len).a_nt_nt = z ∧
    (grid_setup mirna_len gene_len).b_gap_nt = z ∧
    (grid_setup mirna_len gene_len).c_nt_gap = z ∧
    (grid_setup mirna_len gene_len).nt_nt_score = z := by
  have one : (List.range (gene_len + 1).toNat).foldl col_step1
      ((List.range (mirna_len + 1).toNat).foldl (row_step1 gene_len)
        (alloc_rows (mirna_len + 1))) =
      List.replicate (mirna_len + 1).toNat (calloc_row (gene_len + 1)) := by
    simp only [alloc_rows]
    rw [row_fold_eq gene_len _ _ (le_refl _)]
    simp only [Nat.sub_self, List.replicate_zero, List.append_nil]
    exact col_fold_eq gene_len _ _
  obtain ⟨c1, c2, c3, c4, c5, c6, c7, c8, c9⟩ := grid_col_fold_proj
    (List.range (gene_len + 1).toNat)
    ((List.range (mirna_len + 1).toNat).foldl (grid_row_step gene_len)
      (grids_alloc mirna_len))
  obtain ⟨r1, r2, r3, r4, r5, r6, r7, r8, r9⟩ := grid_row_fold_proj gene_len
    (List.range (mirna_len + 1).toNat) (grids_alloc mirna_len)
  simp only [grid_setup]
  rw [c1, c2, c3, c4, c5, c6, c7, c8, c9, r1, r2, r3, r4, r5, r6, r7, r8, r9]
  simp only [grids_alloc]
  exact ⟨one, one, one, one, one, one, one, one, one⟩

/-- The overlap test of the spec rejects a span that shares a coordinate
with a recorded span. -/
theorem testfor_overlap_of_recorded (st : ScanState) (s e s1 e1 : Int)
    (hrec : recorded st s e) (hsh : shares_coordinate s e s1 e1) :
    (testfor_overlap st.good_ones_starts_j st.good_ones_ends_j st.good_ones_count
      s1 e1).1 = false := by
  obtain ⟨k, hk, hs, he⟩ := hrec
  unfold testfor_overlap
  have hany : (List.range (st.good_ones_count + 1).toNat).any (fun k =>
      spans_overlap (st.good_ones_starts_j (k : Int)) (st.good_ones_ends_j (k : Int))
        s1 e1) = true := by
    simp only [List.any_eq_true, List.mem_range]
    refine ⟨k, by omega, ?_⟩
    rw [hs, he, spans_overlap_iff]
    exact hsh
  rw [if_pos hany]

theorem seed_window_gap_before (rest : List Char) (j mp : Nat) (h : mp ≤ 1) :
    seed_window_from ('-' :: rest) j mp = seed_window_from rest (j + 1) mp := by
  have h2 : ¬ (2 ≤ mp ∧ mp ≤ 8) := by omega
  have h8 : ¬ mp = 8 := by omega
  simp [seed_window_from, h2, h8]

theorem seed_window_gap_inside (rest : List Char) (j mp : Nat) (h : 2 ≤ mp ∧ mp ≤ 7) :
    seed_window_from ('-' :: rest) j mp =
      (j, '-') :: seed_window_from rest (j + 1) mp := by
  have h2 : 2 ≤ mp ∧ mp ≤ 8 := by omega
  have h8 : ¬ mp = 8 := by omega
  simp [seed_window_from, h2, h8]

theorem seed_window_first (qc : Char) (rest : List Char) (j : Nat) (hq : qc ≠ '-') :
    seed_window_from (qc :: rest) j 0 = seed_window_from rest (j + 1) 1 := by
  simp [seed_window_from, hq]

theorem seed_window_next (qc : Char) (rest : List Char) (j mp : Nat) (hq : qc ≠ '-')
    (h : 1 ≤ mp ∧ mp ≤ 6) :
    seed_window_from (qc :: rest) j mp =
      (j, qc) :: seed_window_from rest (j + 1) (mp + 1) := by
  have h2 : 2 ≤ mp + 1 ∧ mp + 1 ≤ 8 := by omega
  have h8 : ¬ mp + 1 = 8 := by omega
  simp [seed_window_from, hq, h2, h8]

theorem seed_window_last (qc : Char) (rest : List Char) (j : Nat) (hq : qc ≠ '-') :
    seed_window_from (qc :: rest) j 7 = [(j, qc)] := by
  simp [seed_window_from, hq]

/-- The seed window holds at most `8 - mypos` positions with a non-gap query
character. -/
theorem seed_window_nongap_bound (qs : List Char) (j mp : Nat) (h : mp ≤ 7) :
    (seed_window_from qs j mp).countP (fun p => p.2 ≠ '-') ≤ 8 - mp := by
  induction qs generalizing j mp with
  | nil => simp [seed_window_from]
  | cons qc rest ih =>
    by_cases hq : qc = '-'
    · subst hq
      by_cases h1 : mp ≤ 1
      · rw [seed_window_gap_before rest j mp h1]
        exact ih (j + 1) mp h
      · rw [seed_window_gap_inside rest j mp (by omega)]
        have := ih (j + 1) mp h
        simpa using this
    · by_cases h0 : mp = 0
      · subst h0
        rw [seed_window_first qc rest j hq]
        have := ih (j + 1) 1 (by omega)
        omega
      · by_cases h7 : mp = 7
        · subst h7
          rw [seed_window_last qc rest j hq]
          simp [hq]
        · rw [seed_window_next qc rest j mp hq (by omega)]
          have := ih (j + 1) (mp + 1) (by omega)
          rw [List.countP_cons_of_pos _ _ (by simpa using hq)]
          omega

/-- Without a gap in it, the seed window holds at most `8 - mypos` exact
matches. -/
theorem seed_window_perfect_bound (m qs : List Char) (j mp : Nat) (h : mp ≤ 7)
    (hg : (seed_window_from qs j mp).countP (fun p => p.2 = '-') = 0) :
    (seed_window_from qs j mp).countP (fun p => charAt m (p.1 : Int) = '|') ≤ 8 - mp := by
  have hb := seed_window_nongap_bound qs j mp h
  have hlen := List.length_eq_countP_add_countP (fun p : Nat × Char => decide (p.2 = '-'))
    (seed_window_from qs j mp)
  have hle := List.countP_le_length (fun p : Nat × Char =>
    decide (charAt m (p.1 : Int) = '|')) (l := seed_window_from qs j mp)
  have hneg : (seed_window_from qs j mp).countP (fun p => ¬ decide (p.2 = '-') = true) =
      (seed_window_from qs j mp).countP (fun p => p.2 ≠ '-') := by
    congr 1
    funext p
    simp
  rw [hg] at hlen
  omega

theorem window_ok_cons (m : List Char) (qc : Char) (rest : List Char) (j n : Nat) :
    window_ok m (qc :: rest) j (n + 1) ↔
      (qc ≠ '-' ∧ charAt m (j : Int) = '|') ∧ window_ok m rest (j + 1) n := by
  constructor
  · intro h
    refine ⟨?_, fun k hk => ?_⟩
    · obtain ⟨⟨c, hc, hne⟩, hm⟩ := h 0 (by omega)
      simp only [List.getElem?_cons_zero, Option.some.injEq] at hc
      subst hc
      exact ⟨hne, by simpa using hm⟩
    · obtain ⟨⟨c, hc, hne⟩, hm⟩ := h (k + 1) (by omega)
      simp only [List.getElem?_cons_succ] at hc
      refine ⟨⟨c, hc, hne⟩, ?_⟩
      have e : j + 1 + k = j + (k + 1) := by omega
      rw [e]; exact hm
  · rintro ⟨⟨hne, hm⟩, h⟩ k hk
    cases k with
    | zero => exact ⟨⟨qc, by simp, hne⟩, by simpa using hm⟩
    | succ k =>
      obtain ⟨⟨c, hc, hne2⟩, hm2⟩ := h k (by omega)
      refine ⟨⟨c, by simpa using hc, hne2⟩, ?_⟩
      have e : j + 1 + k = j + (k + 1) := by omega
      rw [← e]; exact hm2

/-- One more position in front of a seed window that is entered. -/
theorem seed_window_step (m : List Char) (qc : Char) (j t : Nat)
    (w : List (Nat × Char)) (hq : qc ≠ '-')
    (hb : w.countP (fun p => p.2 = '-') = 0 →
      w.countP (fun p => charAt m (p.1 : Int) = '|') ≤ t) :
    (((j, qc) :: w).countP (fun p => p.2 = '-') = 0 ∧
      t + 1 ≤ ((j, qc) :: w).countP (fun p => charAt m (p.1 : Int) = '|')) ↔
    (charAt m (j : Int) = '|' ∧
      (w.countP (fun p => p.2 = '-') = 0 ∧
        t ≤ w.countP (fun p => charAt m (p.1 : Int) = '|'))) := by
  have hgap : ((j, qc) :: w).countP (fun p => p.2 = '-') =
      w.countP (fun p => p.2 = '-') := by
    rw [List.countP_cons_of_neg _ _ (by simpa using hq)]
  rw [hgap]
  by_cases hm : charAt m (j : Int) = '|'
  · rw [List.countP_cons_of_pos _ _ (by simpa using hm)]
    constructor
    · rintro ⟨h1, h2⟩; exact ⟨hm, h1, by omega⟩
    · rintro ⟨_, h1, h2⟩; exact ⟨h1, by omega⟩
  · rw [List.countP_cons_of_neg _ _ (by simpa using hm)]
    constructor
    · rintro ⟨h1, h2⟩
      have := hb h1
      omega
    · rintro ⟨h, _⟩; exact absurd h hm

/-- Inside the window: the check passes from `mypos` non-gap characters on
exactly when the next `8 - mypos` characters are non-gap characters under
exact-match markers. -/
theorem seed_window_inside_iff (m qs : List Char) (j mp : Nat) (h : 2 ≤ mp ∧ mp ≤ 7) :
    ((seed_window_from qs j mp).countP (fun p => p.2 = '-') = 0 ∧
      8 - mp ≤ (seed_window_from qs j mp).countP
        (fun p => charAt m (p.1 : Int) = '|')) ↔
    window_ok m qs j (8 - mp) := by
  induction qs generalizing j mp with
  | nil =>
    simp only [seed_window_from, List.countP_nil, true_and]
    constructor
    · intro h0; omega
    · intro hw
      obtain ⟨⟨c, hc, _⟩, _⟩ := hw 0 (by omega)
      simp at hc
  | cons qc rest ih =>
    obtain ⟨n, hn⟩ : ∃ n, 8 - mp = n + 1 := ⟨7 - mp, by omega⟩
    rw [hn, window_ok_cons]
    by_cases hq : qc = '-'
    · subst hq
      rw [seed_window_gap_inside rest j mp h]
      rw [List.countP_cons_of_pos _ _ (by simp)]
      constructor
      · rintro ⟨h0, _⟩; omega
      · rintro ⟨⟨hne, _⟩, _⟩; exact absurd rfl hne
    · by_cases h7 : mp = 7
      · subst h7
        rw [seed_window_last qc rest j hq]
        have hn0 : n = 0 := by omega
        subst hn0
        have hstep := seed_window_step m qc j 0 [] hq (by simp)
        simp only [Nat.zero_add, List.countP_nil, le_refl, and_self, and_true] at hstep
        rw [hstep]
        constructor
        · intro hm; exact ⟨⟨hq, hm⟩, fun k hk => absurd hk (by omega)⟩
        · rintro ⟨⟨_, hm⟩, _⟩; exact hm
      · rw [seed_window_next qc rest j mp hq (by omega)]
        have hstep := seed_window_step m qc j n
          (seed_window_from rest (j + 1) (mp + 1)) hq (fun hg => by
            have := seed_window_perfect_bound m rest (j + 1) (mp + 1) (by omega) hg
            omega)
        rw [hstep]
        have hih := ih (j + 1) (mp + 1) (by omega)
        have e : 8 - (mp + 1) = n := by omega
        rw [e] at hih
        rw [hih]
        constructor
        · rintro ⟨hm, hw⟩; exact ⟨⟨hq, hm⟩, hw⟩
        · rintro ⟨⟨_, hm⟩, hw⟩; exact ⟨hm, hw⟩

/-- Before the window: the check passes from `mypos ≤ 1` non-gap characters
on exactly when, for some `s`, the first `s` characters hold the `1 - mypos`
non-gap characters still in front of the window, and the 7 characters from
`s` on are non-gap characters under exact-match markers. -/
theorem seed_window_before_iff (m qs : List Char) (j mp : Nat) (h : mp ≤ 1) :
    ((seed_window_from qs j mp).countP (fun p => p.2 = '-') = 0 ∧
      7 ≤ (seed_window_from qs j mp).countP (fun p => charAt m (p.1 : Int) = '|')) ↔
    ∃ s : Nat, (qs.take s).countP (fun c => c ≠ '-') = 1 - mp ∧
      window_ok m (qs.drop s) (j + s) 7 := by
  induction qs generalizing j mp with
  | nil =>
    simp only [seed_window_from, List.countP_nil, true_and]
    constructor
    · intro h0; omega
    · rintro ⟨s, _, hw⟩
      obtain ⟨⟨c, hc, _⟩, _⟩ := hw 0 (by omega)
      simp at hc
  | cons qc rest ih =>
    have hsucc : ∀ s : Nat, j + (s + 1) = j + 1 + s := fun s => by omega
    by_cases hq : qc = '-'
    · subst hq
      rw [seed_window_gap_before rest j mp h, ih (j + 1) mp h]
      constructor
      · rintro ⟨s, hc, hw⟩
        refine ⟨s + 1, ?_, ?_⟩
        · rw [List.take_succ_cons, List.countP_cons_of_neg _ _ (by simp)]
          exact hc
        · rw [List.drop_succ_cons, hsucc]; exact hw
      · rintro ⟨s, hc, hw⟩
        cases s with
        | zero =>
          obtain ⟨⟨c, hc2, hne⟩, _⟩ := hw 0 (by omega)
          simp only [List.drop_zero, List.getElem?_cons_zero, Option.some.injEq] at hc2
          exact absurd hc2.symm hne
        | succ s =>
          rw [List.take_succ_cons, List.countP_cons_of_neg _ _ (by simp)] at hc
          rw [List.drop_succ_cons, hsucc] at hw
          exact ⟨s, hc, hw⟩
    · have hpos : ∀ l : List Char, (qc :: l).countP (fun c => c ≠ '-') =
          l.countP (fun c => c ≠ '-') + 1 := fun l =>
        List.countP_cons_of_pos _ _ (by simpa using hq)
      by_cases h0 : mp = 0
      · subst h0
        rw [seed_window_first qc rest j hq, ih (j + 1) 1 (by omega)]
        constructor
        · rintro ⟨s, hc, hw⟩
          refine ⟨s + 1, ?_, ?_⟩
          · rw [List.take_succ_cons, hpos]; omega
          · rw [List.drop_succ_cons, hsucc]; exact hw
        · rintro ⟨s, hc, hw⟩
          cases s with
          | zero => simp at hc
          | succ s =>
            rw [List.take_succ_cons, hpos] at hc
            rw [List.drop_succ_cons, hsucc] at hw
            exact ⟨s, by omega, hw⟩
      · have h1 : mp = 1 := by omega
        subst h1
        rw [seed_window_next qc rest j 1 hq (by omega)]
        have hstep := seed_window_step m qc j 6
          (seed_window_from rest (j + 1) (1 + 1)) hq (fun hg => by
            have := seed_window_perfect_bound m rest (j + 1) (1 + 1) (by omega) hg
            omega)
        have hin := seed_window_inside_iff m rest (j + 1) (1 + 1) (by omega)
        have e6 : 8 - (1 + 1) = 6 := by omega
        rw [e6] at hin
        rw [hstep, hin]
        constructor
        · rintro ⟨hm, hw⟩
          refine ⟨0, by simp, ?_⟩
          rw [List.drop_zero, Nat.add_zero]
          exact (window_ok_cons m qc rest j 6).mpr ⟨⟨hq, hm⟩, hw⟩
        · rintro ⟨s, hc, hw⟩
          cases s with
          | zero =>
            rw [List.drop_zero, Nat.add_zero] at hw
            obtain ⟨⟨_, hm⟩, hw2⟩ := (window_ok_cons m qc rest j 6).mp hw
            exact ⟨hm, hw2⟩
          | succ s =>
            rw [List.take_succ_cons, hpos] at hc
            omega

theorem window_ok_count (m : List Char) (n : Nat) (l : List Char) (j : Nat)
    (h : window_ok m l j n) : n ≤ l.countP (fun c => c ≠ '-') := by
  induction n generalizing l j with
  | zero => omega
  | succ n ih =>
    cases l with
    | nil =>
      obtain ⟨⟨c, hc, _⟩, _⟩ := h 0 (by omega)
      simp at hc
    | cons qc rest =>
      obtain ⟨⟨hq, _⟩, hw⟩ := (window_ok_cons m qc rest j n).mp h
      rw [List.countP_cons_of_pos _ _ (by simpa using hq)]
      have := ih rest (j + 1) hw
      omega

/-- Inside the marker string the buffer holds the character the model
reads. -/
theorem sprintf_buffer_inside (stale : Nat → Char) (m : List Char) (j : Nat)
    (h : j < m.length) : sprintf_buffer stale m j = charAt m (j : Int) := by
  have e : ((j : Int)).toNat = j := by omega
  have n : ¬ ((j : Int) < 0) := by omega
  simp [sprintf_buffer, charAt, h, e, n]

/-- When the rest of the query string does not reach behind the marker
string, the scan of the buffers computes the counters of the model, whatever
the marker buffer held before. -/
theorem seed_loop_buf_eq (stale : Nat → Char) (m qs : List Char) (j : Nat)
    (c : SeedCounts) (h : j + qs.length ≤ m.length) :
    seed_loop_buf (sprintf_buffer stale m) qs j c = seed_loop m qs j c := by
  induction qs generalizing j c with
  | nil => rfl
  | cons qc rest ih =>
    have hj : j < m.length := by simp only [List.length_cons] at h; omega
    have hb : seed_body_buf (sprintf_buffer stale m) qc j c = seed_body m qc j c := by
      simp only [seed_body_buf, seed_body, sprintf_buffer_inside stale m j hj]
    simp only [seed_loop_buf, seed_loop, hb]
    split_ifs
    · rfl
    · exact ih (j + 1) _ (by simp only [List.length_cons] at h; omega)

theorem seed_counts_buf_eq (stale : Nat → Char) (q m : List Char)
    (hfit : strict_constructs_fit q m) :
    seed_counts_buf stale q m =
      seed_loop m q 0
        { mypos := 0, non_gap_count := 0, perfect_match_count := 0, gap_count := 0 } :=
  seed_loop_buf_eq stale m q 0 _ (by have := hfit.2.2; omega)

theorem charAt_eq_bar_iff (m : List Char) (i : Nat) :
    charAt m (i : Int) = '|' ↔ m[i]? = some '|' := by
  have e : ((i : Int)).toNat = i := by omega
  have n : ¬ ((i : Int) < 0) := by omega
  simp only [charAt, n, if_false, e, List.getD_eq_getElem?_getD]
  cases hm : m[i]? with
  | none => simp [NUL]
  | some c => simp

end Iteration

/-! ## The whole run -/

section Run

variable (env : Env) (query_sequence reference_sequence : List Char)
  (query_length reference_length : Int) (scores : Nat → score_struct)
  (hit : hit_struct) (hit_summary : HitSummary)

theorem state_before_succ (n : Nat) :
    state_before env query_sequence reference_sequence query_length reference_length
      scores hit hit_summary (n + 1) =
    loop_body env query_sequence reference_sequence query_length reference_length
      (state_before env query_sequence reference_sequence query_length reference_length
        scores hit hit_summary n) n := by
  simp [state_before, run_loop, List.range_succ, List.foldl_append]

theorem do_alignment_eq_state_before :
    do_alignment env query_sequence reference_sequence query_length reference_length
      scores hit hit_summary =
    state_before env query_sequence reference_sequence query_length reference_length
      scores hit hit_summary
      (scores_length_of env query_sequence reference_sequence query_length
        reference_length scores + 1).toNat := rfl

theorem accepted_upto_succ (n : Nat) :
    accepted_upto env query_sequence reference_sequence query_length reference_length
      scores hit hit_summary (n + 1) =
    accepted_upto env query_sequence reference_sequence query_length reference_length
      scores hit hit_summary n ++
    (if accept_cond env query_sequence reference_sequence query_length reference_length
        (state_before env query_sequence reference_sequence query_length
          reference_length scores hit hit_summary n) n then
      [(reported_hit env query_sequence reference_sequence query_length reference_length
          (state_before env query_sequence reference_sequence query_length
            reference_length scores hit hit_summary n) n,
        energy_of env (reported_hit env query_sequence reference_sequence query_length
          reference_length (state_before env query_sequence reference_sequence
            query_length reference_length scores hit hit_summary n) n))]
    else []) := by
  simp only [accepted_upto, List.range_succ, List.filterMap_append]
  congr 1
  simp only [List.filterMap_cons, List.filterMap_nil]
  split <;> simp_all

/-- The summary, the scan score and the report lines after `n` iterations,
in terms of the hits accepted so far. -/
theorem run_invariant (n : Nat) :
    let st := state_before env query_sequence reference_sequence query_length
      reference_length scores hit hit_summary n
    let acc := accepted_upto env query_sequence reference_sequence query_length
      reference_length scores hit hit_summary n
    st.hit_summary.no_hits = (acc.length : Int) ∧
    st.hit_summary.total_score = (acc.map (fun p => p.1.score)).sum ∧
    st.scan_score = (acc.map (fun p => p.2 * -1)).sum ∧
    st.hit_summary.position_list =
      acc.flatMap (fun p => [ExpItem.chr SPACE, ExpItem.int (p.1.ref_start + 1)]) ∧
    st.hit_summary.max_score = acc.foldl (fun m p => max m p.1.score) 0 ∧
    st.hit_summary.max_hit = acc.foldl (fun m p => min m p.2) 0 ∧
    st.fpout = acc.map (fun p => OutLine.hit_report query_length p.1 p.2) := by
  induction n with
  | zero =>
    simp [state_before, run_loop, accepted_upto, start_state, init_state]
  | succ n ih =>
    obtain ⟨ih1, ih2, ih3, ih4, ih5, ih6, ih7⟩ := ih
    rw [state_before_succ, accepted_upto_succ]
    by_cases hc : accept_cond env query_sequence reference_sequence query_length
        reference_length (state_before env query_sequence reference_sequence
          query_length reference_length scores hit hit_summary n) n
    · obtain ⟨a1, a2, a3⟩ := loop_body_of_accept env query_sequence reference_sequence
        query_length reference_length _ n hc
      simp only [hc, if_true]
      rw [a1, a2, a3]
      refine ⟨?_, ?_, ?_, ?_, ?_, ?_, ?_⟩
      · rw [summary_accept_no_hits, ih1]; simp
      · rw [summary_accept_total_score, ih2]; simp
      · rw [ih3]; simp
      · rw [summary_accept_position_list, ih4]; simp
      · rw [summary_accept_max_score, ih5]; simp
      · rw [summary_accept_max_hit, ih6]; simp
      · rw [ih7]; simp
    · obtain ⟨a1, a2, a3⟩ := loop_body_of_reject env query_sequence reference_sequence
        query_length reference_length _ n hc
      simp only [hc, if_false, List.append_nil]
      rw [a1, a2, a3]
      exact ⟨ih1, ih2, ih3, ih4, ih5, ih6, ih7⟩

theorem state_before_count_ge (hov : env.testfor_overlap = testfor_overlap) (n : Nat) :
    -1 ≤ (state_before env query_sequence reference_sequence query_length
      reference_length scores hit hit_summary n).good_ones_count := by
  induction n with
  | zero => simp [state_before, run_loop, start_state, init_state]
  | succ n ih =>
    rw [state_before_succ]
    exact loop_body_count_ge env query_sequence reference_sequence query_length
      reference_length hov _ n ih

/-- A span that passed the overlap test at index `i` is recorded in the
overlap arrays at every later index. -/
theorem recorded_of_passed (hov : env.testfor_overlap = testfor_overlap) (i j : Nat)
    (hij : i < j)
    (h1 : hit_score (state_before env query_sequence reference_sequence query_length
      reference_length scores hit hit_summary i) i ≥ env.score_threshold)
    (hb : (overlap_call env (state_before env query_sequence reference_sequence
        query_length reference_length scores hit hit_summary i)
      (traced_hit env query_sequence reference_sequence query_length reference_length
        (state_before env query_sequence reference_sequence query_length
          reference_length scores hit hit_summary i) i)).1 = true) :
    recorded (state_before env query_sequence reference_sequence query_length
        reference_length scores hit hit_summary j)
      (traced_hit env query_sequence reference_sequence query_length reference_length
        (state_before env query_sequence reference_sequence query_length
          reference_length scores hit hit_summary i) i).ref_start
      (traced_hit env query_sequence reference_sequence query_length reference_length
        (state_before env query_sequence reference_sequence query_length
          reference_length scores hit hit_summary i) i).ref_end := by
  induction j with
  | zero => omega
  | succ j ih =>
    rw [state_before_succ]
    rcases Nat.lt_succ_iff_lt_or_eq.mp hij with hlt | heq
    · exact recorded_step env query_sequence reference_sequence query_length
        reference_length hov _ j _ _ (ih hlt)
    · subst heq
      exact recorded_new env query_sequence reference_sequence query_length
        reference_length hov _ i
        (state_before_count_ge env query_sequence reference_sequence query_length
          reference_length scores hit hit_summary hov i) h1 hb

theorem state_before_scores (n k : Nat) (hk : n ≤ k) :
    (state_before env query_sequence reference_sequence query_length reference_length
      scores hit hit_summary n).scores k =
    (env.build_matrix query_sequence reference_sequence query_length reference_length
      scores).1 k := by
  induction n with
  | zero => simp [state_before, run_loop, start_state, init_state]
  | succ n ih =>
    rw [state_before_succ, loop_body_scores, Function.update_noteq (by omega)]
    exact ih (by omega)

/-- Two runs that differ only in the score threshold are in the same state
at index `n` when every earlier candidate passes both thresholds. -/
theorem state_before_threshold_irrelevant (t1 t2 : ℚ) (n : Nat)
    (h : ∀ k : Nat, k < n →
      (((env.build_matrix query_sequence reference_sequence query_length
        reference_length scores).1 k).score : ℚ) ≥ t1 ∧
      (((env.build_matrix query_sequence reference_sequence query_length
        reference_length scores).1 k).score : ℚ) ≥ t2) :
    state_before (with_score_threshold env t1) query_sequence reference_sequence
      query_length reference_length scores hit hit_summary n =
    state_before (with_score_threshold env t2) query_sequence reference_sequence
      query_length reference_length scores hit hit_summary n := by
  induction n with
  | zero => rfl
  | succ n ih =>
    rw [state_before_succ, state_before_succ, ih (fun k hk => h k (by omega))]
    have hs := state_before_scores (with_score_threshold env t2) query_sequence
      reference_sequence query_length reference_length scores hit hit_summary n n
      (le_refl n)
    apply loop_body_threshold_irrelevant
    · simp only [hit_score]; rw [hs]; exact (h n (by omega)).1
    · simp only [hit_score]; rw [hs]; exact (h n (by omega)).2

/-- Every hit in the accepted list has its energy below the energy
threshold, and the sentinel energy when energy evaluation is disabled. -/
theorem accepted_upto_energy (n : Nat) (p : hit_struct × ℚ)
    (hp : p ∈ accepted_upto env query_sequence reference_sequence query_length
      reference_length scores hit hit_summary n) :
    p.2 < env.energy_threshold ∧ (env.no_energy = true → p.2 = -1000000) := by
  simp only [accepted_upto, List.mem_filterMap, List.mem_range] at hp
  obtain ⟨i, _, hi⟩ := hp
  split at hi
  · rename_i hc
    simp only [Option.some.injEq] at hi
    subst hi
    refine ⟨hc.2.2.2, fun hno => ?_⟩
    simp [energy_of, hno]
  · simp at hi

theorem sum_neg_energy_pos_iff (l : List (hit_struct × ℚ)) (t : ℚ) (ht : t ≤ 0)
    (h : ∀ p ∈ l, p.2 < t) :
    (l.map (fun p => p.2 * -1)).sum > 0 ↔ (l.length : Int) > 0 := by
  induction l with
  | nil => simp
  | cons x xs ih =>
    have hx : x.2 < t := h x (List.mem_cons_self _ _)
    have hxs : ∀ p ∈ xs, p.2 < t := fun p hp => h p (List.mem_cons_of_mem _ hp)
    have hnonneg : (xs.map (fun p => p.2 * -1)).sum ≥ 0 := by
      clear ih
      induction xs with
      | nil => simp
      | cons y ys ih2 =>
        have hy : y.2 < t := hxs y (List.mem_cons_self _ _)
        have := ih2 (fun p hp => h p (by
          rcases List.mem_cons.mp hp with h1 | h1
          · exact h1 ▸ List.mem_cons_self _ _
          · exact List.mem_cons_of_mem _ (List.mem_cons_of_mem _ h1)))
          (fun p hp => hxs p (List.mem_cons_of_mem _ hp))
        simp only [List.map_cons, List.sum_cons]
        linarith
    simp only [List.map_cons, List.sum_cons, List.length_cons]
    constructor
    · intro _; push_cast; omega
    · intro _; linarith

theorem sum_neg_energy_sentinel (l : List (hit_struct × ℚ))
    (h : ∀ p ∈ l, p.2 = -1000000) :
    (l.map (fun p => p.2 * -1)).sum = 1000000 * ((l.length : Int) : ℚ) := by
  induction l with
  | nil => simp
  | cons x xs ih =>
    have hx : x.2 = -1000000 := h x (List.mem_cons_self _ _)
    have := ih (fun p hp => h p (List.mem_cons_of_mem _ hp))
    simp only [List.map_cons, List.sum_cons, List.length_cons, this, hx]
    push_cast
    ring

/-- The summary header is among the lines of `find_targets` exactly when the
scan score is positive. -/
theorem find_targets_header_iff (gene_seq mirna_seq : List Char)
    (gene_len mirna_len : Int) :
    OutLine.summary_header ∈ (find_targets env gene_seq mirna_seq gene_len mirna_len).2 ↔
      (find_targets_scan env gene_seq mirna_seq gene_len mirna_len).scan_score > 0 := by
  have hfp : OutLine.summary_header ∉
      (find_targets_scan env gene_seq mirna_seq gene_len mirna_len).fpout := by
    simp only [find_targets_scan]
    rw [do_alignment_eq_state_before, (run_invariant env mirna_seq gene_seq mirna_len
      gene_len (fun _ => zero_score) calloc_hit fresh_summary _).2.2.2.2.2.2]
    simp
  simp only [find_targets]
  by_cases hpos : (find_targets_scan env gene_seq mirna_seq gene_len mirna_len).scan_score > 0
  · simp only [hpos, if_true, iff_true]
    split_ifs <;> simp
  · simp only [hpos, if_false, iff_false]
    split_ifs <;> simp [hfp]

/-- With exactly two candidates on overlapping spans, the overlap policy of
the spec and the cell behind them below the score threshold, `do_alignment`
accepts the first candidate only. -/
theorem two_overlapping_candidates_one_hit
    (hov : env.testfor_overlap = testfor_overlap)
    (hlen : scores_length_of env query_sequence reference_sequence query_length
      reference_length scores = 2)
    (hs0 : hit_score (state_before env query_sequence reference_sequence query_length
      reference_length scores hit hit_summary 0) 0 ≥ env.score_threshold)
    (hshare : shares_coordinate
      (traced_hit env query_sequence reference_sequence query_length reference_length
        (state_before env query_sequence reference_sequence query_length
          reference_length scores hit hit_summary 0) 0).ref_start
      (traced_hit env query_sequence reference_sequence query_length reference_length
        (state_before env query_sequence reference_sequence query_length
          reference_length scores hit hit_summary 0) 0).ref_end
      (traced_hit env query_sequence reference_sequence query_length reference_length
        (state_before env query_sequence reference_sequence query_length
          reference_length scores hit hit_summary 1) 1).ref_start
      (traced_hit env query_sequence reference_sequence query_length reference_length
        (state_before env query_sequence reference_sequence query_length
          reference_length scores hit hit_summary 1) 1).ref_end)
    (hseed0 : env.strict = true →
      seed_fails (seed_counts (reported_hit env query_sequence reference_sequence
        query_length reference_length (state_before env query_sequence
          reference_sequence query_length reference_length scores hit hit_summary 0)
        0)) = false)
    (henergy0 : energy_of env (reported_hit env query_sequence reference_sequence
        query_length reference_length (state_before env query_sequence
          reference_sequence query_length reference_length scores hit hit_summary 0)
        0) < env.energy_threshold)
    (hbehind : hit_score (state_before env query_sequence reference_sequence
      query_length reference_length scores hit hit_summary 2) 2 < env.score_threshold) :
    accepted_in env query_sequence reference_sequence query_length reference_length
      (state_before env query_sequence reference_sequence query_length reference_length
        scores hit hit_summary 0) 0 ∧
    ¬ accepted_in env query_sequence reference_sequence query_length reference_length
      (state_before env query_sequence reference_sequence query_length reference_length
        scores hit hit_summary 1) 1 ∧
    (accepted_hits env query_sequence reference_sequence query_length reference_length
      scores hit hit_summary).length = 1 ∧
    (do_alignment env query_sequence reference_sequence query_length reference_length
      scores hit hit_summary).hit_summary.no_hits = 1 := by
  have hpass0 : (overlap_call env (state_before env query_sequence reference_sequence
        query_length reference_length scores hit hit_summary 0)
      (traced_hit env query_sequence reference_sequence query_length reference_length
        (state_before env query_sequence reference_sequence query_length
          reference_length scores hit hit_summary 0) 0)).1 = true := by
    simp [overlap_call, hov, state_before, run_loop, start_state, init_state,
      testfor_overlap]
  have c0 : accept_cond env query_sequence reference_sequence query_length
      reference_length (state_before env query_sequence reference_sequence query_length
        reference_length scores hit hit_summary 0) 0 := ⟨hs0, hpass0, hseed0, henergy0⟩
  have hrec := recorded_of_passed env query_sequence reference_sequence query_length
    reference_length scores hit hit_summary hov 0 1 (by omega) hs0 hpass0
  have c1 : ¬ accept_cond env query_sequence reference_sequence query_length
      reference_length (state_before env query_sequence reference_sequence query_length
        reference_length scores hit hit_summary 1) 1 := by
    rintro ⟨_, h2, _, _⟩
    have := testfor_overlap_of_recorded _ _ _ _ _ hrec hshare
    simp only [overlap_call, hov] at h2
    rw [this] at h2
    exact Bool.noConfusion h2
  have c2 : ¬ accept_cond env query_sequence reference_sequence query_length
      reference_length (state_before env query_sequence reference_sequence query_length
        reference_length scores hit hit_summary 2) 2 := by
    rintro ⟨h1, _, _, _⟩
    exact absurd h1 (not_le.mpr hbehind)
  have hacc : (accepted_hits env query_sequence reference_sequence query_length
      reference_length scores hit hit_summary).length = 1 := by
    simp only [accepted_hits, hlen]
    have e3 : ((2 : Int) + 1).toNat = 0 + 1 + 1 + 1 := by decide
    rw [e3, accepted_upto_succ, accepted_upto_succ, accepted_upto_succ]
    rw [if_pos c0, if_neg c1, if_neg c2]
    simp [accepted_upto]
  refine ⟨(accepted_in_iff _ _ _ _ _ _ _).mpr c0, fun h => c1 ((accepted_in_iff _ _ _ _ _
    _ _).mp h), hacc, ?_⟩
  have hinv := (run_invariant env query_sequence reference_sequence query_length
    reference_length scores hit hit_summary
    (scores_length_of env query_sequence reference_sequence query_length
      reference_length scores + 1).toNat).1
  rw [do_alignment_eq_state_before, hinv]
  have : (accepted_upto env query_sequence reference_sequence query_length
      reference_length scores hit hit_summary
      (scores_length_of env query_sequence reference_sequence query_length
        reference_length scores + 1).toNat).length = 1 := hacc
  rw [this]
  rfl

end Run

/-! ## Claims -/

/-- C1: for every index `i` the loop of `do_alignment` visits, the candidate
at `i` is accepted (counted in `hit_summary.no_hits` and forwarded to
`printhit`) if and only if its score is at least `score_threshold`, the
overlap test returned 1 for its traced-back reference span, the seed check
passed whenever strict mode is on, and its energy is strictly below
`energy_threshold`. -/
theorem do_alignment_accepts_iff (env : Env) (query_sequence reference_sequence : List Char)
    (query_length reference_length : Int) (scores : Nat → score_struct)
    (hit : hit_struct) (hit_summary : HitSummary) (i : Nat)
    (_hi : i ∈ loop_indices (scores_length_of env query_sequence reference_sequence
      query_length reference_length scores)) :
    accepted_in env query_sequence reference_sequence query_length reference_length
      (state_before env query_sequence reference_sequence query_length reference_length
        scores hit hit_summary i) i ↔
    accept_cond env query_sequence reference_sequence query_length reference_length
      (state_before env query_sequence reference_sequence query_length reference_length
        scores hit hit_summary i) i :=
  accepted_in_iff env query_sequence reference_sequence query_length reference_length
    (state_before env query_sequence reference_sequence query_length reference_length
      scores hit hit_summary i) i

/-- Witness for C1 in scenario S: index 0 is visited and the equivalence
holds there. -/
theorem do_alignment_accepts_iff_witness :
    0 ∈ loop_indices (scores_length_of env_S query8 reference20 8 20 (fun _ => zero_score)) ∧
    (accepted_in env_S query8 reference20 8 20
        (state_before env_S query8 reference20 8 20 (fun _ => zero_score) calloc_hit
          fresh_summary 0) 0 ↔
      accept_cond env_S query8 reference20 8 20
        (state_before env_S query8 reference20 8 20 (fun _ => zero_score) calloc_hit
          fresh_summary 0) 0) :=
  ⟨by decide, do_alignment_accepts_iff env_S query8 reference20 8 20 (fun _ => zero_score)
    calloc_hit fresh_summary 0 (by decide)⟩

/-- C2: when `do_alignment` returns, `no_hits` is the number of accepted
hits, `total_score` is the sum of their scores, the returned scan score is
the sum of their negated energies, and the position list holds, per accepted
hit in processing order, a separator and the adjusted `ref_start` plus 1. -/
theorem do_alignment_summary_totals (env : Env)
    (query_sequence reference_sequence : List Char)
    (query_length reference_length : Int) (scores : Nat → score_struct)
    (hit : hit_struct) (hit_summary : HitSummary) :
    let st := do_alignment env query_sequence reference_sequence query_length
      reference_length scores hit hit_summary
    let acc := accepted_hits env query_sequence reference_sequence query_length
      reference_length scores hit hit_summary
    st.hit_summary.no_hits = (acc.length : Int) ∧
    st.hit_summary.total_score = (acc.map (fun p => p.1.score)).sum ∧
    st.scan_score = (acc.map (fun p => -p.2)).sum ∧
    st.hit_summary.position_list =
      acc.flatMap (fun p => [ExpItem.chr SPACE, ExpItem.int (p.1.ref_start + 1)]) := by
  obtain ⟨h1, h2, h3, h4, _, _, _⟩ := run_invariant env query_sequence reference_sequence
    query_length reference_length scores hit hit_summary
    (scores_length_of env query_sequence reference_sequence query_length
      reference_length scores + 1).toNat
  rw [do_alignment_eq_state_before]
  refine ⟨h1, h2, ?_, h4⟩
  simp only [accepted_hits]
  rw [h3]
  simp

/-- C3, counterexample: in scenario F the overlap test is the policy of the
spec, both candidates are accepted, and the spans the two hits carry when
they are reported, `[11, 18]` and `[12, 14]`, share the coordinate 12. -/
theorem adjusted_spans_overlap_counterexample :
    env_F.testfor_overlap = testfor_overlap ∧
    accepted_in env_F query8 reference20 8 20
      (state_before env_F query8 reference20 8 20 (fun _ => zero_score) calloc_hit
        fresh_summary 0) 0 ∧
    accepted_in env_F query8 reference20 8 20
      (state_before env_F query8 reference20 8 20 (fun _ => zero_score) calloc_hit
        fresh_summary 1) 1 ∧
    shares_coordinate
      (reported_hit env_F query8 reference20 8 20
        (state_before env_F query8 reference20 8 20 (fun _ => zero_score) calloc_hit
          fresh_summary 0) 0).ref_start
      (reported_hit env_F query8 reference20 8 20
        (state_before env_F query8 reference20 8 20 (fun _ => zero_score) calloc_hit
          fresh_summary 0) 0).ref_end
      (reported_hit env_F query8 reference20 8 20
        (state_before env_F query8 reference20 8 20 (fun _ => zero_score) calloc_hit
          fresh_summary 1) 1).ref_start
      (reported_hit env_F query8 reference20 8 20
        (state_before env_F query8 reference20 8 20 (fun _ => zero_score) calloc_hit
          fresh_summary 1) 1).ref_end := by
  refine ⟨rfl, ?_, ?_, ?_⟩
  · rw [accepted_in_iff]; decide
  · rw [accepted_in_iff]; decide
  · rw [← spans_overlap_iff]; decide

/-- C3, amended: with the overlap test of the spec, any two distinct hits
accepted by `do_alignment` have disjoint traced-back reference spans
`[ref_start, ref_end]`, the spans the hits carry when the overlap test is
made, before the flank adjustment. -/
theorem accepted_traced_spans_disjoint (env : Env)
    (query_sequence reference_sequence : List Char)
    (query_length reference_length : Int) (scores : Nat → score_struct)
    (hit : hit_struct) (hit_summary : HitSummary) (i j : Nat)
    (hov : env.testfor_overlap = testfor_overlap) (hij : i < j)
    (_hj : j ∈ loop_indices (scores_length_of env query_sequence reference_sequence
      query_length reference_length scores))
    (hi_acc : accepted_in env query_sequence reference_sequence query_length
      reference_length (state_before env query_sequence reference_sequence query_length
        reference_length scores hit hit_summary i) i)
    (hj_acc : accepted_in env query_sequence reference_sequence query_length
      reference_length (state_before env query_sequence reference_sequence query_length
        reference_length scores hit hit_summary j) j) :
    ¬ shares_coordinate
      (traced_hit env query_sequence reference_sequence query_length reference_length
        (state_before env query_sequence reference_sequence query_length
          reference_length scores hit hit_summary i) i).ref_start
      (traced_hit env query_sequence reference_sequence query_length reference_length
        (state_before env query_sequence reference_sequence query_length
          reference_length scores hit hit_summary i) i).ref_end
      (traced_hit env query_sequence reference_sequence query_length reference_length
        (state_before env query_sequence reference_sequence query_length
          reference_length scores hit hit_summary j) j).ref_start
      (traced_hit env query_sequence reference_sequence query_length reference_length
        (state_before env query_sequence reference_sequence query_length
          reference_length scores hit hit_summary j) j).ref_end := by
  rw [accepted_in_iff] at hi_acc hj_acc
  obtain ⟨k, hk, hs, he⟩ := recorded_of_passed env query_sequence reference_sequence
    query_length reference_length scores hit hit_summary hov i j hij hi_acc.1 hi_acc.2.1
  have hb := hj_acc.2.1
  simp only [overlap_call, hov] at hb
  have hno := (testfor_overlap_accept _ _ _ _ _ hb).2 k (by
    have := state_before_count_ge env query_sequence reference_sequence query_length
      reference_length scores hit hit_summary hov j
    omega)
  rw [hs, he] at hno
  intro hsh
  rw [← spans_overlap_iff, hno] at hsh
  exact Bool.false_ne_true hsh

/-- Witness for C3, amended, in scenario F: both candidates are accepted and
their traced-back spans `[16, 19]` and `[12, 15]` are disjoint. -/
theorem accepted_traced_spans_disjoint_witness :
    env_F.testfor_overlap = testfor_overlap ∧ 0 < 1 ∧
    1 ∈ loop_indices (scores_length_of env_F query8 reference20 8 20
      (fun _ => zero_score)) ∧
    accepted_in env_F query8 reference20 8 20
      (state_before env_F query8 reference20 8 20 (fun _ => zero_score) calloc_hit
        fresh_summary 0) 0 ∧
    accepted_in env_F query8 reference20 8 20
      (state_before env_F query8 reference20 8 20 (fun _ => zero_score) calloc_hit
        fresh_summary 1) 1 ∧
    ¬ shares_coordinate
      (traced_hit env_F query8 reference20 8 20
        (state_before env_F query8 reference20 8 20 (fun _ => zero_score) calloc_hit
          fresh_summary 0) 0).ref_start
      (traced_hit env_F query8 reference20 8 20
        (state_before env_F query8 reference20 8 20 (fun _ => zero_score) calloc_hit
          fresh_summary 0) 0).ref_end
      (traced_hit env_F query8 reference20 8 20
        (state_before env_F query8 reference20 8 20 (fun _ => zero_score) calloc_hit
          fresh_summary 1) 1).ref_start
      (traced_hit env_F query8 reference20 8 20
        (state_before env_F query8 reference20 8 20 (fun _ => zero_score) calloc_hit
          fresh_summary 1) 1).ref_end :=
  have h0 : accepted_in env_F query8 reference20 8 20
      (state_before env_F query8 reference20 8 20 (fun _ => zero_score) calloc_hit
        fresh_summary 0) 0 := by rw [accepted_in_iff]; decide
  have h1 : accepted_in env_F query8 reference20 8 20
      (state_before env_F query8 reference20 8 20 (fun _ => zero_score) calloc_hit
        fresh_summary 1) 1 := by rw [accepted_in_iff]; decide
  ⟨rfl, by decide, by decide, h0, h1,
    accepted_traced_spans_disjoint env_F query8 reference20 8 20 (fun _ => zero_score)
      calloc_hit fresh_summary 0 1 rfl (by decide) (by decide) h0 h1⟩

/-- C4: for every hit accepted by `do_alignment` in strict mode whose
combined strings fit their buffers of 200 characters, the marker string at
least as long as the query string, the counters scan.c computes from the
buffers are those of the seed scan whatever the marker buffer held before,
and the seed window of the combined query-side string (the positions scanned
while the running non-gap query count is between 2 and 8) holds no gap
character on the query side and at least 7 positions whose marker character
is an exact match. -/
theorem strict_accepted_seed_window (env : Env)
    (query_sequence reference_sequence : List Char)
    (query_length reference_length : Int) (scores : Nat → score_struct)
    (hit : hit_struct) (hit_summary : HitSummary) (i : Nat)
    (_hi : i ∈ loop_indices (scores_length_of env query_sequence reference_sequence
      query_length reference_length scores))
    (hstrict : env.strict = true)
    (hfit : strict_constructs_fit
      (strict_query_construct (reported_hit env query_sequence reference_sequence
        query_length reference_length (state_before env query_sequence
          reference_sequence query_length reference_length scores hit hit_summary i) i))
      (strict_alignment_construct (reported_hit env query_sequence reference_sequence
        query_length reference_length (state_before env query_sequence
          reference_sequence query_length reference_length scores hit hit_summary i) i)))
    (hacc : accepted_in env query_sequence reference_sequence query_length
      reference_length (state_before env query_sequence reference_sequence query_length
        reference_length scores hit hit_summary i) i) :
    let h := reported_hit env query_sequence reference_sequence query_length
      reference_length (state_before env query_sequence reference_sequence query_length
        reference_length scores hit hit_summary i) i
    (∀ stale : Nat → Char,
      seed_counts_buf stale (strict_query_construct h) (strict_alignment_construct h) =
        seed_counts h) ∧
    (∀ p ∈ seed_window (strict_query_construct h),
      (strict_query_construct h)[p.1]? = some p.2 ∧ p.2 ≠ '-') ∧
    7 ≤ (seed_window (strict_query_construct h)).countP
      (fun p => (strict_alignment_construct h)[p.1]? = some '|') := by
  intro h
  rw [accepted_in_iff] at hacc
  have hseed := hacc.2.2.1 hstrict
  obtain ⟨c1, c2, _⟩ := seed_loop_counts (strict_alignment_construct h)
    (strict_query_construct h) 0
    { mypos := 0, non_gap_count := 0, perfect_match_count := 0, gap_count := 0 }
  simp only [seed_fails, decide_eq_false_iff_not, not_or, not_lt, gt_iff_lt] at hseed
  obtain ⟨_, hp, hg⟩ := hseed
  change 7 ≤ (seed_counts h).perfect_match_count at hp
  change (seed_counts h).gap_count ≤ 0 at hg
  simp only [seed_counts] at hp hg
  rw [c2] at hp
  rw [c1] at hg
  simp only [Nat.zero_add] at hp hg
  have hbar : (seed_window (strict_query_construct h)).countP
      (fun p => (strict_alignment_construct h)[p.1]? = some '|') =
      (seed_window_from (strict_query_construct h) 0 0).countP
        (fun p => charAt (strict_alignment_construct h) (p.1 : Int) = '|') := by
    simp only [seed_window]
    congr 1
    funext p
    exact decide_eq_decide.mpr (charAt_eq_bar_iff _ _).symm
  refine ⟨fun stale => seed_counts_buf_eq stale _ _ hfit, fun p hpm => ⟨?_, ?_⟩, ?_⟩
  · have := seed_window_from_char [] (strict_query_construct h) 0 p hpm
    simpa using this
  · have h0 : (seed_window_from (strict_query_construct h) 0 0).countP
        (fun p => decide (p.2 = '-')) = 0 := by omega
    rw [List.countP_eq_zero] at h0
    simpa using h0 p hpm
  · rw [hbar]; exact hp

/-- Witness for C4 in scenario S: strict mode is on, the first candidate is
accepted, its combined strings have 8 characters each, and its seed window
has no query gap and 7 exact matches. -/
theorem strict_accepted_seed_window_witness :
    0 ∈ loop_indices (scores_length_of env_S query8 reference20 8 20
      (fun _ => zero_score)) ∧
    env_S.strict = true ∧
    strict_constructs_fit
      (strict_query_construct (reported_hit env_S query8 reference20
        8 20 (state_before env_S query8 reference20 8 20 (fun _ => zero_score)
          calloc_hit fresh_summary 0) 0))
      (strict_alignment_construct (reported_hit env_S query8 reference20
        8 20 (state_before env_S query8 reference20 8 20 (fun _ => zero_score)
          calloc_hit fresh_summary 0) 0)) ∧
    accepted_in env_S query8 reference20 8 20
      (state_before env_S query8 reference20 8 20 (fun _ => zero_score) calloc_hit
        fresh_summary 0) 0 ∧
    ((∀ p ∈ seed_window (strict_query_construct (reported_hit env_S query8 reference20
        8 20 (state_before env_S query8 reference20 8 20 (fun _ => zero_score)
          calloc_hit fresh_summary 0) 0)),
      (strict_query_construct (reported_hit env_S query8 reference20
        8 20 (state_before env_S query8 reference20 8 20 (fun _ => zero_score)
          calloc_hit fresh_summary 0) 0))[p.1]? = some p.2 ∧ p.2 ≠ '-') ∧
    7 ≤ (seed_window (strict_query_construct (reported_hit env_S query8 reference20
        8 20 (state_before env_S query8 reference20 8 20 (fun _ => zero_score)
          calloc_hit fresh_summary 0) 0))).countP
      (fun p => (strict_alignment_construct (reported_hit env_S query8
        reference20 8 20 (state_before env_S query8 reference20 8 20
          (fun _ => zero_score) calloc_hit fresh_summary 0) 0))[p.1]? = some '|')) :=
  have h0 : accepted_in env_S query8 reference20 8 20
      (state_before env_S query8 reference20 8 20 (fun _ => zero_score) calloc_hit
        fresh_summary 0) 0 := by rw [accepted_in_iff]; decide
  have hfit : strict_constructs_fit
      (strict_query_construct (reported_hit env_S query8 reference20
        8 20 (state_before env_S query8 reference20 8 20 (fun _ => zero_score)
          calloc_hit fresh_summary 0) 0))
      (strict_alignment_construct (reported_hit env_S query8 reference20
        8 20 (state_before env_S query8 reference20 8 20 (fun _ => zero_score)
          calloc_hit fresh_summary 0) 0)) := ⟨by decide, by decide, by decide⟩
  ⟨by decide, rfl, hfit, h0,
    (strict_accepted_seed_window env_S query8 reference20 8 20 (fun _ => zero_score)
      calloc_hit fresh_summary 0 (by decide) rfl hfit h0).2⟩

/-- C5, counterexample: in scenario M, whose candidates are in ascending
score order with overlapping spans, the second candidate is accepted with
score threshold 140 and not accepted with the lower threshold 90. -/
theorem raising_score_threshold_counterexample :
    (90 : ℚ) ≤ 140 ∧
    accepted_in (env_M 140) query8 reference20 8 20
      (state_before (env_M 140) query8 reference20 8 20 (fun _ => zero_score) calloc_hit
        fresh_summary 1) 1 ∧
    ¬ accepted_in (env_M 90) query8 reference20 8 20
      (state_before (env_M 90) query8 reference20 8 20 (fun _ => zero_score) calloc_hit
        fresh_summary 1) 1 := by
  refine ⟨by norm_num, ?_, ?_⟩
  · rw [accepted_in_iff]; decide
  · rw [accepted_in_iff]; decide

/-- C5, amended: when the candidates the loop visits are in non-increasing
score order, then for a fixed energy threshold and seed mode and any two
thresholds `t1 ≤ t2`, every candidate accepted by `do_alignment` with score
threshold `t2` is accepted with score threshold `t1`. -/
theorem raising_score_threshold_sorted (env : Env)
    (query_sequence reference_sequence : List Char)
    (query_length reference_length : Int) (scores : Nat → score_struct)
    (hit : hit_struct) (hit_summary : HitSummary) (t1 t2 : ℚ) (i : Nat)
    (ht : t1 ≤ t2)
    (hi : i ∈ loop_indices (scores_length_of env query_sequence reference_sequence
      query_length reference_length scores))
    (hsorted : ∀ a b : Nat, a ≤ b →
      b ∈ loop_indices (scores_length_of env query_sequence reference_sequence
        query_length reference_length scores) →
      ((env.build_matrix query_sequence reference_sequence query_length
        reference_length scores).1 b).score ≤
      ((env.build_matrix query_sequence reference_sequence query_length
        reference_length scores).1 a).score)
    (hacc : accepted_in (with_score_threshold env t2) query_sequence reference_sequence
      query_length reference_length
      (state_before (with_score_threshold env t2) query_sequence reference_sequence
        query_length reference_length scores hit hit_summary i) i) :
    accepted_in (with_score_threshold env t1) query_sequence reference_sequence
      query_length reference_length
      (state_before (with_score_threshold env t1) query_sequence reference_sequence
        query_length reference_length scores hit hit_summary i) i := by
  rw [accepted_in_iff] at hacc ⊢
  have hs := state_before_scores (with_score_threshold env t2) query_sequence
    reference_sequence query_length reference_length scores hit hit_summary i i
    (le_refl i)
  have hge : (((env.build_matrix query_sequence reference_sequence query_length
      reference_length scores).1 i).score : ℚ) ≥ t2 := by
    have := hacc.1
    simp only [hit_score] at this
    rw [hs] at this
    exact this
  have hall : ∀ k : Nat, k < i →
      (((env.build_matrix query_sequence reference_sequence query_length
        reference_length scores).1 k).score : ℚ) ≥ t1 ∧
      (((env.build_matrix query_sequence reference_sequence query_length
        reference_length scores).1 k).score : ℚ) ≥ t2 := by
    intro k hk
    have hle := hsorted k i (by omega) hi
    have hq : (((env.build_matrix query_sequence reference_sequence query_length
        reference_length scores).1 i).score : ℚ) ≤
        (((env.build_matrix query_sequence reference_sequence query_length
        reference_length scores).1 k).score : ℚ) := by exact_mod_cast hle
    exact ⟨by linarith, by linarith⟩
  rw [state_before_threshold_irrelevant env query_sequence reference_sequence
    query_length reference_length scores hit hit_summary t1 t2 i hall]
  exact ⟨ge_trans hacc.1 ht, hacc.2.1, hacc.2.2.1, hacc.2.2.2⟩

/-- Witness for C5, amended: scenario F has its candidates in descending
score order; its second candidate is accepted with threshold 140 and hence
with threshold 90. -/
theorem raising_score_threshold_sorted_witness :
    (90 : ℚ) ≤ 140 ∧
    1 ∈ loop_indices (scores_length_of env_F query8 reference20 8 20
      (fun _ => zero_score)) ∧
    accepted_in (with_score_threshold env_F 140) query8 reference20 8 20
      (state_before (with_score_threshold env_F 140) query8 reference20 8 20
        (fun _ => zero_score) calloc_hit fresh_summary 1) 1 ∧
    accepted_in (with_score_threshold env_F 90) query8 reference20 8 20
      (state_before (with_score_threshold env_F 90) query8 reference20 8 20
        (fun _ => zero_score) calloc_hit fresh_summary 1) 1 :=
  have h0 : accepted_in (with_score_threshold env_F 140) query8 reference20 8 20
      (state_before (with_score_threshold env_F 140) query8 reference20 8 20
        (fun _ => zero_score) calloc_hit fresh_summary 1) 1 := by
    rw [accepted_in_iff]; decide
  ⟨by norm_num, by decide, h0,
    raising_score_threshold_sorted env_F query8 reference20 8 20 (fun _ => zero_score)
      calloc_hit fresh_summary 90 140 1 (by norm_num) (by decide)
      (by
        intro a b hab hb
        have hb3 : b ≤ 2 := by
          have : b ∈ List.range 3 := hb
          simp only [List.mem_range] at this
          omega
        interval_cases b <;> interval_cases a <;> decide)
      h0⟩

/-- C6, the code at the failing input: in scenario Z both lengths are 0 and
`scores_length` is 0, yet the loop visits index 0, the zero score of
`scores[0]` passes the threshold 0, and the traced-back empty hit is
accepted: one hit is counted, one position is listed, one `printhit` call
is made and the scan score returned is 1000000. -/
theorem zero_length_phantom_hit :
    scores_length_of env_Z [] [] 0 0 (fun _ => zero_score) = 0 ∧
    loop_indices (scores_length_of env_Z [] [] 0 0 (fun _ => zero_score)) = [0] ∧
    (do_alignment env_Z [] [] 0 0 (fun _ => zero_score) calloc_hit
      fresh_summary).hit_summary.no_hits = 1 ∧
    (do_alignment env_Z [] [] 0 0 (fun _ => zero_score) calloc_hit
      fresh_summary).hit_summary.position_list = [ExpItem.chr SPACE, ExpItem.int 1] ∧
    (do_alignment env_Z [] [] 0 0 (fun _ => zero_score) calloc_hit
      fresh_summary).fpout.length = 1 ∧
    (do_alignment env_Z [] [] 0 0 (fun _ => zero_score) calloc_hit
      fresh_summary).scan_score = 1000000 := by
  refine ⟨by decide, by decide, by decide, by decide, by decide, ?_⟩
  decide!

/-- With `scores_length = 0`, the result is empty whenever the score read
from `scores[0]` is below the score threshold: the loop of `do_alignment`
then traces nothing back, accepts no hit and returns scan score 0. -/
theorem zero_candidates_below_threshold (env : Env)
    (query_sequence reference_sequence : List Char)
    (query_length reference_length : Int) (scores : Nat → score_struct)
    (hit : hit_struct) (hit_summary : HitSummary)
    (hlen : scores_length_of env query_sequence reference_sequence query_length
      reference_length scores = 0)
    (hlow : (((env.build_matrix query_sequence reference_sequence query_length
      reference_length scores).1 0).score : ℚ) < env.score_threshold) :
    let st := do_alignment env query_sequence reference_sequence query_length
      reference_length scores hit hit_summary
    st.hit_summary.no_hits = 0 ∧ st.hit_summary.position_list = [] ∧
    st.fpout = [] ∧ st.scan_score = 0 ∧
    st.hit = env.clear_hit hit query_length reference_length := by
  intro st
  have hst : st = loop_body env query_sequence reference_sequence query_length
      reference_length (start_state env query_sequence reference_sequence query_length
        reference_length scores hit hit_summary) 0 := by
    show do_alignment env query_sequence reference_sequence query_length
      reference_length scores hit hit_summary = _
    simp only [do_alignment, hlen, loop_indices, run_loop]
    rfl
  have h1 : ¬ hit_score (start_state env query_sequence reference_sequence query_length
      reference_length scores hit hit_summary) 0 ≥ env.score_threshold := by
    simp only [hit_score, start_state, init_state, ge_iff_le, not_le]
    exact hlow
  rw [hst]
  unfold loop_body
  rw [if_neg h1]
  simp [reset_score, start_state, init_state]

/-- C7, counterexample: in scenario B without strict mode and with energy
threshold -1000000, energy evaluation is disabled and the candidate meets
the score threshold and passes the overlap test, yet it is not accepted. -/
theorem no_energy_gate_counterexample :
    (env_B false (-1000000)).no_energy = true ∧
    (env_B false (-1000000)).strict = false ∧
    hit_score (state_before (env_B false (-1000000)) query8 reference20 8 20
      (fun _ => zero_score) calloc_hit fresh_summary 0) 0 ≥
      (env_B false (-1000000)).score_threshold ∧
    (overlap_call (env_B false (-1000000))
      (state_before (env_B false (-1000000)) query8 reference20 8 20
        (fun _ => zero_score) calloc_hit fresh_summary 0)
      (traced_hit (env_B false (-1000000)) query8 reference20 8 20
        (state_before (env_B false (-1000000)) query8 reference20 8 20
          (fun _ => zero_score) calloc_hit fresh_summary 0) 0)).1 = true ∧
    ¬ accepted_in (env_B false (-1000000)) query8 reference20 8 20
      (state_before (env_B false (-1000000)) query8 reference20 8 20
        (fun _ => zero_score) calloc_hit fresh_summary 0) 0 := by
  refine ⟨rfl, rfl, by decide, by decide, ?_⟩
  rw [accepted_in_iff]; decide

/-- C7, amended: when energy evaluation is disabled and `energy_threshold`
is above the sentinel -1000000, the energy gate passes: a candidate that
meets the score threshold, passes the overlap test and passes the seed
check (if strict) is accepted. -/
theorem no_energy_gate_passes (env : Env)
    (query_sequence reference_sequence : List Char)
    (query_length reference_length : Int) (scores : Nat → score_struct)
    (hit : hit_struct) (hit_summary : HitSummary) (i : Nat)
    (hno : env.no_energy = true)
    (hthr : env.energy_threshold > -1000000)
    (hscore : hit_score (state_before env query_sequence reference_sequence query_length
      reference_length scores hit hit_summary i) i ≥ env.score_threshold)
    (hov : (overlap_call env (state_before env query_sequence reference_sequence
        query_length reference_length scores hit hit_summary i)
      (traced_hit env query_sequence reference_sequence query_length reference_length
        (state_before env query_sequence reference_sequence query_length
          reference_length scores hit hit_summary i) i)).1 = true)
    (hseed : env.strict = true →
      seed_fails (seed_counts (reported_hit env query_sequence reference_sequence
        query_length reference_length (state_before env query_sequence
          reference_sequence query_length reference_length scores hit hit_summary i)
        i)) = false) :
    energy_of env (reported_hit env query_sequence reference_sequence
        query_length reference_length (state_before env query_sequence
          reference_sequence query_length reference_length scores hit hit_summary i)
        i) < env.energy_threshold ∧
    accepted_in env query_sequence reference_sequence query_length reference_length
      (state_before env query_sequence reference_sequence query_length reference_length
        scores hit hit_summary i) i := by
  have he : energy_of env (reported_hit env query_sequence reference_sequence
        query_length reference_length (state_before env query_sequence
          reference_sequence query_length reference_length scores hit hit_summary i)
        i) < env.energy_threshold := by
    simp only [energy_of, hno, Bool.not_true, Bool.false_eq_true, if_false]
    exact hthr
  refine ⟨he, ?_⟩
  rw [accepted_in_iff]
  exact ⟨hscore, hov, hseed, he⟩

/-- Witness for C7, amended: scenario B without strict mode and with energy
threshold -20. -/
theorem no_energy_gate_passes_witness :
    (env_B false (-20)).no_energy = true ∧
    (env_B false (-20)).energy_threshold > -1000000 ∧
    energy_of (env_B false (-20)) (reported_hit (env_B false (-20)) query8 reference20
        8 20 (state_before (env_B false (-20)) query8 reference20 8 20
          (fun _ => zero_score) calloc_hit fresh_summary 0) 0) <
      (env_B false (-20)).energy_threshold ∧
    accepted_in (env_B false (-20)) query8 reference20 8 20
      (state_before (env_B false (-20)) query8 reference20 8 20 (fun _ => zero_score)
        calloc_hit fresh_summary 0) 0 :=
  ⟨rfl, by decide,
    no_energy_gate_passes (env_B false (-20)) query8 reference20 8 20
      (fun _ => zero_score) calloc_hit fresh_summary 0 rfl (by decide) (by decide)
      (by decide) (by decide)⟩

/-- C8, counterexample: in scenario P one hit is accepted, with score -5
and energy 5, and the summary holds `max_score = 0` and `max_hit = 0`,
neither of them the score or the energy of the accepted hit. -/
theorem summary_extrema_counterexample :
    (accepted_hits env_P query8 reference20 8 20 (fun _ => zero_score) calloc_hit
      fresh_summary).map (fun p => (p.1.score, p.2)) = [(-5, 5)] ∧
    (do_alignment env_P query8 reference20 8 20 (fun _ => zero_score) calloc_hit
      fresh_summary).hit_summary.max_score = 0 ∧
    (do_alignment env_P query8 reference20 8 20 (fun _ => zero_score) calloc_hit
      fresh_summary).hit_summary.max_hit = 0 := by
  decide

/-- C8, amended: when `do_alignment` returns, `hit_summary.max_score` is the
maximum of 0 and the scores of the accepted hits, and `hit_summary.max_hit`
is the minimum of 0 and the energies of the accepted hits, for every score
threshold and energy threshold. -/
theorem summary_extrema (env : Env)
    (query_sequence reference_sequence : List Char)
    (query_length reference_length : Int) (scores : Nat → score_struct)
    (hit : hit_struct) (hit_summary : HitSummary) :
    let st := do_alignment env query_sequence reference_sequence query_length
      reference_length scores hit hit_summary
    let acc := accepted_hits env query_sequence reference_sequence query_length
      reference_length scores hit hit_summary
    ((st.hit_summary.max_score = 0 ∨ ∃ p ∈ acc, st.hit_summary.max_score = p.1.score) ∧
      0 ≤ st.hit_summary.max_score ∧ ∀ p ∈ acc, p.1.score ≤ st.hit_summary.max_score) ∧
    ((st.hit_summary.max_hit = 0 ∨ ∃ p ∈ acc, st.hit_summary.max_hit = p.2) ∧
      st.hit_summary.max_hit ≤ 0 ∧ ∀ p ∈ acc, st.hit_summary.max_hit ≤ p.2) := by
  obtain ⟨_, _, _, _, h5, h6, _⟩ := run_invariant env query_sequence reference_sequence
    query_length reference_length scores hit hit_summary
    (scores_length_of env query_sequence reference_sequence query_length
      reference_length scores + 1).toNat
  intro st acc
  have e5 : st.hit_summary.max_score = acc.foldl (fun m p => max m p.1.score) 0 := h5
  have e6 : st.hit_summary.max_hit = acc.foldl (fun m p => min m p.2) 0 := h6
  rw [e5, e6]
  exact ⟨foldl_max_spec (fun p => p.1.score) acc 0, foldl_min_spec (fun p => p.2) acc 0⟩

/-- C9: `find_targets` writes the summary header and the totals line if and
only if the scan score returned by `do_alignment` is strictly positive, and
the lines `do_alignment` writes are exactly one `printhit` report per
accepted hit, in processing order, and none for a rejected candidate. -/
theorem summary_line_and_hit_reports (env : Env)
    (query_sequence reference_sequence : List Char)
    (query_length reference_length : Int) (scores : Nat → score_struct)
    (hit : hit_struct) (hit_summary : HitSummary)
    (gene_seq mirna_seq : List Char) (gene_len mirna_len : Int) :
    (OutLine.summary_header ∈ (find_targets env gene_seq mirna_seq gene_len mirna_len).2 ↔
      (find_targets_scan env gene_seq mirna_seq gene_len mirna_len).scan_score > 0) ∧
    ((∃ l ∈ (find_targets env gene_seq mirna_seq gene_len mirna_len).2, is_totals l = true) ↔
      (find_targets_scan env gene_seq mirna_seq gene_len mirna_len).scan_score > 0) ∧
    (do_alignment env query_sequence reference_sequence query_length reference_length
      scores hit hit_summary).fpout =
      (accepted_hits env query_sequence reference_sequence query_length reference_length
        scores hit hit_summary).map
        (fun p => OutLine.hit_report query_length p.1 p.2) := by
  have hout : ∀ (q r : List Char) (ql rl : Int) (sc : Nat → score_struct)
      (h : hit_struct) (hs : HitSummary),
      (do_alignment env q r ql rl sc h hs).fpout =
        (accepted_hits env q r ql rl sc h hs).map
          (fun p => OutLine.hit_report ql p.1 p.2) := by
    intro q r ql rl sc h hs
    exact (run_invariant env q r ql rl sc h hs
      (scores_length_of env q r ql rl sc + 1).toNat).2.2.2.2.2.2
  refine ⟨?_, ?_, hout _ _ _ _ _ _ _⟩
  · have hfp : OutLine.summary_header ∉
        (find_targets_scan env gene_seq mirna_seq gene_len mirna_len).fpout := by
      simp only [find_targets_scan]
      rw [hout]
      simp
    simp only [find_targets]
    by_cases hpos : (find_targets_scan env gene_seq mirna_seq gene_len mirna_len).scan_score > 0
    · simp only [hpos, if_true, iff_true]
      split_ifs <;> simp
    · simp only [hpos, if_false, iff_false]
      split_ifs <;> simp [hfp]
  · have hfp : (find_targets_scan env gene_seq mirna_seq gene_len mirna_len).fpout.any
        is_totals = false := by
      simp only [find_targets_scan]
      rw [hout, List.any_eq_false]
      intro l hl
      simp only [List.mem_map] at hl
      obtain ⟨p, _, rfl⟩ := hl
      simp [is_totals]
    have hany : ∀ out : List OutLine,
        (∃ l ∈ out, is_totals l = true) ↔ out.any is_totals = true := by
      intro out
      simp [List.any_eq_true]
    rw [hany]
    simp only [find_targets]
    by_cases hpos : (find_targets_scan env gene_seq mirna_seq gene_len mirna_len).scan_score > 0
    · simp only [hpos, if_true, iff_true]
      split_ifs <;> simp [is_totals]
    · simp only [hpos, if_false, iff_false]
      split_ifs <;> simp [is_totals, hfp]

/-- C10, counterexample: in scenario B with strict mode and energy
threshold -1000000 the query has length 8, the traced-back core has 8
columns covering the whole query with no query gap and every marker an
exact match, the score meets the threshold and the overlap test passes,
and the seed check counts 7, 7 and 0; yet the hit is not accepted. -/
theorem full_core_strict_counterexample :
    (env_B true (-1000000)).strict = true ∧ (env_B true (-1000000)).no_energy = true ∧
    query8.length = 8 ∧
    traced_hit (env_B true (-1000000)) query8 reference20 8 20
      (state_before (env_B true (-1000000)) query8 reference20 8 20
        (fun _ => zero_score) calloc_hit fresh_summary 0) 0 =
      { core_full with score := 160 } ∧
    hit_score (state_before (env_B true (-1000000)) query8 reference20 8 20
      (fun _ => zero_score) calloc_hit fresh_summary 0) 0 ≥
      (env_B true (-1000000)).score_threshold ∧
    (overlap_call (env_B true (-1000000))
      (state_before (env_B true (-1000000)) query8 reference20 8 20
        (fun _ => zero_score) calloc_hit fresh_summary 0)
      (traced_hit (env_B true (-1000000)) query8 reference20 8 20
        (state_before (env_B true (-1000000)) query8 reference20 8 20
          (fun _ => zero_score) calloc_hit fresh_summary 0) 0)).1 = true ∧
    seed_counts (reported_hit (env_B true (-1000000)) query8 reference20 8 20
      (state_before (env_B true (-1000000)) query8 reference20 8 20
        (fun _ => zero_score) calloc_hit fresh_summary 0) 0) =
      { mypos := 8, non_gap_count := 7, perfect_match_count := 7, gap_count := 0 } ∧
    ¬ accepted_in (env_B true (-1000000)) query8 reference20 8 20
      (state_before (env_B true (-1000000)) query8 reference20 8 20
        (fun _ => zero_score) calloc_hit fresh_summary 0) 0 := by
  refine ⟨rfl, rfl, rfl, by decide, by decide, by decide, by decide, ?_⟩
  rw [accepted_in_iff]; decide

/-- C10, amended: with strict mode on, energy evaluation off and
`energy_threshold` above the sentinel -1000000, for every query of length 8
whose traceback yields an 8-column core covering the whole query
(`query_start = 0`, `query_end = 8`, no gap in the query row, every marker
an exact match, no flank fragment), with the score at least
`score_threshold` and the overlap test passing, the seed check counts 7
exact matches, 7 non-space markers and 0 gaps, and the hit is accepted. -/
theorem full_core_strict_accepted (env : Env)
    (query_sequence reference_sequence : List Char)
    (query_length reference_length : Int) (scores : Nat → score_struct)
    (hit : hit_struct) (hit_summary : HitSummary) (i : Nat)
    (_hstrict : env.strict = true) (hno : env.no_energy = true)
    (hthr : env.energy_threshold > -1000000)
    (hql : query_length = 8)
    (hqs : (traced_hit env query_sequence reference_sequence query_length
      reference_length (state_before env query_sequence reference_sequence
        query_length reference_length scores hit hit_summary i) i).query_start = 0)
    (hqe : (traced_hit env query_sequence reference_sequence query_length
      reference_length (state_before env query_sequence reference_sequence
        query_length reference_length scores hit hit_summary i) i).query_end = 8)
    (hlen : (traced_hit env query_sequence reference_sequence query_length
      reference_length (state_before env query_sequence reference_sequence
        query_length reference_length scores hit hit_summary i) i).alignment0.length = 8)
    (hgap : ∀ c ∈ (traced_hit env query_sequence reference_sequence query_length
      reference_length (state_before env query_sequence reference_sequence
        query_length reference_length scores hit hit_summary i) i).alignment0, c ≠ '-')
    (hmark : (traced_hit env query_sequence reference_sequence query_length
      reference_length (state_before env query_sequence reference_sequence
        query_length reference_length scores hit hit_summary i) i).alignment1 =
      List.replicate 8 '|')
    (hrest : (traced_hit env query_sequence reference_sequence query_length
        reference_length (state_before env query_sequence reference_sequence
          query_length reference_length scores hit hit_summary i) i).rest0 = [] ∧
      (traced_hit env query_sequence reference_sequence query_length
        reference_length (state_before env query_sequence reference_sequence
          query_length reference_length scores hit hit_summary i) i).rest2 = [] ∧
      (traced_hit env query_sequence reference_sequence query_length
        reference_length (state_before env query_sequence reference_sequence
          query_length reference_length scores hit hit_summary i) i).rest3 = [] ∧
      (traced_hit env query_sequence reference_sequence query_length
        reference_length (state_before env query_sequence reference_sequence
          query_length reference_length scores hit hit_summary i) i).rest5 = [])
    (hscore : hit_score (state_before env query_sequence reference_sequence query_length
      reference_length scores hit hit_summary i) i ≥ env.score_threshold)
    (hov : (overlap_call env (state_before env query_sequence reference_sequence
        query_length reference_length scores hit hit_summary i)
      (traced_hit env query_sequence reference_sequence query_length reference_length
        (state_before env query_sequence reference_sequence query_length
          reference_length scores hit hit_summary i) i)).1 = true) :
    seed_counts (reported_hit env query_sequence reference_sequence query_length
      reference_length (state_before env query_sequence reference_sequence query_length
        reference_length scores hit hit_summary i) i) =
      { mypos := 8, non_gap_count := 7, perfect_match_count := 7, gap_count := 0 } ∧
    accepted_in env query_sequence reference_sequence query_length reference_length
      (state_before env query_sequence reference_sequence query_length reference_length
        scores hit hit_summary i) i := by
  obtain ⟨hr0, hr2, hr3, hr5⟩ := hrest
  have hcounts : seed_counts (reported_hit env query_sequence reference_sequence
      query_length reference_length (state_before env query_sequence reference_sequence
        query_length reference_length scores hit hit_summary i) i) =
      { mypos := 8, non_gap_count := 7, perfect_match_count := 7, gap_count := 0 } := by
    simp only [reported_hit]
    rw [flank_adjust_no_flank query_sequence reference_sequence query_length
      reference_length _ hqs (by rw [hqe, hql])]
    simp only [seed_counts, strict_query_construct, strict_alignment_construct, hr0, hr2,
      hr3, hr5, hmark, List.nil_append, List.append_nil]
    apply seed_loop_full_core
    · simp [string_toupper, hlen]
    · intro c hc
      simp only [string_toupper, List.mem_map] at hc
      obtain ⟨d, hd, rfl⟩ := hc
      exact toUpper_ne_dash d (hgap d hd)
  refine ⟨hcounts, ?_⟩
  rw [accepted_in_iff]
  refine ⟨hscore, hov, fun _ => ?_, ?_⟩
  · rw [hcounts]; decide
  · simp only [energy_of, hno, Bool.not_true, Bool.false_eq_true, if_false]
    exact hthr

/-- Witness for C10, amended: scenario B with strict mode and energy
threshold -20. -/
theorem full_core_strict_accepted_witness :
    (env_B true (-20)).strict = true ∧ (env_B true (-20)).no_energy = true ∧
    (env_B true (-20)).energy_threshold > -1000000 ∧
    traced_hit (env_B true (-20)) query8 reference20 8 20
      (state_before (env_B true (-20)) query8 reference20 8 20
        (fun _ => zero_score) calloc_hit fresh_summary 0) 0 =
      { core_full with score := 160 } ∧
    (seed_counts (reported_hit (env_B true (-20)) query8 reference20 8 20
      (state_before (env_B true (-20)) query8 reference20 8 20 (fun _ => zero_score)
        calloc_hit fresh_summary 0) 0) =
      { mypos := 8, non_gap_count := 7, perfect_match_count := 7, gap_count := 0 } ∧
    accepted_in (env_B true (-20)) query8 reference20 8 20
      (state_before (env_B true (-20)) query8 reference20 8 20 (fun _ => zero_score)
        calloc_hit fresh_summary 0) 0) :=
  ⟨rfl, rfl, by decide, by decide,
    full_core_strict_accepted (env_B true (-20)) query8 reference20 8 20
      (fun _ => zero_score) calloc_hit fresh_summary 0 rfl rfl (by decide) rfl
      (by decide) (by decide) (by decide) (by decide) (by decide)
      ⟨by decide, by decide, by decide, by decide⟩ (by decide) (by decide)⟩

/-- C13: for every candidate the loop of `do_alignment` visits and does not
accept, because its score is below the threshold, the overlap test rejects
it, the seed check rejects it in strict mode, or its energy is not below
the threshold, the iteration leaves every field of the summary, the running
scan score and the report lines unchanged. -/
theorem rejected_candidate_leaves_summary (env : Env)
    (query_sequence reference_sequence : List Char)
    (query_length reference_length : Int) (scores : Nat → score_struct)
    (hit : hit_struct) (hit_summary : HitSummary) (i : Nat)
    (_hi : i ∈ loop_indices (scores_length_of env query_sequence reference_sequence
      query_length reference_length scores))
    (hrej : hit_score (state_before env query_sequence reference_sequence query_length
        reference_length scores hit hit_summary i) i < env.score_threshold ∨
      (overlap_call env (state_before env query_sequence reference_sequence
          query_length reference_length scores hit hit_summary i)
        (traced_hit env query_sequence reference_sequence query_length reference_length
          (state_before env query_sequence reference_sequence query_length
            reference_length scores hit hit_summary i) i)).1 = false ∨
      (env.strict = true ∧
        seed_fails (seed_counts (reported_hit env query_sequence reference_sequence
          query_length reference_length (state_before env query_sequence
            reference_sequence query_length reference_length scores hit hit_summary i)
          i)) = true) ∨
      ¬ energy_of env (reported_hit env query_sequence reference_sequence
          query_length reference_length (state_before env query_sequence
            reference_sequence query_length reference_length scores hit hit_summary i)
          i) < env.energy_threshold) :
    (state_before env query_sequence reference_sequence query_length reference_length
        scores hit hit_summary (i + 1)).hit_summary =
      (state_before env query_sequence reference_sequence query_length reference_length
        scores hit hit_summary i).hit_summary ∧
    (state_before env query_sequence reference_sequence query_length reference_length
        scores hit hit_summary (i + 1)).scan_score =
      (state_before env query_sequence reference_sequence query_length reference_length
        scores hit hit_summary i).scan_score ∧
    (state_before env query_sequence reference_sequence query_length reference_length
        scores hit hit_summary (i + 1)).fpout =
      (state_before env query_sequence reference_sequence query_length reference_length
        scores hit hit_summary i).fpout := by
  have hc : ¬ accept_cond env query_sequence reference_sequence query_length
      reference_length (state_before env query_sequence reference_sequence query_length
        reference_length scores hit hit_summary i) i := by
    rintro ⟨c1, c2, c3, c4⟩
    rcases hrej with h | h | h | h
    · exact absurd c1 (not_le.mpr h)
    · rw [c2] at h; exact Bool.noConfusion h
    · rw [c3 h.1] at h; exact Bool.noConfusion h.2
    · exact h c4
  rw [state_before_succ]
  exact loop_body_of_reject env query_sequence reference_sequence query_length
    reference_length _ i hc

/-- Witness for C13 in scenario S: the second candidate is rejected by the
overlap test and the summary is unchanged by its iteration. -/
theorem rejected_candidate_leaves_summary_witness :
    1 ∈ loop_indices (scores_length_of env_S query8 reference20 8 20
      (fun _ => zero_score)) ∧
    (overlap_call env_S (state_before env_S query8 reference20 8 20
        (fun _ => zero_score) calloc_hit fresh_summary 1)
      (traced_hit env_S query8 reference20 8 20
        (state_before env_S query8 reference20 8 20 (fun _ => zero_score) calloc_hit
          fresh_summary 1) 1)).1 = false ∧
    ((state_before env_S query8 reference20 8 20 (fun _ => zero_score) calloc_hit
        fresh_summary (1 + 1)).hit_summary =
      (state_before env_S query8 reference20 8 20 (fun _ => zero_score) calloc_hit
        fresh_summary 1).hit_summary ∧
    (state_before env_S query8 reference20 8 20 (fun _ => zero_score) calloc_hit
        fresh_summary (1 + 1)).scan_score =
      (state_before env_S query8 reference20 8 20 (fun _ => zero_score) calloc_hit
        fresh_summary 1).scan_score ∧
    (state_before env_S query8 reference20 8 20 (fun _ => zero_score) calloc_hit
        fresh_summary (1 + 1)).fpout =
      (state_before env_S query8 reference20 8 20 (fun _ => zero_score) calloc_hit
        fresh_summary 1).fpout) :=
  ⟨by decide, by decide,
    rejected_candidate_leaves_summary env_S query8 reference20 8 20
      (fun _ => zero_score) calloc_hit fresh_summary 1 (by decide)
      (Or.inr (Or.inl (by decide)))⟩

/-- C20: if `energy_threshold ≤ 0`, the scan score returned by
`do_alignment` is strictly positive if and only if `hit_summary.no_hits > 0`,
so `find_targets` writes the summary header exactly when at least one hit
was accepted; with energy evaluation disabled the returned scan score
equals `1000000 * no_hits`; and every accepted hit contributes a strictly
positive amount to the scan score. -/
theorem scan_score_positive_iff_hits (env : Env)
    (query_sequence reference_sequence : List Char)
    (query_length reference_length : Int) (scores : Nat → score_struct)
    (hit : hit_struct) (hit_summary : HitSummary)
    (gene_seq mirna_seq : List Char) (gene_len mirna_len : Int)
    (hthr : env.energy_threshold ≤ 0) :
    ((do_alignment env query_sequence reference_sequence query_length reference_length
        scores hit hit_summary).scan_score > 0 ↔
      (do_alignment env query_sequence reference_sequence query_length reference_length
        scores hit hit_summary).hit_summary.no_hits > 0) ∧
    (OutLine.summary_header ∈ (find_targets env gene_seq mirna_seq gene_len mirna_len).2 ↔
      (find_targets_scan env gene_seq mirna_seq gene_len mirna_len).hit_summary.no_hits
        > 0) ∧
    (env.no_energy = true →
      (do_alignment env query_sequence reference_sequence query_length reference_length
        scores hit hit_summary).scan_score =
      1000000 * (((do_alignment env query_sequence reference_sequence query_length
        reference_length scores hit hit_summary).hit_summary.no_hits : Int) : ℚ)) ∧
    (∀ p ∈ accepted_hits env query_sequence reference_sequence query_length
      reference_length scores hit hit_summary, p.2 * -1 > 0) := by
  have key : ∀ (q r : List Char) (ql rl : Int) (sc : Nat → score_struct)
      (h : hit_struct) (hs : HitSummary),
      ((do_alignment env q r ql rl sc h hs).scan_score > 0 ↔
        (do_alignment env q r ql rl sc h hs).hit_summary.no_hits > 0) := by
    intro q r ql rl sc h hs
    obtain ⟨h1, _, h3, _⟩ := run_invariant env q r ql rl sc h hs
      (scores_length_of env q r ql rl sc + 1).toNat
    rw [do_alignment_eq_state_before, h1, h3]
    exact sum_neg_energy_pos_iff _ env.energy_threshold hthr
      (fun p hp => (accepted_upto_energy env q r ql rl sc h hs _ p hp).1)
  refine ⟨key _ _ _ _ _ _ _, ?_, fun hno => ?_, fun p hp => ?_⟩
  rotate_left 2
  · have := (accepted_upto_energy env query_sequence reference_sequence query_length
      reference_length scores hit hit_summary _ p hp).1
    linarith
  · rw [find_targets_header_iff]
    exact key _ _ _ _ _ _ _
  · obtain ⟨h1, _, h3, _⟩ := run_invariant env query_sequence reference_sequence
      query_length reference_length scores hit hit_summary
      (scores_length_of env query_sequence reference_sequence query_length
        reference_length scores + 1).toNat
    rw [do_alignment_eq_state_before, h1, h3]
    exact sum_neg_energy_sentinel _
      (fun p hp => (accepted_upto_energy env query_sequence reference_sequence
        query_length reference_length scores hit hit_summary _ p hp).2 hno)

/-- Witness for C20 in scenario F, whose energy threshold is -20. -/
theorem scan_score_positive_iff_hits_witness :
    env_F.energy_threshold ≤ 0 ∧
    (((do_alignment env_F query8 reference20 8 20 (fun _ => zero_score) calloc_hit
        fresh_summary).scan_score > 0 ↔
      (do_alignment env_F query8 reference20 8 20 (fun _ => zero_score) calloc_hit
        fresh_summary).hit_summary.no_hits > 0) ∧
    (OutLine.summary_header ∈ (find_targets env_F reference20 query8 20 8).2 ↔
      (find_targets_scan env_F reference20 query8 20 8).hit_summary.no_hits > 0) ∧
    (env_F.no_energy = true →
      (do_alignment env_F query8 reference20 8 20 (fun _ => zero_score) calloc_hit
        fresh_summary).scan_score =
      1000000 * (((do_alignment env_F query8 reference20 8 20 (fun _ => zero_score)
        calloc_hit fresh_summary).hit_summary.no_hits : Int) : ℚ)) ∧
    (∀ p ∈ accepted_hits env_F query8 reference20 8 20 (fun _ => zero_score)
      calloc_hit fresh_summary, p.2 * -1 > 0)) :=
  ⟨by decide,
    scan_score_positive_iff_hits env_F query8 reference20 8 20 (fun _ => zero_score)
      calloc_hit fresh_summary reference20 query8 20 8 (by decide)⟩

/-- C15: for every traced-back hit with
`0 ≤ query_start ≤ query_end ≤ query_length` and
`0 ≤ ref_start ≤ ref_end ≤ reference_length`, the counter `utr_offset3p` of
the 5 prime loop equals `min query_start ref_start`, the counter
`utr_offset5p` of the 3 prime loop equals
`min (query_length - query_end) (reference_length - ref_end)`, the adjusted
`ref_start` is `max (ref_start - query_start) 0`, the adjusted `ref_end` is
`min (ref_end + (query_length - query_end)) reference_length - 1`, and both
lie within the reference. -/
theorem flank_offset_arithmetic (query_sequence reference_sequence : List Char)
    (query_length reference_length : Int) (h : hit_struct)
    (hq : 0 ≤ h.query_start ∧ h.query_start ≤ h.query_end ∧ h.query_end ≤ query_length)
    (hr : 0 ≤ h.ref_start ∧ h.ref_start ≤ h.ref_end ∧ h.ref_end ≤ reference_length) :
    (flank_state query_sequence reference_sequence query_length reference_length
      h).utr_offset3p = min h.query_start h.ref_start ∧
    (flank_state query_sequence reference_sequence query_length reference_length
      h).utr_offset5p = min (query_length - h.query_end) (reference_length - h.ref_end) ∧
    (flank_adjust query_sequence reference_sequence query_length reference_length
      h).ref_start = max (h.ref_start - h.query_start) 0 ∧
    (flank_adjust query_sequence reference_sequence query_length reference_length
      h).ref_end = min (h.ref_end + (query_length - h.query_end)) reference_length - 1 ∧
    0 ≤ (flank_adjust query_sequence reference_sequence query_length reference_length
      h).ref_start ∧
    (flank_adjust query_sequence reference_sequence query_length reference_length
      h).ref_end ≤ reference_length - 1 := by
  obtain ⟨_, _, f3, f4, f5, f6⟩ := flank_state_frame query_sequence reference_sequence
    query_length reference_length h
  obtain ⟨q1, q2, q3⟩ := hq
  obtain ⟨r1, r2, r3⟩ := hr
  have o3 : (flank_state query_sequence reference_sequence query_length reference_length
      h).utr_offset3p = min h.query_start h.ref_start := by
    rw [f5]; split_ifs <;> omega
  have o5 : (flank_state query_sequence reference_sequence query_length reference_length
      h).utr_offset5p = min (query_length - h.query_end) (reference_length - h.ref_end) := by
    rw [f6]; split_ifs <;> omega
  rw [flank_adjust_eq]
  simp only [f3, f4, o3, o5]
  refine ⟨trivial, trivial, ?_, ?_, ?_, ?_⟩ <;> omega

/-- Witness for C15: the 3-column core of scenario F, with 5 unaligned query
positions, in a query of length 8 and a reference of length 20. -/
theorem flank_offset_arithmetic_witness :
    (0 ≤ core_short.query_start ∧ core_short.query_start ≤ core_short.query_end ∧
      core_short.query_end ≤ 8) ∧
    (0 ≤ core_short.ref_start ∧ core_short.ref_start ≤ core_short.ref_end ∧
      core_short.ref_end ≤ 20) ∧
    ((flank_state query8 reference20 8 20 core_short).utr_offset3p =
        min core_short.query_start core_short.ref_start ∧
    (flank_state query8 reference20 8 20 core_short).utr_offset5p =
        min (8 - core_short.query_end) (20 - core_short.ref_end) ∧
    (flank_adjust query8 reference20 8 20 core_short).ref_start =
        max (core_short.ref_start - core_short.query_start) 0 ∧
    (flank_adjust query8 reference20 8 20 core_short).ref_end =
        min (core_short.ref_end + (8 - core_short.query_end)) 20 - 1 ∧
    0 ≤ (flank_adjust query8 reference20 8 20 core_short).ref_start ∧
    (flank_adjust query8 reference20 8 20 core_short).ref_end ≤ 20 - 1) :=
  ⟨by decide, by decide,
    flank_offset_arithmetic query8 reference20 8 20 core_short (by decide) (by decide)⟩

/-- C16: for every traced-back hit with
`0 ≤ query_start ≤ query_end ≤ query_length` whose reference coordinates lie
in the reference, starting from cleared fragments and sequences of the given
lengths without NUL, `rest[0..2]` have length `query_start` and `rest[3..5]`
have length `query_length - query_end`; `rest[0]` is the lower-cased query
prefix, `rest[3]` the lower-cased query suffix from `query_end` on,
`rest[2]` and `rest[5]` consist of spaces, and `rest[1]` and `rest[4]` hold
the lower-cased reference symbol at the diagonally corresponding position,
`ref_start - query_start + j` and `ref_end + k`, or a gap character exactly
where that position falls outside the reference. -/
theorem flank_fragment_contents (query_sequence reference_sequence : List Char)
    (query_length reference_length : Int) (h : hit_struct)
    (hq : 0 ≤ h.query_start ∧ h.query_start ≤ h.query_end ∧ h.query_end ≤ query_length)
    (hr : h.ref_start ≤ reference_length ∧ 0 ≤ h.ref_end)
    (hclear : h.rest0 = [] ∧ h.rest1 = [] ∧ h.rest2 = [] ∧
      h.rest3 = [] ∧ h.rest4 = [] ∧ h.rest5 = [])
    (hqseq : (query_sequence.length : Int) = query_length ∧
      ∀ c ∈ query_sequence, c ≠ NUL)
    (hrseq : (reference_sequence.length : Int) = reference_length ∧
      ∀ c ∈ reference_sequence, c ≠ NUL) :
    let f := flank_adjust query_sequence reference_sequence query_length
      reference_length h
    ((f.rest0.length : Int) = h.query_start ∧ (f.rest1.length : Int) = h.query_start ∧
      (f.rest2.length : Int) = h.query_start) ∧
    ((f.rest3.length : Int) = query_length - h.query_end ∧
      (f.rest4.length : Int) = query_length - h.query_end ∧
      (f.rest5.length : Int) = query_length - h.query_end) ∧
    f.rest0 = (query_sequence.take h.query_start.toNat).map Char.toLower ∧
    f.rest3 = (query_sequence.drop h.query_end.toNat).map Char.toLower ∧
    f.rest2 = List.replicate h.query_start.toNat SPACE ∧
    f.rest5 = List.replicate (query_length - h.query_end).toNat SPACE ∧
    f.rest1 = (List.range h.query_start.toNat).map (fun (j : Nat) =>
      if 0 ≤ h.ref_start - h.query_start + (j : Int) ∧
          h.ref_start - h.query_start + (j : Int) < reference_length then
        (charAt reference_sequence (h.ref_start - h.query_start + (j : Int))).toLower
      else '-') ∧
    f.rest4 = (List.range (query_length - h.query_end).toNat).map (fun (k : Nat) =>
      if 0 ≤ h.ref_end + (k : Int) ∧ h.ref_end + (k : Int) < reference_length then
        (charAt reference_sequence (h.ref_end + (k : Int))).toLower
      else '-') := by
  obtain ⟨e0, e1, e2, e3, e4, e5⟩ := flank_state_rest query_sequence reference_sequence
    query_length reference_length h hq hr hclear hqseq hrseq
  obtain ⟨q1, q2, q3⟩ := hq
  obtain ⟨r1, r2⟩ := hr
  obtain ⟨ql1, _⟩ := hqseq
  intro f
  have g0 : f.rest0 = (flank_state query_sequence reference_sequence query_length
      reference_length h).hit.rest0 := rfl
  have g1 : f.rest1 = (flank_state query_sequence reference_sequence query_length
      reference_length h).hit.rest1 := rfl
  have g2 : f.rest2 = (flank_state query_sequence reference_sequence query_length
      reference_length h).hit.rest2 := rfl
  have g3 : f.rest3 = (flank_state query_sequence reference_sequence query_length
      reference_length h).hit.rest3 := rfl
  have g4 : f.rest4 = (flank_state query_sequence reference_sequence query_length
      reference_length h).hit.rest4 := rfl
  have g5 : f.rest5 = (flank_state query_sequence reference_sequence query_length
      reference_length h).hit.rest5 := rfl
  rw [g0, g1, g2, g3, g4, g5, e0, e1, e2, e3, e4, e5]
  refine ⟨⟨?_, ?_, ?_⟩, ⟨?_, ?_, ?_⟩, ?_, ?_, ?_, ?_, ?_, ?_⟩
  · simp only [List.length_map, List.length_range]; omega
  · simp only [List.length_map, List.length_range]; omega
  · simp only [List.length_map, List.length_range]; omega
  · simp only [List.length_map, List.length_range]; omega
  · simp only [List.length_map, List.length_range]; omega
  · simp only [List.length_map, List.length_range]; omega
  · have := range_map_charAt query_sequence 0 h.query_start.toNat (by omega)
    simpa using this
  · have := range_map_charAt query_sequence h.query_end.toNat
      (query_length - h.query_end).toNat (by omega)
    rw [List.take_of_length_le (by rw [List.length_drop]; omega)] at this
    rw [← this]
    apply List.map_congr_left
    intro k _
    have : ((h.query_end.toNat + k : Nat) : Int) = h.query_end + (k : Int) := by
      push_cast; omega
    rw [this]
  · simp
  · simp
  · apply List.map_congr_left
    intro j hj
    simp only [List.mem_range] at hj
    have e : h.ref_start - (h.query_start - (j : Int)) =
        h.ref_start - h.query_start + (j : Int) := by ring
    rw [e]
    by_cases hp : 0 ≤ h.ref_start - h.query_start + (j : Int)
    · have hlt : h.ref_start - h.query_start + (j : Int) < reference_length := by omega
      simp [hp, hlt]
    · simp [hp]
  · apply List.map_congr_left
    intro k _
    have hp : 0 ≤ h.ref_end + (k : Int) := by omega
    simp [hp]

/-- Witness for C16: the 3-column core of scenario F in the query of length
8 and the reference of length 20. -/
theorem flank_fragment_contents_witness :
    (0 ≤ core_short.query_start ∧ core_short.query_start ≤ core_short.query_end ∧
      core_short.query_end ≤ 8) ∧
    (core_short.ref_start ≤ 20 ∧ 0 ≤ core_short.ref_end) ∧
    ((query8.length : Int) = 8 ∧ ∀ c ∈ query8, c ≠ NUL) ∧
    ((reference20.length : Int) = 20 ∧ ∀ c ∈ reference20, c ≠ NUL) ∧
    (flank_adjust query8 reference20 8 20 core_short).rest0 = "ugagg".toList ∧
    (flank_adjust query8 reference20 8 20 core_short).rest1 = "acuac".toList ∧
    (flank_adjust query8 reference20 8 20 core_short).rest0 =
      (query8.take core_short.query_start.toNat).map Char.toLower :=
  ⟨by decide, by decide, by decide, by decide, by decide, by decide,
    (flank_fragment_contents query8 reference20 8 20 core_short (by decide) (by decide)
      (by decide) (by decide) (by decide)).2.2.1⟩

/-- C14: after the grid set-up of `find_targets`, for all `mirna_len ≥ 0`
and `gene_len ≥ 0`, every cell of row 0 and of column 0 of the best grid,
of the three state grids, of the score table and of the four traceback
layers exists and is 0. -/
theorem grid_setup_boundary_zero (mirna_len gene_len : Int) (hm : 0 ≤ mirna_len)
    (hg : 0 ≤ gene_len) :
    boundary_zero mirna_len gene_len (grid_setup mirna_len gene_len).best ∧
    boundary_zero mirna_len gene_len (grid_setup mirna_len gene_len).a_nt_nt ∧
    boundary_zero mirna_len gene_len (grid_setup mirna_len gene_len).b_gap_nt ∧
    boundary_zero mirna_len gene_len (grid_setup mirna_len gene_len).c_nt_gap ∧
    boundary_zero mirna_len gene_len (grid_setup mirna_len gene_len).nt_nt_score ∧
    boundary_zero mirna_len gene_len (grid_setup mirna_len gene_len).track0 ∧
    boundary_zero mirna_len gene_len (grid_setup mirna_len gene_len).track1 ∧
    boundary_zero mirna_len gene_len (grid_setup mirna_len gene_len).track2 ∧
    boundary_zero mirna_len gene_len (grid_setup mirna_len gene_len).track3 := by
  obtain ⟨e1, e2, e3, e4, e5, e6, e7, e8, e9⟩ := grid_setup_eq mirna_len gene_len
  have z := boundary_zero_of_zeroed mirna_len gene_len hm hg
  rw [e1, e2, e3, e4, e5, e6, e7, e8, e9]
  exact ⟨z, z, z, z, z, z, z, z, z⟩

/-- Witness for C14: a query of length 0 against a reference of length 3. -/
theorem grid_setup_boundary_zero_witness :
    (0 : Int) ≤ 0 ∧ (0 : Int) ≤ 3 ∧
    (grid_setup 0 3).best = [[0, 0, 0, 0]] ∧
    (boundary_zero 0 3 (grid_setup 0 3).best ∧
    boundary_zero 0 3 (grid_setup 0 3).a_nt_nt ∧
    boundary_zero 0 3 (grid_setup 0 3).b_gap_nt ∧
    boundary_zero 0 3 (grid_setup 0 3).c_nt_gap ∧
    boundary_zero 0 3 (grid_setup 0 3).nt_nt_score ∧
    boundary_zero 0 3 (grid_setup 0 3).track0 ∧
    boundary_zero 0 3 (grid_setup 0 3).track1 ∧
    boundary_zero 0 3 (grid_setup 0 3).track2 ∧
    boundary_zero 0 3 (grid_setup 0 3).track3) :=
  ⟨by decide, by decide, by decide, grid_setup_boundary_zero 0 3 (by decide) (by decide)⟩

/-- C17, the code at the failing input: in scenario I `scores_length = 1`
is within the capacity `query_length * reference_length = 1` of the
candidate array, yet the loop visits the indices 0 and 1, index 1 is not
below the capacity, and the cell at index 1, which is no recorded
candidate, passes the score threshold 0 and is traced back. -/
theorem candidate_index_out_of_range :
    scores_length_of env_I "A".toList "U".toList 1 1 (fun _ => zero_score) = 1 ∧
    scores_length_of env_I "A".toList "U".toList 1 1 (fun _ => zero_score) ≤ 1 * 1 ∧
    loop_indices (scores_length_of env_I "A".toList "U".toList 1 1
      (fun _ => zero_score)) = [0, 1] ∧
    ¬ ((1 : Int) < 1 * 1) ∧
    ¬ ((1 : Int) < scores_length_of env_I "A".toList "U".toList 1 1
      (fun _ => zero_score)) ∧
    traced_back env_I (state_before env_I "A".toList "U".toList 1 1
      (fun _ => zero_score) calloc_hit fresh_summary 1) 1 := by
  refine ⟨by decide, by decide, by decide, by decide, by decide, ?_⟩
  unfold traced_back
  decide

/-- The loop of line 115 visits exactly the indices `i ≤ scores_length`, and
each iteration reads and resets the cell `scores[i]` of its own index
only. -/
theorem loop_indices_bound (env : Env) (query_sequence reference_sequence : List Char)
    (query_length reference_length : Int) (st : ScanState) (scores_length : Int)
    (i : Nat) :
    (i ∈ loop_indices scores_length ↔ (i : Int) ≤ scores_length) ∧
    (loop_body env query_sequence reference_sequence query_length reference_length
      st i).scores = Function.update st.scores i zero_score := by
  refine ⟨?_, loop_body_scores env query_sequence reference_sequence query_length
    reference_length st i⟩
  simp only [loop_indices, List.mem_range]
  omega

/-- C19: whenever a candidate passes the score threshold and the overlap
test, the iteration records its traced-back span, the one before the flank
adjustment, in the cell `good_ones_count` of the overlap arrays, whatever
the seed check and the energy gate decide; and in scenario R the first
candidate passes the overlap test, is rejected by the seed check and the
energy gate, its span `[12, 15]` stays recorded, and the second candidate,
which meets the score, seed and energy criteria and overlaps it, is
rejected, so that no hit at all is accepted. -/
theorem span_recorded_before_gates :
    (∀ (env : Env) (query_sequence reference_sequence : List Char)
      (query_length reference_length : Int) (st : ScanState) (i : Nat),
      hit_score st i ≥ env.score_threshold →
      (overlap_call env st (traced_hit env query_sequence reference_sequence
        query_length reference_length st i)).1 = true →
      (loop_body env query_sequence reference_sequence query_length reference_length
          st i).good_ones_starts_j
        (loop_body env query_sequence reference_sequence query_length reference_length
          st i).good_ones_count =
        (traced_hit env query_sequence reference_sequence query_length reference_length
          st i).ref_start ∧
      (loop_body env query_sequence reference_sequence query_length reference_length
          st i).good_ones_ends_j
        (loop_body env query_sequence reference_sequence query_length reference_length
          st i).good_ones_count =
        (traced_hit env query_sequence reference_sequence query_length reference_length
          st i).ref_end) ∧
    ((overlap_call env_R (state_before env_R query8 reference20 8 20
        (fun _ => zero_score) calloc_hit fresh_summary 0)
      (traced_hit env_R query8 reference20 8 20
        (state_before env_R query8 reference20 8 20 (fun _ => zero_score) calloc_hit
          fresh_summary 0) 0)).1 = true ∧
    seed_fails (seed_counts (reported_hit env_R query8 reference20 8 20
      (state_before env_R query8 reference20 8 20 (fun _ => zero_score) calloc_hit
        fresh_summary 0) 0)) = true ∧
    ¬ energy_of env_R (reported_hit env_R query8 reference20 8 20
      (state_before env_R query8 reference20 8 20 (fun _ => zero_score) calloc_hit
        fresh_summary 0) 0) < env_R.energy_threshold ∧
    ¬ accepted_in env_R query8 reference20 8 20
      (state_before env_R query8 reference20 8 20 (fun _ => zero_score) calloc_hit
        fresh_summary 0) 0 ∧
    recorded (state_before env_R query8 reference20 8 20 (fun _ => zero_score)
      calloc_hit fresh_summary 1) 12 15 ∧
    ((reported_hit env_R query8 reference20 8 20
      (state_before env_R query8 reference20 8 20 (fun _ => zero_score) calloc_hit
        fresh_summary 0) 0).ref_start,
     (reported_hit env_R query8 reference20 8 20
      (state_before env_R query8 reference20 8 20 (fun _ => zero_score) calloc_hit
        fresh_summary 0) 0).ref_end) = (7, 14) ∧
    hit_score (state_before env_R query8 reference20 8 20 (fun _ => zero_score)
      calloc_hit fresh_summary 1) 1 ≥ env_R.score_threshold ∧
    seed_fails (seed_counts (reported_hit env_R query8 reference20 8 20
      (state_before env_R query8 reference20 8 20 (fun _ => zero_score) calloc_hit
        fresh_summary 1) 1)) = false ∧
    energy_of env_R (reported_hit env_R query8 reference20 8 20
      (state_before env_R query8 reference20 8 20 (fun _ => zero_score) calloc_hit
        fresh_summary 1) 1) < env_R.energy_threshold ∧
    spans_overlap 12 15
      (traced_hit env_R query8 reference20 8 20
        (state_before env_R query8 reference20 8 20 (fun _ => zero_score) calloc_hit
          fresh_summary 1) 1).ref_start
      (traced_hit env_R query8 reference20 8 20
        (state_before env_R query8 reference20 8 20 (fun _ => zero_score) calloc_hit
          fresh_summary 1) 1).ref_end = true ∧
    ¬ accepted_in env_R query8 reference20 8 20
      (state_before env_R query8 reference20 8 20 (fun _ => zero_score) calloc_hit
        fresh_summary 1) 1 ∧
    (do_alignment env_R query8 reference20 8 20 (fun _ => zero_score) calloc_hit
      fresh_summary).hit_summary.no_hits = 0) := by
  constructor
  · intro env query_sequence reference_sequence query_length reference_length st i h1 hb
    obtain ⟨f1, _⟩ := loop_body_overlap_fields env query_sequence reference_sequence
      query_length reference_length st i
    obtain ⟨g1, g2, _⟩ := f1 h1
    rw [g1, (g2 hb).1, (g2 hb).2, Function.update_same, Function.update_same]
    exact ⟨rfl, rfl⟩
  · refine ⟨by decide, by decide, by decide, ?_, ?_, by decide, by decide, by decide,
      by decide, by decide, ?_, by decide⟩
    · rw [accepted_in_iff]; decide
    · exact ⟨0, by decide, by decide, by decide⟩
    · rw [accepted_in_iff]; decide

/-- C11, the code at the failing input: in scenario D with score threshold 0
the candidate list holds exactly two candidates, their traced-back spans
overlap, both meet the score threshold and the energy criterion (strict
mode is off), and `do_alignment` accepts two hits: the first candidate and
the cell at index 2 behind the candidate list, which the loop also visits.
The summary hit count is 2. -/
theorem two_overlapping_candidates_phantom_hit :
    scores_length_of (env_D 0) query8 reference20 8 20 (fun _ => zero_score) = 2 ∧
    (env_D 0).testfor_overlap = testfor_overlap ∧
    spans_overlap
      (traced_hit (env_D 0) query8 reference20 8 20
        (state_before (env_D 0) query8 reference20 8 20 (fun _ => zero_score)
          calloc_hit fresh_summary 0) 0).ref_start
      (traced_hit (env_D 0) query8 reference20 8 20
        (state_before (env_D 0) query8 reference20 8 20 (fun _ => zero_score)
          calloc_hit fresh_summary 0) 0).ref_end
      (traced_hit (env_D 0) query8 reference20 8 20
        (state_before (env_D 0) query8 reference20 8 20 (fun _ => zero_score)
          calloc_hit fresh_summary 1) 1).ref_start
      (traced_hit (env_D 0) query8 reference20 8 20
        (state_before (env_D 0) query8 reference20 8 20 (fun _ => zero_score)
          calloc_hit fresh_summary 1) 1).ref_end = true ∧
    hit_score (state_before (env_D 0) query8 reference20 8 20 (fun _ => zero_score)
      calloc_hit fresh_summary 0) 0 ≥ (env_D 0).score_threshold ∧
    hit_score (state_before (env_D 0) query8 reference20 8 20 (fun _ => zero_score)
      calloc_hit fresh_summary 1) 1 ≥ (env_D 0).score_threshold ∧
    energy_of (env_D 0) (reported_hit (env_D 0) query8 reference20 8 20
      (state_before (env_D 0) query8 reference20 8 20 (fun _ => zero_score)
        calloc_hit fresh_summary 0) 0) < (env_D 0).energy_threshold ∧
    energy_of (env_D 0) (reported_hit (env_D 0) query8 reference20 8 20
      (state_before (env_D 0) query8 reference20 8 20 (fun _ => zero_score)
        calloc_hit fresh_summary 1) 1) < (env_D 0).energy_threshold ∧
    accepted_in (env_D 0) query8 reference20 8 20
      (state_before (env_D 0) query8 reference20 8 20 (fun _ => zero_score)
        calloc_hit fresh_summary 0) 0 ∧
    ¬ accepted_in (env_D 0) query8 reference20 8 20
      (state_before (env_D 0) query8 reference20 8 20 (fun _ => zero_score)
        calloc_hit fresh_summary 1) 1 ∧
    accepted_in (env_D 0) query8 reference20 8 20
      (state_before (env_D 0) query8 reference20 8 20 (fun _ => zero_score)
        calloc_hit fresh_summary 2) 2 ∧
    (do_alignment (env_D 0) query8 reference20 8 20 (fun _ => zero_score) calloc_hit
      fresh_summary).hit_summary.no_hits = 2 := by
  refine ⟨by decide, rfl, by decide, by decide, by decide, by decide, by decide, ?_, ?_,
    ?_, by decide⟩
  · rw [accepted_in_iff]; decide
  · rw [accepted_in_iff]; decide
  · rw [accepted_in_iff]; decide

/-- The seed scan of the model on a query string `q` and a marker string
`m`, with the marker read as `charAt m`: the test of line 216 passes exactly
when some index `s` has one non-gap character of `q` in front of it and the
indices `s, ..., s + 6` hold non-gap characters of `q` under exact-match
markers. -/
theorem seed_loop_check_iff (q m : List Char) :
    (seed_fails (seed_loop m q 0
        { mypos := 0, non_gap_count := 0, perfect_match_count := 0, gap_count := 0 })
        = false ↔
      ∃ s : Nat, (q.take s).countP (fun ch => ch ≠ '-') = 1 ∧
        ∀ k : Nat, k < 7 →
          (∃ ch, q[s + k]? = some ch ∧ ch ≠ '-') ∧
          charAt m (((s + k : Nat)) : Int) = '|') ∧
    (seed_fails (seed_loop m q 0
        { mypos := 0, non_gap_count := 0, perfect_match_count := 0, gap_count := 0 })
        = false → 8 ≤ q.countP (fun ch => ch ≠ '-')) ∧
    (seed_loop m q 0
        { mypos := 0, non_gap_count := 0, perfect_match_count := 0, gap_count := 0
          }).perfect_match_count ≤
      (seed_loop m q 0
        { mypos := 0, non_gap_count := 0, perfect_match_count := 0, gap_count := 0
          }).non_gap_count ∧
    seed_fails (seed_loop m q 0
        { mypos := 0, non_gap_count := 0, perfect_match_count := 0, gap_count := 0 }) =
      decide ((seed_loop m q 0
          { mypos := 0, non_gap_count := 0, perfect_match_count := 0, gap_count := 0
            }).perfect_match_count < 7 ∨
        (seed_loop m q 0
          { mypos := 0, non_gap_count := 0, perfect_match_count := 0, gap_count := 0
            }).gap_count > 0) := by
  obtain ⟨c1, c2, c3⟩ := seed_loop_counts m q 0
    { mypos := 0, non_gap_count := 0, perfect_match_count := 0, gap_count := 0 }
  simp only [Nat.zero_add] at c1 c2 c3
  generalize seed_loop m q 0
    { mypos := 0, non_gap_count := 0, perfect_match_count := 0, gap_count := 0 } = c
    at c1 c2 c3 ⊢
  have hle : c.perfect_match_count ≤ c.non_gap_count := by
    rw [c2, c3]
    apply List.countP_mono_left
    intro p _ hp
    simp only [decide_eq_true_eq] at hp
    simp only [hp, ne_eq, decide_not, Bool.not_eq_true', decide_eq_false_iff_not]
    decide
  have hpass : seed_fails c = false ↔
      ((seed_window_from q 0 0).countP (fun p => p.2 = '-') = 0 ∧
        7 ≤ (seed_window_from q 0 0).countP (fun p => charAt m (p.1 : Int) = '|')) := by
    rw [← c1, ← c2]
    simp only [seed_fails, decide_eq_false_iff_not, not_or, not_lt, gt_iff_lt]
    constructor
    · rintro ⟨_, h2, h3⟩; exact ⟨by omega, h2⟩
    · rintro ⟨h3, h2⟩; exact ⟨by omega, h2, by omega⟩
  have hchar : seed_fails c = false ↔
      ∃ s : Nat, (q.take s).countP (fun ch => ch ≠ '-') = 1 ∧
        ∀ k : Nat, k < 7 →
          (∃ ch, q[s + k]? = some ch ∧ ch ≠ '-') ∧
          charAt m (((s + k : Nat)) : Int) = '|' := by
    rw [hpass, seed_window_before_iff m q 0 0 (by omega)]
    constructor
    · rintro ⟨s, hc, hw⟩
      refine ⟨s, hc, fun k hk => ?_⟩
      obtain ⟨⟨ch, h1, h2⟩, h3⟩ := hw k hk
      rw [List.getElem?_drop] at h1
      rw [Nat.zero_add] at h3
      exact ⟨⟨ch, h1, h2⟩, h3⟩
    · rintro ⟨s, hc, hw⟩
      refine ⟨s, hc, fun k hk => ?_⟩
      obtain ⟨⟨ch, h1, h2⟩, h3⟩ := hw k hk
      refine ⟨⟨ch, ?_, h2⟩, ?_⟩
      · rw [List.getElem?_drop]; exact h1
      · rw [Nat.zero_add]; exact h3
  refine ⟨hchar, ?_, hle, ?_⟩
  · intro hp
    obtain ⟨s, hc, hw⟩ := (seed_window_before_iff m q 0 0 (by omega)).mp (hpass.mp hp)
    have h7 := window_ok_count m 7 (q.drop s) (0 + s) hw
    have hsplit : q.countP (fun ch => ch ≠ '-') =
        (q.take s).countP (fun ch => ch ≠ '-') +
          (q.drop s).countP (fun ch => ch ≠ '-') := by
      rw [← List.countP_append, List.take_append_drop]
    omega
  · simp only [seed_fails]
    congr 1
    apply propext
    constructor
    · rintro (h | h | h)
      · left; omega
      · left; exact h
      · right; exact h
    · rintro (h | h)
      · right; left; exact h
      · right; right; exact h

/-- C18: for every combined query-side string `q` and marker string `m`
that fit their buffers of 200 characters, `m` at least as long as `q`, and
whatever the marker buffer held before, the strict seed check of lines
181-219 passes if and only if for some index `s` the part of `q` in front of
`s` holds exactly one non-gap character and the 7 consecutive indices
`s, ..., s + 6` hold non-gap characters of `q` (its 2nd to 8th) while `m`
holds an exact-match marker at each of them; then `q` has at least 8 non-gap
characters; and `perfect_match_count ≤ non_gap_count` always holds, so that
the test `non_gap_count < 7` never changes the outcome. -/
theorem strict_seed_check_characterised (q m : List Char) (stale : Nat → Char)
    (hfit : strict_constructs_fit q m) :
    (seed_fails (seed_counts_buf stale q m) = false ↔
      ∃ s : Nat, (q.take s).countP (fun ch => ch ≠ '-') = 1 ∧
        ∀ k : Nat, k < 7 →
          (∃ ch, q[s + k]? = some ch ∧ ch ≠ '-') ∧ m[s + k]? = some '|') ∧
    (seed_fails (seed_counts_buf stale q m) = false →
      8 ≤ q.countP (fun ch => ch ≠ '-')) ∧
    (seed_counts_buf stale q m).perfect_match_count ≤
      (seed_counts_buf stale q m).non_gap_count ∧
    seed_fails (seed_counts_buf stale q m) =
      decide ((seed_counts_buf stale q m).perfect_match_count < 7 ∨
        (seed_counts_buf stale q m).gap_count > 0) := by
  obtain ⟨h1, h2, h3, h4⟩ := seed_loop_check_iff q m
  rw [seed_counts_buf_eq stale q m hfit]
  refine ⟨?_, h2, h3, h4⟩
  rw [h1]
  constructor
  · rintro ⟨s, hc, hw⟩
    exact ⟨s, hc, fun k hk => ⟨(hw k hk).1, (charAt_eq_bar_iff m (s + k)).mp (hw k hk).2⟩⟩
  · rintro ⟨s, hc, hw⟩
    exact ⟨s, hc, fun k hk => ⟨(hw k hk).1, (charAt_eq_bar_iff m (s + k)).mpr (hw k hk).2⟩⟩

/-- Witness for C18: a query string of 8 non-gap characters under 8
exact-match markers, with a marker buffer that held exact-match markers
before. -/
theorem strict_seed_check_characterised_witness :
    strict_constructs_fit "GAUGGAGU".toList "||||||||".toList ∧
    seed_fails (seed_counts_buf (fun _ => '|') "GAUGGAGU".toList "||||||||".toList)
      = false ∧
    (∃ s : Nat, ("GAUGGAGU".toList.take s).countP (fun ch => ch ≠ '-') = 1 ∧
      ∀ k : Nat, k < 7 →
        (∃ ch, "GAUGGAGU".toList[s + k]? = some ch ∧ ch ≠ '-') ∧
        "||||||||".toList[s + k]? = some '|') ∧
    8 ≤ "GAUGGAGU".toList.countP (fun ch => ch ≠ '-') :=
  have h := strict_seed_check_characterised "GAUGGAGU".toList "||||||||".toList
    (fun _ => '|') ⟨by decide, by decide, by decide⟩
  ⟨⟨by decide, by decide, by decide⟩, by decide, h.1.mp (by decide), h.2.1 (by decide)⟩

/-- Outside these bounds the scan of the buffers and the seed scan of the
model differ: with an empty marker string in a buffer that held exact-match
markers before, scan.c counts the stale markers behind the terminator and
passes the check, which the scan of the strings fails. -/
theorem seed_scan_reads_stale_markers :
    ¬ strict_constructs_fit "GAUGGAGU".toList [] ∧
    seed_fails (seed_counts_buf (fun _ => '|') "GAUGGAGU".toList []) = false ∧
    seed_fails (seed_loop [] "GAUGGAGU".toList 0
      { mypos := 0, non_gap_count := 0, perfect_match_count := 0, gap_count := 0 })
      = true := by
  refine ⟨?_, by decide, by decide⟩
  rintro ⟨_, _, h⟩
  exact absurd h (by decide)

end MiRanda
